import Mathlib

/-!
# SceneManager: tagged-resource registry and transform builder

A shallow embedding of `SceneManager.cpp` (the enhanced variant, with the
original variant's lookups kept under `Original`) and of the keyboard and
projection handling of `ViewManager.cpp`, followed by the theorems that settle
the specification's claims about them.

Conventions of the embedding.

* A C++ pointer member is modelled by the Boolean "is not NULL".
* `GLuint` / `uint32_t` values are natural numbers below `2 ^ 32`; the
  conversion to `int` is `static_cast_int`.
* `std::unordered_map<std::string, V>` is modelled by `String → Option V`
  (`find` is application, `m[k] = v` is `unordered_map.assign`, `clear()` is
  `unordered_map.empty`); the code never iterates over its maps.
* `TEXTURE_INFO m_textureIDs[16]` is a list of 16 entries; reading or writing
  an element at an index outside the list is a fault, modelled by `none`.
* Calls into OpenGL are returned as a list of `GLCall`, uniform writes as a
  list of `ShaderCall`.
* `float` values that are only stored and copied (material literals) are the
  rationals their literals denote; the few sums and products of such values
  (positions of the object routines, frame timing and projection bounds of the
  view manager) are taken exactly; the transform builder is modelled over `ℝ`.
-/

/-! ## Data model -/

/-- The value `static_cast<GLuint>(-1)`, the "no texture" sentinel stored by the constructor. -/
def GLuint_minus_one : Nat := 4294967295

/-- Conversion of a 32-bit unsigned value to `int` (`static_cast<int>(GLuint)`). -/
def static_cast_int (v : Nat) : Int :=
  if v % 2 ^ 32 < 2 ^ 31 then ((v % 2 ^ 32 : Nat) : Int) else ((v % 2 ^ 32 : Nat) : Int) - 2 ^ 32

/-- The struct `TEXTURE_INFO`, with `std::string tag` and `uint32_t ID`. -/
structure TEXTURE_INFO where
  tag : String
  ID : Nat
deriving DecidableEq

/-- The type `glm::vec3` over the scalar type `F`. -/
structure vec3 (F : Type) where
  x : F
  y : F
  z : F
deriving DecidableEq

/-- The struct `OBJECT_MATERIAL`. -/
structure OBJECT_MATERIAL where
  diffuseColor : vec3 ℚ
  specularColor : vec3 ℚ
  shininess : ℚ
  tag : String
deriving DecidableEq

/-- A `std::unordered_map<std::string, V>`, as the partial function it denotes. -/
abbrev unordered_map (V : Type) := String → Option V

/-- The empty map (a fresh map, or a map after `clear()`). -/
def unordered_map.empty {V : Type} : unordered_map V := fun _ => none

/-- The statement `m[key] = value`: insert, or overwrite the entry of `key`. -/
def unordered_map.assign {V : Type} (m : unordered_map V) (key : String) (value : V) :
    unordered_map V :=
  fun k => if k = key then some value else m k

/-- What `stbi_load` reports for an image it could read. -/
structure stbi_image where
  width : Int
  height : Int
  colorChannels : Int
deriving DecidableEq

/-- The OpenGL calls issued by the texture registry (target `GL_TEXTURE_2D` throughout). -/
inductive GLCall where
  | glGenTextures (textureID : Nat)
  | glBindTexture (textureID : Nat)
  | glTexParameteri (pname : String) (param : String)
  | glTexImage2D (internalformat : String) (width height : Int) (format : String)
  | glGenerateMipmap
  | glDeleteTextures (textureID : Nat)
  | glActiveTexture (unit : Nat)
deriving DecidableEq

/-- The members of `class SceneManager`. -/
structure SceneManager where
  m_pShaderManager : Bool
  m_basicMeshes : Bool
  m_loadedTextures : Nat
  m_textureIDs : List TEXTURE_INFO
  m_objectMaterials : List OBJECT_MATERIAL
  m_textureIdLookup : unordered_map Nat
  m_textureSlotLookup : unordered_map Int
  m_materialLookup : unordered_map OBJECT_MATERIAL

namespace SceneManager

/-! ## Texture registry -/

/-- The constructor `SceneManager(ShaderManager* pShaderManager)`. -/
def new (pShaderManager : Bool) : SceneManager where
  m_pShaderManager := pShaderManager
  m_basicMeshes := true
  m_loadedTextures := 0
  m_textureIDs := List.replicate 16 { tag := "/0", ID := GLuint_minus_one }
  m_objectMaterials := []
  m_textureIdLookup := unordered_map.empty
  m_textureSlotLookup := unordered_map.empty
  m_materialLookup := unordered_map.empty

/-- The OpenGL calls of `CreateGLTexture` up to the channel test. -/
def CreateGLTexture.setup (textureID : Nat) : List GLCall :=
  [ .glGenTextures textureID, .glBindTexture textureID,
    .glTexParameteri "GL_TEXTURE_WRAP_S" "GL_REPEAT",
    .glTexParameteri "GL_TEXTURE_WRAP_T" "GL_REPEAT",
    .glTexParameteri "GL_TEXTURE_MIN_FILTER" "GL_LINEAR",
    .glTexParameteri "GL_TEXTURE_MAG_FILTER" "GL_LINEAR" ]

/-- The registration block of `CreateGLTexture` (lines 149-164): store the
handle and the tag at array position `m_loadedTextures`, record the tag in both
lookup maps, advance the count. The array has no element at that position once
all its entries are used: the store is then outside the array (`none`). -/
def CreateGLTexture.register (s : SceneManager) (textureID : Nat) (tag : String) :
    Option SceneManager :=
  if s.m_loadedTextures < s.m_textureIDs.length then
    some { s with
      m_textureIDs := s.m_textureIDs.set s.m_loadedTextures { tag := tag, ID := textureID }
      m_textureIdLookup := s.m_textureIdLookup.assign tag textureID
      m_textureSlotLookup := s.m_textureSlotLookup.assign tag (s.m_loadedTextures : Int)
      m_loadedTextures := s.m_loadedTextures + 1 }
  else none

/-- The method `bool CreateGLTexture(const char* filename, std::string tag)`.
`image` is what `stbi_load(filename, ...)` returned (`none` for a NULL
pointer) and `textureID` the name `glGenTextures` stored. The result is the
returned Boolean, the new state and the OpenGL calls issued; `none` is the
fault of `CreateGLTexture.register`. -/
def CreateGLTexture (s : SceneManager) (image : Option stbi_image) (textureID : Nat)
    (tag : String) : Option (Bool × SceneManager × List GLCall) :=
  match image with
  | some img =>
    if img.colorChannels = 3 then
      (CreateGLTexture.register s textureID tag).map fun s1 =>
        (true, s1, CreateGLTexture.setup textureID ++
          [.glTexImage2D "GL_RGB8" img.width img.height "GL_RGB", .glGenerateMipmap,
           .glBindTexture 0])
    else if img.colorChannels = 4 then
      (CreateGLTexture.register s textureID tag).map fun s1 =>
        (true, s1, CreateGLTexture.setup textureID ++
          [.glTexImage2D "GL_RGBA8" img.width img.height "GL_RGBA", .glGenerateMipmap,
           .glBindTexture 0])
    else
      some (false, s, CreateGLTexture.setup textureID ++ [.glBindTexture 0])
  | none => some (false, s, [])

/-- One iteration of the loop of `DestroyGLTextures`, at index `i`. -/
def DestroyGLTextures.body (acc : List TEXTURE_INFO × List GLCall) (i : Nat) :
    Option (List TEXTURE_INFO × List GLCall) :=
  match acc.1[i]? with
  | none => none
  | some e =>
    if e.ID ≠ GLuint_minus_one then
      some (acc.1.set i { e with ID := GLuint_minus_one }, acc.2 ++ [.glDeleteTextures e.ID])
    else some acc

/-- The method `void DestroyGLTextures()`: the `for` loop over
`0 ≤ i < m_loadedTextures`, then `m_loadedTextures = 0`. -/
def DestroyGLTextures (s : SceneManager) : Option (SceneManager × List GLCall) :=
  ((List.range s.m_loadedTextures).foldlM DestroyGLTextures.body (s.m_textureIDs, [])).map
    fun r => ({ s with m_textureIDs := r.1, m_loadedTextures := 0 }, r.2)

/-- The loop `while ((index < m_loadedTextures) && (bFound == false))` of
`FindTextureID`, entered at `index` with `remaining = m_loadedTextures - index`
iterations still allowed by the first conjunct; `textureID` starts as `-1`. -/
def FindTextureID.scan (ids : List TEXTURE_INFO) (tag : String) : Nat → Nat → Option Int
  | 0, _ => some (-1)
  | remaining + 1, index =>
    match ids[index]? with
    | none => none
    | some e =>
      if e.tag = tag then some (static_cast_int e.ID)
      else FindTextureID.scan ids tag remaining (index + 1)

/-- The method `int FindTextureID(std::string tag)`. -/
def FindTextureID (s : SceneManager) (tag : String) : Option Int :=
  match s.m_textureIdLookup tag with
  | some textureID => some (static_cast_int textureID)
  | none => FindTextureID.scan s.m_textureIDs tag s.m_loadedTextures 0

/-- The loop `while ((index < m_loadedTextures) && (bFound == false))` of
`FindTextureSlot`, entered at `index` with `remaining = m_loadedTextures - index`;
`textureSlot` starts as `-1`. -/
def FindTextureSlot.scan (ids : List TEXTURE_INFO) (tag : String) : Nat → Nat → Option Int
  | 0, _ => some (-1)
  | remaining + 1, index =>
    match ids[index]? with
    | none => none
    | some e =>
      if e.tag = tag then some (index : Int)
      else FindTextureSlot.scan ids tag remaining (index + 1)

/-- The method `int FindTextureSlot(std::string tag)`. -/
def FindTextureSlot (s : SceneManager) (tag : String) : Option Int :=
  match s.m_textureSlotLookup tag with
  | some slot => some slot
  | none => FindTextureSlot.scan s.m_textureIDs tag s.m_loadedTextures 0

/-! ## Material registry -/

/-- The loop `while ((index < size) && (bFound == false))` of `FindMaterial`
over the elements of `m_objectMaterials` from `index` on; `material` is the
content of the output parameter on entry. -/
def FindMaterial.scan (tag : String) (material : OBJECT_MATERIAL) :
    List OBJECT_MATERIAL → Bool × OBJECT_MATERIAL
  | [] => (false, material)
  | m :: rest => if m.tag = tag then (true, m) else FindMaterial.scan tag material rest

/-- The method `bool FindMaterial(std::string tag, OBJECT_MATERIAL& material)`:
the returned Boolean and the content of `material` on return. -/
def FindMaterial (s : SceneManager) (tag : String) (material : OBJECT_MATERIAL) :
    Bool × OBJECT_MATERIAL :=
  match s.m_materialLookup tag with
  | some m => (true, m)
  | none =>
    if s.m_objectMaterials.isEmpty then (false, material)
    else FindMaterial.scan tag material s.m_objectMaterials

/-- The twelve records `DefineObjectMaterials` pushes, in order. -/
def DefineObjectMaterials.materials : List OBJECT_MATERIAL :=
  [ { diffuseColor := ⟨0.7, 0.7, 0.7⟩, specularColor := ⟨0.9, 0.9, 0.9⟩, shininess := 64.0,
      tag := "metal" },
    { diffuseColor := ⟨0.3, 0.2, 0.1⟩, specularColor := ⟨0.1, 0.1, 0.1⟩, shininess := 16.0,
      tag := "wood" },
    { diffuseColor := ⟨0.2, 0.2, 0.3⟩, specularColor := ⟨1.0, 1.0, 1.0⟩, shininess := 128.0,
      tag := "glass" },
    { diffuseColor := ⟨0.5, 0.5, 0.5⟩, specularColor := ⟨0.3, 0.3, 0.3⟩, shininess := 24.0,
      tag := "plate" },
    { diffuseColor := ⟨0.8, 0.8, 0.9⟩, specularColor := ⟨0.2, 0.2, 0.2⟩, shininess := 8.0,
      tag := "backdrop" },
    { diffuseColor := ⟨0.4, 0.25, 0.1⟩, specularColor := ⟨0.5, 0.3, 0.2⟩, shininess := 30.0,
      tag := "liquid" },
    { diffuseColor := ⟨1.0, 1.0, 1.0⟩, specularColor := ⟨0.9, 0.9, 0.9⟩, shininess := 64.0,
      tag := "cover" },
    { diffuseColor := ⟨0.3, 0.15, 0.15⟩, specularColor := ⟨0.4, 0.2, 0.2⟩, shininess := 20.0,
      tag := "spine" },
    { diffuseColor := ⟨0.9, 0.9, 0.85⟩, specularColor := ⟨0.2, 0.2, 0.2⟩, shininess := 5.0,
      tag := "pages" },
    { diffuseColor := ⟨0.2, 0.6, 0.2⟩, specularColor := ⟨0.1, 0.3, 0.1⟩, shininess := 6.0,
      tag := "leaf" },
    { diffuseColor := ⟨0.2, 0.1, 0.0⟩, specularColor := ⟨0.05, 0.02, 0.01⟩, shininess := 4.0,
      tag := "soil" },
    { diffuseColor := ⟨0.8, 0.5, 0.3⟩, specularColor := ⟨0.2, 0.1, 0.05⟩, shininess := 16.0,
      tag := "clay" } ]

/-- The lookup build (lines 529-532): `m_materialLookup.clear()`, then
`m_materialLookup[mat.tag] = mat` for every `mat` of the list, in order. -/
def DefineObjectMaterials.buildLookup (materials : List OBJECT_MATERIAL) :
    unordered_map OBJECT_MATERIAL :=
  materials.foldl (fun m mat => m.assign mat.tag mat) unordered_map.empty

/-- The method `void DefineObjectMaterials()`. -/
def DefineObjectMaterials (s : SceneManager) : SceneManager :=
  { s with
    m_objectMaterials := s.m_objectMaterials ++ DefineObjectMaterials.materials
    m_materialLookup :=
      DefineObjectMaterials.buildLookup (s.m_objectMaterials ++ DefineObjectMaterials.materials) }

/-! ## The original (linear-scan) lookups -/

namespace Original

/-- The original `int FindTextureID(std::string tag)`: the linear scan alone. -/
def FindTextureID (s : SceneManager) (tag : String) : Option Int :=
  SceneManager.FindTextureID.scan s.m_textureIDs tag s.m_loadedTextures 0

/-- The original `int FindTextureSlot(std::string tag)`: the linear scan alone. -/
def FindTextureSlot (s : SceneManager) (tag : String) : Option Int :=
  SceneManager.FindTextureSlot.scan s.m_textureIDs tag s.m_loadedTextures 0

/-- The loop of the original `FindMaterial`, which copies `diffuseColor`,
`specularColor` and `shininess` (not `tag`) into the output parameter; the
result is the content of `material` when the loop ends. -/
def FindMaterial.scan (tag : String) (material : OBJECT_MATERIAL) :
    List OBJECT_MATERIAL → OBJECT_MATERIAL
  | [] => material
  | m :: rest =>
    if m.tag = tag then
      { material with
        diffuseColor := m.diffuseColor
        specularColor := m.specularColor
        shininess := m.shininess }
    else FindMaterial.scan tag material rest

/-- The original `bool FindMaterial(std::string tag, OBJECT_MATERIAL& material)`:
`false` on an empty list, otherwise the scan followed by `return(true)`. -/
def FindMaterial (s : SceneManager) (tag : String) (material : OBJECT_MATERIAL) :
    Bool × OBJECT_MATERIAL :=
  if s.m_objectMaterials.length = 0 then (false, material)
  else (true, FindMaterial.scan tag material s.m_objectMaterials)

end Original

/-! ## Call sequences -/

/-- A call of one of the state-changing registry methods, with what its
collaborators return. -/
inductive Call where
  | CreateGLTexture (image : Option stbi_image) (textureID : Nat) (tag : String)
  | DestroyGLTextures
  | DefineObjectMaterials
deriving DecidableEq

/-- The state after one call (`none` when the call faults). -/
def step (s : SceneManager) : Call → Option SceneManager
  | .CreateGLTexture image textureID tag =>
    (s.CreateGLTexture image textureID tag).map fun r => r.2.1
  | .DestroyGLTextures => s.DestroyGLTextures.map fun r => r.1
  | .DefineObjectMaterials => some s.DefineObjectMaterials

/-- The state after a sequence of calls, first call first. -/
def run (s : SceneManager) : List Call → Option SceneManager
  | [] => some s
  | c :: calls => (step s c).bind fun s1 => run s1 calls

/-- Whether a call is a `CreateGLTexture` that reaches the registration block:
the image was read and has 3 or 4 channels. -/
def Call.registers : Call → Bool
  | .CreateGLTexture (some img) _ _ => img.colorChannels = 3 || img.colorChannels = 4
  | _ => false

/-- Whether a call leaves the registration of `tag` alone: it is not
`DestroyGLTextures`, and if it is a `CreateGLTexture` of `tag` itself it does
not reach the registration block. -/
def Call.keeps (tag : String) : Call → Bool
  | .CreateGLTexture image textureID t =>
    t ≠ tag || !(Call.CreateGLTexture image textureID t).registers
  | .DestroyGLTextures => false
  | .DefineObjectMaterials => true

/-- The registered entries: array positions `0 ≤ i < m_loadedTextures`. -/
def registered (s : SceneManager) : List TEXTURE_INFO :=
  s.m_textureIDs.take s.m_loadedTextures

/-- The position of the first entry of the list carrying `tag`, counted from
`index`, or `-1`: what the linear scan of `FindTextureSlot` computes on the
registered entries. -/
def firstSlot (tag : String) : List TEXTURE_INFO → Nat → Int
  | [], _ => -1
  | e :: es, index => if e.tag = tag then (index : Int) else firstSlot tag es (index + 1)

/-- The handle (as an `int`) of the first entry of the list carrying `tag`, or
`-1`: what the linear scan of `FindTextureID` computes on the registered entries. -/
def firstID (tag : String) : List TEXTURE_INFO → Int
  | [] => -1
  | e :: es => if e.tag = tag then static_cast_int e.ID else firstID tag es

/-- Every entry of the two texture lookup maps agrees with the linear scan over
the registered entries. -/
def CacheConsistent (s : SceneManager) : Prop :=
  (∀ t k, s.m_textureSlotLookup t = some k → firstSlot t s.registered 0 = k) ∧
    (∀ t v, s.m_textureIdLookup t = some v → firstID t s.registered = static_cast_int v)

/-- The tags of the registered entries are pairwise distinct. -/
def DistinctTags (s : SceneManager) : Prop :=
  (s.registered.map fun e => e.tag).Nodup

/-- Records of the list that carry the same tag are equal. -/
def TagDeterminesRecord (materials : List OBJECT_MATERIAL) : Prop :=
  ∀ a ∈ materials, ∀ b ∈ materials, a.tag = b.tag → a = b

/-- A `SceneManager` whose material list is `materials`, with the lookup map
built from it by the loop of `DefineObjectMaterials`. -/
def withMaterials (materials : List OBJECT_MATERIAL) : SceneManager :=
  { new true with
    m_objectMaterials := materials
    m_materialLookup := DefineObjectMaterials.buildLookup materials }

/-- Array bounds: the texture array has its 16 elements and the count does not
exceed them. -/
def WellFormed (s : SceneManager) : Prop :=
  s.m_textureIDs.length = 16 ∧ s.m_loadedTextures ≤ 16

/-- Whether a call is a `CreateGLTexture` of `tag` that reaches the
registration block. -/
def Call.registersTag (tag : String) : Call → Bool
  | .CreateGLTexture image textureID t =>
    t = tag && (Call.CreateGLTexture image textureID t).registers
  | _ => false

/-- One iteration of the loop of `BindGLTextures`, at index `i`:
`glActiveTexture(GL_TEXTURE0 + i)` (the unit is given by its number `i`), then
`glBindTexture(GL_TEXTURE_2D, m_textureIDs[i].ID)`. -/
def BindGLTextures.body (ids : List TEXTURE_INFO) (acc : List GLCall) (i : Nat) :
    Option (List GLCall) :=
  match ids[i]? with
  | none => none
  | some e => some (acc ++ [.glActiveTexture i, .glBindTexture e.ID])

/-- The method `void BindGLTextures()`: the OpenGL calls of the `for` loop over
`0 ≤ i < m_loadedTextures`. -/
def BindGLTextures (s : SceneManager) : Option (List GLCall) :=
  (List.range s.m_loadedTextures).foldlM (BindGLTextures.body s.m_textureIDs) []

/-- The state after one call together with the OpenGL calls it issued. -/
def stepGL (s : SceneManager) : Call → Option (SceneManager × List GLCall)
  | .CreateGLTexture image textureID tag =>
    (s.CreateGLTexture image textureID tag).map fun r => r.2
  | .DestroyGLTextures => s.DestroyGLTextures
  | .DefineObjectMaterials => some (s.DefineObjectMaterials, [])

/-- The state after a sequence of calls together with the OpenGL calls issued,
in order. -/
def runGL (s : SceneManager) : List Call → Option (SceneManager × List GLCall)
  | [] => some (s, [])
  | c :: calls =>
    (stepGL s c).bind fun r1 => (runGL r1.1 calls).map fun r2 => (r2.1, r1.2 ++ r2.2)

/-- The thirteen `CreateGLTexture` calls of `LoadSceneTextures`, in order.
`stbi_load` gives what the image loader returns for a file name and
`glGenTextures i` the name generated in the call number `i` (from 0). -/
def LoadSceneTextures.calls (stbi_load : String → Option stbi_image)
    (glGenTextures : Nat → Nat) : List Call :=
  [ .CreateGLTexture (stbi_load "textures/ceramic.png") (glGenTextures 0) "teapot",
    .CreateGLTexture (stbi_load "textures/woodtable.png") (glGenTextures 1) "table",
    .CreateGLTexture (stbi_load "textures/backdrop.png") (glGenTextures 2) "background",
    .CreateGLTexture (stbi_load "textures/woodroundtable.jpg") (glGenTextures 3) "roundtable",
    .CreateGLTexture (stbi_load "textures/coffeecup.png") (glGenTextures 4) "cup",
    .CreateGLTexture (stbi_load "textures/book.jpg") (glGenTextures 5) "book",
    .CreateGLTexture (stbi_load "textures/Coffeeliquid.png") (glGenTextures 6) "coffee",
    .CreateGLTexture (stbi_load "textures/metal.png") (glGenTextures 7) "handle",
    .CreateGLTexture (stbi_load "textures/pages.png") (glGenTextures 8) "pages",
    .CreateGLTexture (stbi_load "textures/bookspine.png") (glGenTextures 9) "spine",
    .CreateGLTexture (stbi_load "textures/glass.png") (glGenTextures 10) "glasshandle",
    .CreateGLTexture (stbi_load "textures/soiltexture.png") (glGenTextures 11) "soiltexture",
    .CreateGLTexture (stbi_load "textures/leaftexture.JPG") (glGenTextures 12) "leaftexture" ]

/-- The thirteen image files `LoadSceneTextures` loads, in order. -/
def LoadSceneTextures.files : List String :=
  [ "textures/ceramic.png", "textures/woodtable.png", "textures/backdrop.png",
    "textures/woodroundtable.jpg", "textures/coffeecup.png", "textures/book.jpg",
    "textures/Coffeeliquid.png", "textures/metal.png", "textures/pages.png",
    "textures/bookspine.png", "textures/glass.png", "textures/soiltexture.png",
    "textures/leaftexture.JPG" ]

/-- Every registered entry is the target of both lookup maps' answers for some
registered position: its tag is mapped to a slot below the count, and the
array entry at that slot carries the tag and the handle the tag is mapped to. -/
def LookupsTied (s : SceneManager) : Prop :=
  ∀ e ∈ s.registered, ∃ k v : Nat, s.m_textureSlotLookup e.tag = some (k : Int) ∧
    s.m_textureIdLookup e.tag = some v ∧ k < s.m_loadedTextures ∧
    s.m_textureIDs[k]? = some { tag := e.tag, ID := v }

/-- Every entry of the slot lookup map points at a registered position whose
array entry carries the tag, together with the handle the handle lookup map
holds for the tag. -/
def MapsTied (s : SceneManager) : Prop :=
  ∀ (tag : String) (k : Int), s.m_textureSlotLookup tag = some k →
    ∃ n v : Nat, k = (n : Int) ∧ n < s.m_loadedTextures ∧
      s.m_textureIDs[n]? = some { tag := tag, ID := v } ∧ s.m_textureIdLookup tag = some v

/-- The method `void LoadSceneTextures()`: the thirteen `CreateGLTexture` calls
(their Boolean results are dropped), then `BindGLTextures()`. -/
def LoadSceneTextures (s : SceneManager) (stbi_load : String → Option stbi_image)
    (glGenTextures : Nat → Nat) : Option (SceneManager × List GLCall) :=
  (runGL s (LoadSceneTextures.calls stbi_load glGenTextures)).bind fun r =>
    r.1.BindGLTextures.map fun gl => (r.1, r.2 ++ gl)

/-- The tag argument of a `CreateGLTexture` call (empty for the other calls). -/
def Call.tag : Call → String
  | .CreateGLTexture _ _ tag => tag
  | _ => ""

end SceneManager

/-! ## Scene renderer: the calls of the object routines -/

/-- The calls on the mesh collaborator `ShapeMeshes`. The arguments of
`DrawTaperedCylinderMesh` are given as written at the call (none: its defaults). -/
inductive MeshCall where
  | LoadPlaneMesh
  | LoadCylinderMesh
  | LoadTaperedCylinderMesh
  | LoadTorusMesh
  | LoadSphereMesh
  | LoadConeMesh
  | LoadBoxMesh
  | LoadPyramid3Mesh
  | DrawPlaneMesh
  | DrawCylinderMesh
  | DrawTaperedCylinderMesh (args : List ℚ)
  | DrawTorusMesh
  | DrawBoxMesh
  | DrawSphereMesh
deriving DecidableEq

/-- A call an object routine makes: one of the four setters of `SceneManager`,
with its arguments, or a draw call on the mesh collaborator. -/
inductive SceneCall where
  | SetTransformations (scaleXYZ : vec3 ℚ)
      (XrotationDegrees YrotationDegrees ZrotationDegrees : ℚ) (positionXYZ : vec3 ℚ)
  | SetShaderMaterial (materialTag : String)
  | SetShaderTexture (textureTag : String)
  | SetTextureUVScale (u v : ℚ)
  | draw (mesh : MeshCall)
deriving DecidableEq

/-- The kind of a call of an object routine. -/
inductive SceneCall.Kind where
  | transform
  | material
  | texture
  | uvScale
  | draw
deriving DecidableEq

/-- The kind of a call. -/
def SceneCall.kind : SceneCall → SceneCall.Kind
  | .SetTransformations _ _ _ _ _ => .transform
  | .SetShaderMaterial _ => .material
  | .SetShaderTexture _ => .texture
  | .SetTextureUVScale _ _ => .uvScale
  | .draw _ => .draw

/-- Whether a call is a primitive draw call. -/
def SceneCall.isDraw (c : SceneCall) : Bool := c.kind = .draw

/-- The number of primitive draw calls in a call trace. -/
def SceneCall.draws (calls : List SceneCall) : Nat := (calls.filter SceneCall.isDraw).length

/-- A call trace cut after each draw call: every segment but possibly the last
ends with a draw call and holds the calls made since the previous draw call;
`acc` holds the calls since the last cut. -/
def SceneCall.segments : List SceneCall → List SceneCall → List (List SceneCall)
  | [], acc => if acc.isEmpty then [] else [acc]
  | c :: calls, acc =>
    if c.isDraw then (acc ++ [c]) :: SceneCall.segments calls []
    else SceneCall.segments calls (acc ++ [c])

/-- The shape the specification gives to a sub-part: build transform, set
material, optionally set texture, optionally set UV scale, one draw call. -/
def SceneCall.specShape (segment : List SceneCall) : Bool :=
  segment.map SceneCall.kind ∈
    [ [.transform, .material, .draw], [.transform, .material, .texture, .draw],
      [.transform, .material, .uvScale, .draw],
      [.transform, .material, .texture, .uvScale, .draw] ]

/-- The tags passed to `SetShaderTexture` in a call trace, in order. -/
def SceneCall.textureTags (calls : List SceneCall) : List String :=
  calls.filterMap fun c =>
    match c with
    | .SetShaderTexture textureTag => some textureTag
    | _ => none

/-- The tags passed to `SetShaderMaterial` in a call trace, in order. -/
def SceneCall.materialTags (calls : List SceneCall) : List String :=
  calls.filterMap fun c =>
    match c with
    | .SetShaderMaterial materialTag => some materialTag
    | _ => none

namespace SceneManager

/-- The calls of `RenderTable()`. -/
def RenderTable.calls : List SceneCall :=
  [ .SetTransformations ⟨15.0, 0.0, 15.0⟩ 0.0 0.0 0.0 ⟨0.0, 0.0, 0.0⟩,
    .SetShaderMaterial "plate", .SetShaderTexture "roundtable", .SetTextureUVScale 1.0 1.0,
    .draw .DrawCylinderMesh ]

/-- The calls of `RenderBackdrop()`. -/
def RenderBackdrop.calls : List SceneCall :=
  [ .SetTransformations ⟨20.0, 1.0, 20.0⟩ 90.0 0.0 0.0 ⟨0.0, 20.0, -10.0⟩,
    .SetShaderMaterial "backdrop", .SetShaderTexture "background", .SetTextureUVScale 1.0 1.0,
    .draw .DrawPlaneMesh ]

/-- The local constant `leftOffset` of `RenderPercolator()`. -/
def RenderPercolator.leftOffset : ℚ := -2.5

/-- The calls of `RenderPercolator()`: body, spout, handle, lid, knob. -/
def RenderPercolator.calls : List SceneCall :=
  [ .SetTransformations ⟨1.2, 3.0, 1.2⟩ 0.0 0.0 0.0 ⟨RenderPercolator.leftOffset, 0.0, 0.0⟩,
    .SetShaderMaterial "glass", .SetShaderTexture "teapot", .SetTextureUVScale 1.0 1.0,
    .draw (.DrawTaperedCylinderMesh [1.0, 1.2, 3.0]),
    .SetTransformations ⟨0.4, 1.9, 0.4⟩ 30.0 90.0 0.0
      ⟨RenderPercolator.leftOffset + 0.9, 0.4, 0.0⟩,
    .SetShaderMaterial "glass", .SetShaderTexture "teapot",
    .draw (.DrawTaperedCylinderMesh []),
    .SetTransformations ⟨0.6, 0.8, 0.2⟩ 0.0 0.0 90.0
      ⟨RenderPercolator.leftOffset - 0.9, 1.8, 0.0⟩,
    .SetShaderMaterial "glass", .SetShaderTexture "teapot",
    .draw .DrawTorusMesh,
    .SetTransformations ⟨0.6, 0.1, 0.80⟩ 0.0 0.0 0.0 ⟨RenderPercolator.leftOffset, 3.0, 0.0⟩,
    .SetShaderMaterial "glass", .SetShaderTexture "teapot",
    .draw .DrawCylinderMesh,
    .SetTransformations ⟨0.2, 0.1, 0.2⟩ 0.0 0.0 0.0 ⟨RenderPercolator.leftOffset, 3.1, 0.0⟩,
    .SetShaderMaterial "wood",
    .draw .DrawCylinderMesh ]

/-- The calls of `RenderCoffeeCup()`: cup body, handle, coffee liquid. -/
def RenderCoffeeCup.calls : List SceneCall :=
  [ .SetTransformations ⟨1.1, 1.0, 1.2⟩ 0.0 0.0 0.0 ⟨0.5, 0.0, 1.0⟩,
    .SetShaderMaterial "glass", .SetShaderTexture "cup", .SetTextureUVScale 1.0 1.0,
    .draw .DrawCylinderMesh,
    .SetTransformations ⟨0.5, 0.3, 0.2⟩ 0.0 0.0 1.0 ⟨1.5, 0.5, 1.0⟩,
    .SetShaderMaterial "glass", .SetShaderTexture "glasshandle",
    .draw .DrawTorusMesh,
    .SetTransformations ⟨1.1, 0.01, 1.2⟩ 0.0 0.0 0.0 ⟨0.5, 1.0, 1.0⟩,
    .SetShaderMaterial "liquid", .SetShaderTexture "coffee", .SetTextureUVScale 1.0 1.0,
    .draw .DrawCylinderMesh ]

/-- The calls of the helper `RenderBookSection(scaleXYZ, positionXYZ,
materialTag, textureTag)`. -/
def RenderBookSection.calls (scaleXYZ positionXYZ : vec3 ℚ) (materialTag textureTag : String) :
    List SceneCall :=
  [ .SetTransformations scaleXYZ 0.0 0.0 0.0 positionXYZ,
    .SetShaderMaterial materialTag, .SetShaderTexture textureTag, .SetTextureUVScale 1.0 1.0,
    .draw .DrawBoxMesh ]

/-- The local `gap` of `RenderBook()`. -/
def RenderBook.gap : ℚ := 0.02

/-- The local `tableHeight` of `RenderBook()`. -/
def RenderBook.tableHeight : ℚ := 0.2

/-- The local `diagonalOffset` of `RenderBook()`. -/
def RenderBook.diagonalOffset : ℚ := 0.5

/-- The calls of `RenderBook()`: three books, each a cover section and a pages
section. The positions are sums of `float` values, taken exactly here (the
`float` sum can differ from the exact one in its last digit). -/
def RenderBook.calls : List SceneCall :=
  RenderBookSection.calls ⟨3.5, 0.3, 2.5⟩
      ⟨-6.0 + RenderBook.diagonalOffset, RenderBook.tableHeight,
        5.0 + RenderBook.diagonalOffset⟩ "cover" "book" ++
    RenderBookSection.calls ⟨3.53, 0.23, 2.3⟩
      ⟨-6.0 + RenderBook.diagonalOffset, RenderBook.tableHeight + 0.01,
        4.89 + RenderBook.diagonalOffset⟩ "pages" "pages" ++
    RenderBookSection.calls ⟨3.5, 0.3, 2.5⟩
      ⟨-6.0 + RenderBook.diagonalOffset, RenderBook.tableHeight + 0.3 + RenderBook.gap,
        5.0 + RenderBook.diagonalOffset⟩ "cover" "book" ++
    RenderBookSection.calls ⟨3.53, 0.23, 2.3⟩
      ⟨-6.0 + RenderBook.diagonalOffset, RenderBook.tableHeight + 0.33 + RenderBook.gap,
        4.89 + RenderBook.diagonalOffset⟩ "pages" "pages" ++
    RenderBookSection.calls ⟨3.5, 0.3, 2.5⟩
      ⟨-6.0 + RenderBook.diagonalOffset, RenderBook.tableHeight + 0.6 + 2 * RenderBook.gap,
        5.0 + RenderBook.diagonalOffset⟩ "cover" "book" ++
    RenderBookSection.calls ⟨3.53, 0.23, 2.3⟩
      ⟨-6.0 + RenderBook.diagonalOffset, RenderBook.tableHeight + 0.61 + 2 * RenderBook.gap,
        4.89 + RenderBook.diagonalOffset⟩ "pages" "pages"

/-- The local `edgeHeight` of `RenderTray()`. -/
def RenderTray.edgeHeight : ℚ := 0.3

/-- The local `edgeThickness` of `RenderTray()`. -/
def RenderTray.edgeThickness : ℚ := 0.1

/-- The calls of `RenderTray()`: tray base, then the front, back, left and
right edges. -/
def RenderTray.calls : List SceneCall :=
  [ .SetTransformations ⟨8.0, 0.05, 5.0⟩ 0.0 0.0 0.0 ⟨0.0, 0.05, 0.0⟩,
    .SetShaderMaterial "wood", .SetShaderTexture "table", .SetTextureUVScale 1.0 1.0,
    .draw .DrawBoxMesh,
    .SetTransformations ⟨8.1, RenderTray.edgeHeight, RenderTray.edgeThickness⟩ 0.0 0.0 0.0
      ⟨0.0, RenderTray.edgeHeight / 2.0 + 0.05, -2.55⟩,
    .draw .DrawBoxMesh,
    .SetTransformations ⟨8.1, RenderTray.edgeHeight, RenderTray.edgeThickness⟩ 0.0 0.0 0.0
      ⟨0.0, RenderTray.edgeHeight / 2.0 + 0.05, 2.55⟩,
    .draw .DrawBoxMesh,
    .SetTransformations ⟨RenderTray.edgeThickness, RenderTray.edgeHeight, 5.1⟩ 0.0 0.0 0.0
      ⟨-4.05, RenderTray.edgeHeight / 2.0 + 0.05, 0.0⟩,
    .draw .DrawBoxMesh,
    .SetTransformations ⟨RenderTray.edgeThickness, RenderTray.edgeHeight, 5.1⟩ 0.0 0.0 0.0
      ⟨4.05, RenderTray.edgeHeight / 2.0 + 0.05, 0.0⟩,
    .draw .DrawBoxMesh ]

/-- The calls of `RenderFlowerPot()`: pot body, soil, plant sphere. -/
def RenderFlowerPot.calls : List SceneCall :=
  [ .SetTransformations ⟨0.8, 0.6, 0.8⟩ 0.0 0.0 0.0 ⟨-7.0, 0.0, 0.0⟩,
    .SetShaderMaterial "glass", .SetShaderTexture "teapot", .SetTextureUVScale 1.0 1.0,
    .draw .DrawCylinderMesh,
    .SetTransformations ⟨0.7, 0.05, 0.7⟩ 0.0 0.0 0.0 ⟨-7.0, 0.56, 0.0⟩,
    .SetShaderMaterial "soil", .SetShaderTexture "soiltexture", .SetTextureUVScale 1.0 1.0,
    .draw .DrawCylinderMesh,
    .SetTransformations ⟨0.5, 0.5, 0.5⟩ 0.0 0.0 0.0 ⟨-7.0, 0.8, 0.0⟩,
    .SetShaderMaterial "leaf", .SetShaderTexture "leaftexture", .SetTextureUVScale 1.0 1.0,
    .draw .DrawSphereMesh ]

/-- An object routine whose calls are `calls`: every routine ends with a draw
call through `m_basicMeshes`, so it has a result only when that pointer is not
NULL. -/
def objectRoutine (s : SceneManager) (calls : List SceneCall) : Option (List SceneCall) :=
  if s.m_basicMeshes then some calls else none

/-- The method `void RenderTable()`: the calls it makes. -/
def RenderTable (s : SceneManager) : Option (List SceneCall) :=
  s.objectRoutine RenderTable.calls

/-- The method `void RenderBackdrop()`: the calls it makes. -/
def RenderBackdrop (s : SceneManager) : Option (List SceneCall) :=
  s.objectRoutine RenderBackdrop.calls

/-- The method `void RenderPercolator()`: the calls it makes. -/
def RenderPercolator (s : SceneManager) : Option (List SceneCall) :=
  s.objectRoutine RenderPercolator.calls

/-- The method `void RenderCoffeeCup()`: the calls it makes. -/
def RenderCoffeeCup (s : SceneManager) : Option (List SceneCall) :=
  s.objectRoutine RenderCoffeeCup.calls

/-- The method `void RenderBook()`: the calls it makes. -/
def RenderBook (s : SceneManager) : Option (List SceneCall) :=
  s.objectRoutine RenderBook.calls

/-- The method `void RenderTray()`: the calls it makes. -/
def RenderTray (s : SceneManager) : Option (List SceneCall) :=
  s.objectRoutine RenderTray.calls

/-- The method `void RenderFlowerPot()`: the calls it makes. -/
def RenderFlowerPot (s : SceneManager) : Option (List SceneCall) :=
  s.objectRoutine RenderFlowerPot.calls

/-- The method `void RenderScene()`: the calls made by the seven object
routines, in the order of the source; none at all when `m_basicMeshes` is NULL. -/
def RenderScene (s : SceneManager) : Option (List SceneCall) :=
  if s.m_basicMeshes = false then some []
  else
    s.RenderTable.bind fun table =>
    s.RenderBackdrop.bind fun backdrop =>
    s.RenderPercolator.bind fun percolator =>
    s.RenderCoffeeCup.bind fun cup =>
    s.RenderBook.bind fun book =>
    s.RenderTray.bind fun tray =>
    s.RenderFlowerPot.map fun pot =>
      table ++ backdrop ++ percolator ++ cup ++ book ++ tray ++ pot

end SceneManager


/-! ## Transform builder -/

/-- A `glm::mat4` over `ℝ`. GLM stores a matrix by columns; the entry in row
`i` and column `j` here is GLM's `m[j][i]`. -/
abbrev mat4 := Matrix (Fin 4) (Fin 4) ℝ

/-- A point `(x, y, z)` in homogeneous coordinates `(x, y, z, 1)`. -/
def vec3.homogeneous (p : vec3 ℝ) : Fin 4 → ℝ := ![p.x, p.y, p.z, 1]

/-- The uniform writes `SceneManager` performs on the shader manager. Vectors
only ever carry literals and copies of them (rationals); a `float` uniform may
carry a computed value (a real). -/
inductive ShaderCall where
  | setMat4Value (name : String) (value : mat4)
  | setVec2Value (name : String) (u v : ℚ)
  | setVec3Value (name : String) (value : vec3 ℚ)
  | setVec4Value (name : String) (r g b a : ℚ)
  | setFloatValue (name : String) (value : ℝ)
  | setIntValue (name : String) (value : Int)
  | setBoolValue (name : String) (value : Bool)
  | setSampler2DValue (name : String) (value : Int)

/-- A call on one of the three collaborators of `SceneManager`. -/
inductive Effect where
  | gl (call : GLCall)
  | shader (call : ShaderCall)
  | mesh (call : MeshCall)

/-- A vector of `float` literals as a vector of reals. -/
def vec3.toReal (v : vec3 ℚ) : vec3 ℝ := ⟨(v.x : ℝ), (v.y : ℝ), (v.z : ℝ)⟩

/-- The value an `int` uniform holds after a sequence of uniform writes: the
value of the last `setIntValue` on that name, if any. -/
def ShaderCall.uniformInt (name : String) (trace : List ShaderCall) : Option Int :=
  trace.foldl
    (fun current call =>
      match call with
      | .setIntValue n value => if n = name then some value else current
      | _ => current)
    none

/-- The `setBoolValue` writes of a sequence of uniform writes, in order. -/
def ShaderCall.boolWrites (trace : List ShaderCall) : List (String × Bool) :=
  trace.filterMap fun call =>
    match call with
    | .setBoolValue name value => some (name, value)
    | _ => none

/-- A call of `SetShaderTexture` or of `SetShaderColor`, with its arguments. -/
inductive SurfaceCall where
  | SetShaderTexture (textureTag : String)
  | SetShaderColor (redColorValue greenColorValue blueColorValue alphaValue : ℚ)
deriving DecidableEq

/-- Whether a call is a `SetShaderTexture`, as the `int` 1 (it is) or 0 (it is
a `SetShaderColor`). -/
def SurfaceCall.isTexture : SurfaceCall → Int
  | .SetShaderTexture _ => 1
  | .SetShaderColor _ _ _ _ => 0

noncomputable section

/-! The functions of the GLM library the transform builder calls, over `ℝ`. -/
namespace glm

/-- The function `glm::radians`. -/
def radians (degrees : ℝ) : ℝ := degrees * (Real.pi / 180)

/-- The function `glm::dot` on `vec3`. -/
def dot (a b : vec3 ℝ) : ℝ := a.x * b.x + a.y * b.y + a.z * b.z

/-- The function `glm::normalize` on `vec3`: `v * inversesqrt(dot(v, v))`. -/
def normalize (v : vec3 ℝ) : vec3 ℝ :=
  ⟨v.x * (1 / Real.sqrt (dot v v)), v.y * (1 / Real.sqrt (dot v v)),
    v.z * (1 / Real.sqrt (dot v v))⟩

/-- The function `glm::scale(v)`. -/
def scale (v : vec3 ℝ) : mat4 :=
  !![v.x, 0, 0, 0;
     0, v.y, 0, 0;
     0, 0, v.z, 0;
     0, 0, 0, 1]

/-- The function `glm::translate(v)`. -/
def translate (v : vec3 ℝ) : mat4 :=
  !![1, 0, 0, v.x;
     0, 1, 0, v.y;
     0, 0, 1, v.z;
     0, 0, 0, 1]

/-- The function `glm::rotate(angle, v)`: the rotation by `angle` radians about
the normalised axis `v`, built as GLM builds it from `c = cos(angle)`,
`s = sin(angle)`, `axis = normalize(v)` and `temp = (1 - c) * axis`. -/
def rotate (angle : ℝ) (v : vec3 ℝ) : mat4 :=
  let c := Real.cos angle
  let s := Real.sin angle
  let axis := normalize v
  let temp : vec3 ℝ := ⟨(1 - c) * axis.x, (1 - c) * axis.y, (1 - c) * axis.z⟩
  !![c + temp.x * axis.x, temp.y * axis.x - s * axis.z, temp.z * axis.x + s * axis.y, 0;
     temp.x * axis.y + s * axis.z, c + temp.y * axis.y, temp.z * axis.y - s * axis.x, 0;
     temp.x * axis.z - s * axis.y, temp.y * axis.z + s * axis.x, c + temp.z * axis.z, 0;
     0, 0, 0, 1]

end glm

namespace SceneManager

/-- The value of the local `modelView` of `SetTransformations`. -/
def SetTransformations.modelView (scaleXYZ : vec3 ℝ)
    (XrotationDegrees YrotationDegrees ZrotationDegrees : ℝ) (positionXYZ : vec3 ℝ) : mat4 :=
  let scale := glm.scale scaleXYZ
  let rotationX := glm.rotate (glm.radians XrotationDegrees) ⟨1, 0, 0⟩
  let rotationY := glm.rotate (glm.radians YrotationDegrees) ⟨0, 1, 0⟩
  let rotationZ := glm.rotate (glm.radians ZrotationDegrees) ⟨0, 0, 1⟩
  let translation := glm.translate positionXYZ
  translation * rotationZ * rotationY * rotationX * scale

/-- The method `void SetTransformations(scaleXYZ, XrotationDegrees,
YrotationDegrees, ZrotationDegrees, positionXYZ)`: the uniform writes issued. -/
def SetTransformations (s : SceneManager) (scaleXYZ : vec3 ℝ)
    (XrotationDegrees YrotationDegrees ZrotationDegrees : ℝ) (positionXYZ : vec3 ℝ) :
    List ShaderCall :=
  if s.m_pShaderManager then
    [.setMat4Value "model"
      (SetTransformations.modelView scaleXYZ XrotationDegrees YrotationDegrees
        ZrotationDegrees positionXYZ)]
  else []

/-! ### Shader state setters -/

/-- The method `void SetShaderColor(redColorValue, greenColorValue,
blueColorValue, alphaValue)`: the uniform writes issued (`false` is written as
the `int` 0). -/
def SetShaderColor (s : SceneManager)
    (redColorValue greenColorValue blueColorValue alphaValue : ℚ) : List ShaderCall :=
  if s.m_pShaderManager then
    [ .setIntValue "bUseTexture" 0,
      .setVec4Value "objectColor" redColorValue greenColorValue blueColorValue alphaValue ]
  else []

/-- The method `void SetShaderTexture(std::string textureTag)`: the uniform
writes issued (`true` is written as the `int` 1); `none` when `FindTextureSlot`
faults. -/
def SetShaderTexture (s : SceneManager) (textureTag : String) : Option (List ShaderCall) :=
  if s.m_pShaderManager then
    (s.FindTextureSlot textureTag).map fun textureSlot =>
      [.setIntValue "bUseTexture" 1, .setSampler2DValue "objectTexture" textureSlot]
  else some []

/-- The method `void SetTextureUVScale(float u, float v)`: the uniform writes issued. -/
def SetTextureUVScale (s : SceneManager) (u v : ℚ) : List ShaderCall :=
  if s.m_pShaderManager then [.setVec2Value "UVscale" u v] else []

/-- The local `OBJECT_MATERIAL material;` of `SetShaderMaterial` before the
call of `FindMaterial`. Its content is indeterminate in the source; it is never
read, since `FindMaterial` overwrites the record whenever it returns `true`. -/
def SetShaderMaterial.material : OBJECT_MATERIAL :=
  { diffuseColor := ⟨0, 0, 0⟩, specularColor := ⟨0, 0, 0⟩, shininess := 0, tag := "" }

/-- The method `void SetShaderMaterial(std::string materialTag)`: the uniform
writes issued. -/
def SetShaderMaterial (s : SceneManager) (materialTag : String) : List ShaderCall :=
  if s.m_pShaderManager = false ∨ s.m_objectMaterials.isEmpty = true then []
  else
    match s.FindMaterial materialTag SetShaderMaterial.material with
    | (true, material) =>
      [ .setVec3Value "material.diffuseColor" material.diffuseColor,
        .setVec3Value "material.specularColor" material.specularColor,
        .setFloatValue "material.shininess" (material.shininess : ℝ) ]
    | (false, _) => []

/-- The uniform writes of `SetupSceneLights()` when a shader manager is present. -/
def SetupSceneLights.writes : List ShaderCall :=
  [ .setBoolValue "bUseLighting" true,
    .setVec3Value "directionalLight.direction" ⟨-0.5, -1.0, -0.3⟩,
    .setVec3Value "directionalLight.ambient" ⟨0.2, 0.2, 0.2⟩,
    .setVec3Value "directionalLight.diffuse" ⟨0.7, 0.7, 0.6⟩,
    .setVec3Value "directionalLight.specular" ⟨0.5, 0.5, 0.5⟩,
    .setBoolValue "directionalLight.bActive" true,
    .setVec3Value "pointLights[0].position" ⟨-3.0, 5.0, 2.0⟩,
    .setVec3Value "pointLights[0].ambient" ⟨0.1, 0.1, 0.1⟩,
    .setVec3Value "pointLights[0].diffuse" ⟨0.6, 0.6, 0.5⟩,
    .setVec3Value "pointLights[0].specular" ⟨0.7, 0.7, 0.6⟩,
    .setFloatValue "pointLights[0].constant" 1.0,
    .setFloatValue "pointLights[0].linear" 0.09,
    .setFloatValue "pointLights[0].quadratic" 0.032,
    .setBoolValue "pointLights[0].bActive" true,
    .setVec3Value "pointLights[1].position" ⟨4.0, 5.0, -2.0⟩,
    .setVec3Value "pointLights[1].ambient" ⟨0.1, 0.1, 0.1⟩,
    .setVec3Value "pointLights[1].diffuse" ⟨0.5, 0.5, 0.6⟩,
    .setVec3Value "pointLights[1].specular" ⟨0.6, 0.6, 0.7⟩,
    .setFloatValue "pointLights[1].constant" 1.0,
    .setFloatValue "pointLights[1].linear" 0.09,
    .setFloatValue "pointLights[1].quadratic" 0.032,
    .setBoolValue "pointLights[1].bActive" true,
    .setVec3Value "spotLight.position" ⟨0.0, 6.0, 0.0⟩,
    .setVec3Value "spotLight.direction" ⟨0.0, -1.0, 0.0⟩,
    .setVec3Value "spotLight.ambient" ⟨0.05, 0.05, 0.05⟩,
    .setVec3Value "spotLight.diffuse" ⟨0.7, 0.7, 0.6⟩,
    .setVec3Value "spotLight.specular" ⟨0.8, 0.8, 0.7⟩,
    .setFloatValue "spotLight.constant" 1.0,
    .setFloatValue "spotLight.linear" 0.07,
    .setFloatValue "spotLight.quadratic" 0.017,
    .setFloatValue "spotLight.cutOff" (Real.cos (glm.radians 15.0)),
    .setFloatValue "spotLight.outerCutOff" (Real.cos (glm.radians 25.0)),
    .setBoolValue "spotLight.bActive" true ]

/-- The method `void SetupSceneLights()`: the uniform writes issued. -/
def SetupSceneLights (s : SceneManager) : List ShaderCall :=
  if s.m_pShaderManager = false then [] else SetupSceneLights.writes

/-- The eight mesh loads at the end of `PrepareScene()`. -/
def PrepareScene.meshLoads : List MeshCall :=
  [ .LoadPlaneMesh, .LoadCylinderMesh, .LoadTaperedCylinderMesh, .LoadTorusMesh,
    .LoadSphereMesh, .LoadConeMesh, .LoadBoxMesh, .LoadPyramid3Mesh ]

/-- The method `void PrepareScene()`: the state afterwards and the calls made
on the collaborators, in order. `stbi_load` and `glGenTextures` are as in
`LoadSceneTextures.calls`. -/
def PrepareScene (s : SceneManager) (stbi_load : String → Option stbi_image)
    (glGenTextures : Nat → Nat) : Option (SceneManager × List Effect) :=
  (s.LoadSceneTextures stbi_load glGenTextures).map fun r =>
    (r.1.DefineObjectMaterials,
      r.2.map Effect.gl ++ (r.1.DefineObjectMaterials.SetupSceneLights).map Effect.shader ++
        if r.1.DefineObjectMaterials.m_basicMeshes = false then []
        else PrepareScene.meshLoads.map Effect.mesh)

/-- The calls on the collaborators made by one call of an object routine. -/
def execSceneCall (s : SceneManager) : SceneCall → Option (List Effect)
  | .SetTransformations scaleXYZ rx ry rz positionXYZ =>
    some ((s.SetTransformations scaleXYZ.toReal (rx : ℝ) (ry : ℝ) (rz : ℝ)
      positionXYZ.toReal).map Effect.shader)
  | .SetShaderMaterial materialTag => some ((s.SetShaderMaterial materialTag).map Effect.shader)
  | .SetShaderTexture textureTag =>
    (s.SetShaderTexture textureTag).map fun writes => writes.map Effect.shader
  | .SetTextureUVScale u v => some ((s.SetTextureUVScale u v).map Effect.shader)
  | .draw mesh => if s.m_basicMeshes then some [Effect.mesh mesh] else none

/-- The calls on the collaborators made by a sequence of calls of object
routines, in order. -/
def execSceneCalls (s : SceneManager) : List SceneCall → Option (List Effect)
  | [] => some []
  | c :: calls =>
    (s.execSceneCall c).bind fun e => (s.execSceneCalls calls).map fun es => e ++ es

/-- The uniform writes of one `SetShaderTexture` or `SetShaderColor` call. -/
def execSurfaceCall (s : SceneManager) : SurfaceCall → Option (List ShaderCall)
  | .SetShaderTexture textureTag => s.SetShaderTexture textureTag
  | .SetShaderColor r g b a => some (s.SetShaderColor r g b a)

/-- The uniform writes of a sequence of `SetShaderTexture` and `SetShaderColor`
calls, in order. -/
def execSurfaceCalls (s : SceneManager) : List SurfaceCall → Option (List ShaderCall)
  | [] => some []
  | c :: calls =>
    (s.execSurfaceCall c).bind fun w => (s.execSurfaceCalls calls).map fun ws => w ++ ws

/-- The calls on the collaborators made by `RenderScene()`, in order. -/
def RenderScene.effects (s : SceneManager) : Option (List Effect) :=
  s.RenderScene.bind s.execSceneCalls

/-! ### The reading methods with the state threaded through

Each method below is the method of the same name as a state transformer: it
takes the state of the `SceneManager` on entry and gives the value returned
together with the state on return. Member reads go to the state at hand; a
method that calls another method continues with the state that call returns. -/

/-- The loop of `FindTextureID` as a state transformer, entered at `index` with
`remaining = m_loadedTextures - index`. -/
def FindTextureID.scan.withState (tag : String) :
    Nat → Nat → SceneManager → Option (Int × SceneManager)
  | 0, _, s => some (-1, s)
  | remaining + 1, index, s =>
    match s.m_textureIDs[index]? with
    | none => none
    | some e =>
      if e.tag = tag then some (static_cast_int e.ID, s)
      else FindTextureID.scan.withState tag remaining (index + 1) s

/-- The method `int FindTextureID(std::string tag)` as a state transformer. -/
def FindTextureID.withState (s : SceneManager) (tag : String) : Option (Int × SceneManager) :=
  match s.m_textureIdLookup tag with
  | some textureID => some (static_cast_int textureID, s)
  | none => FindTextureID.scan.withState tag s.m_loadedTextures 0 s

/-- The loop of `FindTextureSlot` as a state transformer, entered at `index`
with `remaining = m_loadedTextures - index`. -/
def FindTextureSlot.scan.withState (tag : String) :
    Nat → Nat → SceneManager → Option (Int × SceneManager)
  | 0, _, s => some (-1, s)
  | remaining + 1, index, s =>
    match s.m_textureIDs[index]? with
    | none => none
    | some e =>
      if e.tag = tag then some ((index : Int), s)
      else FindTextureSlot.scan.withState tag remaining (index + 1) s

/-- The method `int FindTextureSlot(std::string tag)` as a state transformer. -/
def FindTextureSlot.withState (s : SceneManager) (tag : String) : Option (Int × SceneManager) :=
  match s.m_textureSlotLookup tag with
  | some slot => some (slot, s)
  | none => FindTextureSlot.scan.withState tag s.m_loadedTextures 0 s

/-- The loop of `FindMaterial` as a state transformer, entered at `index` with
`remaining = m_objectMaterials.size() - index` (so the element read exists);
the assignment in its body is to the output parameter `material`. -/
def FindMaterial.scan.withState (tag : String) (material : OBJECT_MATERIAL) :
    Nat → Nat → SceneManager → (Bool × OBJECT_MATERIAL) × SceneManager
  | 0, _, s => ((false, material), s)
  | remaining + 1, index, s =>
    match s.m_objectMaterials[index]? with
    | none => ((false, material), s)
    | some m =>
      if m.tag = tag then ((true, m), s)
      else FindMaterial.scan.withState tag material remaining (index + 1) s

/-- The method `bool FindMaterial(std::string tag, OBJECT_MATERIAL& material)`
as a state transformer. -/
def FindMaterial.withState (s : SceneManager) (tag : String) (material : OBJECT_MATERIAL) :
    (Bool × OBJECT_MATERIAL) × SceneManager :=
  match s.m_materialLookup tag with
  | some m => ((true, m), s)
  | none =>
    if s.m_objectMaterials.isEmpty then ((false, material), s)
    else FindMaterial.scan.withState tag material s.m_objectMaterials.length 0 s

/-- The method `SetShaderTexture` as a state transformer: it continues with the
state `FindTextureSlot` returns. -/
def SetShaderTexture.withState (s : SceneManager) (textureTag : String) :
    Option (List ShaderCall × SceneManager) :=
  if s.m_pShaderManager then
    (FindTextureSlot.withState s textureTag).map fun r =>
      ([.setIntValue "bUseTexture" 1, .setSampler2DValue "objectTexture" r.1], r.2)
  else some ([], s)

/-- The method `SetShaderMaterial` as a state transformer: it continues with
the state `FindMaterial` returns. -/
def SetShaderMaterial.withState (s : SceneManager) (materialTag : String) :
    List ShaderCall × SceneManager :=
  if s.m_pShaderManager = false ∨ s.m_objectMaterials.isEmpty = true then ([], s)
  else
    match FindMaterial.withState s materialTag SetShaderMaterial.material with
    | ((true, material), s1) =>
      ([ .setVec3Value "material.diffuseColor" material.diffuseColor,
        .setVec3Value "material.specularColor" material.specularColor,
        .setFloatValue "material.shininess" (material.shininess : ℝ) ], s1)
    | ((false, _), s1) => ([], s1)

/-- One call of an object routine as a state transformer. `SetTransformations`
and `SetTextureUVScale` work on their arguments and on the shader manager, and
a draw call works on the mesh collaborator. -/
def execSceneCall.withState (s : SceneManager) : SceneCall → Option (List Effect × SceneManager)
  | .SetTransformations scaleXYZ rx ry rz positionXYZ =>
    some ((s.SetTransformations scaleXYZ.toReal (rx : ℝ) (ry : ℝ) (rz : ℝ)
      positionXYZ.toReal).map Effect.shader, s)
  | .SetShaderMaterial materialTag =>
    some (((SetShaderMaterial.withState s materialTag).1).map Effect.shader,
      (SetShaderMaterial.withState s materialTag).2)
  | .SetShaderTexture textureTag =>
    (SetShaderTexture.withState s textureTag).map fun r => (r.1.map Effect.shader, r.2)
  | .SetTextureUVScale u v => some ((s.SetTextureUVScale u v).map Effect.shader, s)
  | .draw mesh => if s.m_basicMeshes then some ([Effect.mesh mesh], s) else none

/-- A sequence of calls of object routines as a state transformer: each call
starts in the state the previous one returned. -/
def execSceneCalls.withState : SceneManager → List SceneCall →
    Option (List Effect × SceneManager)
  | s, [] => some ([], s)
  | s, c :: calls =>
    (execSceneCall.withState s c).bind fun r =>
      (execSceneCalls.withState r.2 calls).map fun rs => (r.1 ++ rs.1, rs.2)

/-- The method `void RenderScene()` as a state transformer: the calls on the
collaborators and the state on return. -/
def RenderScene.withState (s : SceneManager) : Option (List Effect × SceneManager) :=
  s.RenderScene.bind fun calls => execSceneCalls.withState s calls

/-- A call of one of the methods that read the registry: the three lookups and
`RenderScene`. -/
inductive ReadCall where
  | FindTextureID (tag : String)
  | FindTextureSlot (tag : String)
  | FindMaterial (tag : String) (material : OBJECT_MATERIAL)
  | RenderScene

/-- The state of the `SceneManager` on return from a call of a reading method
(`none` when the call faults): the state component of the method as a state
transformer. -/
def ReadCall.stateAfter (s : SceneManager) : ReadCall → Option SceneManager
  | .FindTextureID tag => (FindTextureID.withState s tag).map fun r => r.2
  | .FindTextureSlot tag => (FindTextureSlot.withState s tag).map fun r => r.2
  | .FindMaterial tag material => some (FindMaterial.withState s tag material).2
  | .RenderScene => (RenderScene.withState s).map fun r => r.2

end SceneManager

/-! The transform as the specification words it: the five elementary matrices
and their action on a point. -/
namespace Spec

/-- The scaling matrix `Scale(s)`. -/
def Scale (s : vec3 ℝ) : mat4 := Matrix.diagonal ![s.x, s.y, s.z, 1]

/-- The rotation by `θ` radians about the X axis. -/
def RotationX (θ : ℝ) : mat4 :=
  !![1, 0, 0, 0;
     0, Real.cos θ, -Real.sin θ, 0;
     0, Real.sin θ, Real.cos θ, 0;
     0, 0, 0, 1]

/-- The rotation by `θ` radians about the Y axis. -/
def RotationY (θ : ℝ) : mat4 :=
  !![Real.cos θ, 0, Real.sin θ, 0;
     0, 1, 0, 0;
     -Real.sin θ, 0, Real.cos θ, 0;
     0, 0, 0, 1]

/-- The rotation by `θ` radians about the Z axis. -/
def RotationZ (θ : ℝ) : mat4 :=
  !![Real.cos θ, -Real.sin θ, 0, 0;
     Real.sin θ, Real.cos θ, 0, 0;
     0, 0, 1, 0;
     0, 0, 0, 1]

/-- The translation matrix `Translate(t)`: the identity with `t` added in the last column. -/
def Translation (t : vec3 ℝ) : mat4 :=
  fun i j => (if i = j then 1 else 0) + (if j = 3 then ![t.x, t.y, t.z, 0] i else 0)

/-- Scaling of a point, componentwise. -/
def scalePoint (s p : vec3 ℝ) : vec3 ℝ := ⟨s.x * p.x, s.y * p.y, s.z * p.z⟩

/-- Rotation of a point about the X axis by `θ` radians. -/
def rotatePointX (θ : ℝ) (p : vec3 ℝ) : vec3 ℝ :=
  ⟨p.x, Real.cos θ * p.y - Real.sin θ * p.z, Real.sin θ * p.y + Real.cos θ * p.z⟩

/-- Rotation of a point about the Y axis by `θ` radians. -/
def rotatePointY (θ : ℝ) (p : vec3 ℝ) : vec3 ℝ :=
  ⟨Real.cos θ * p.x + Real.sin θ * p.z, p.y, Real.cos θ * p.z - Real.sin θ * p.x⟩

/-- Rotation of a point about the Z axis by `θ` radians. -/
def rotatePointZ (θ : ℝ) (p : vec3 ℝ) : vec3 ℝ :=
  ⟨Real.cos θ * p.x - Real.sin θ * p.y, Real.sin θ * p.x + Real.cos θ * p.y, p.z⟩

/-- Translation of a point. -/
def translatePoint (t p : vec3 ℝ) : vec3 ℝ := ⟨p.x + t.x, p.y + t.y, p.z + t.z⟩

end Spec

end

/-! ## View manager

The embedding of `ViewManager.cpp`: the state is the members of `ViewManager`
together with the variables of the file's anonymous namespace. -/

/-- The keys `ProcessKeyboardEvents` polls with `glfwGetKey`. -/
inductive Key where
  | GLFW_KEY_ESCAPE
  | GLFW_KEY_W
  | GLFW_KEY_S
  | GLFW_KEY_A
  | GLFW_KEY_D
  | GLFW_KEY_Q
  | GLFW_KEY_E
  | GLFW_KEY_1
  | GLFW_KEY_2
  | GLFW_KEY_3
  | GLFW_KEY_4
deriving DecidableEq

/-- The directions passed to `Camera::ProcessKeyboard`. -/
inductive Camera_Movement where
  | FORWARD
  | BACKWARD
  | LEFT
  | RIGHT
  | UP
  | DOWN
deriving DecidableEq

/-- The members of `Camera` that `ViewManager.cpp` reads or assigns; `rest`
stands for the other members of the class, which is declared in `camera.h`.
A `float` is the rational it denotes. -/
structure Camera (R : Type) where
  Position : vec3 ℚ
  Front : vec3 ℚ
  Up : vec3 ℚ
  Zoom : ℚ
  MovementSpeed : ℚ
  rest : R

/-- The projection call made by `PrepareSceneView`: `glm::perspective` with
the field of view given in degrees (it is passed through `glm::radians`), or
`glm::ortho`, with the arguments of the call. -/
inductive Projection where
  | perspective (fovyDegrees aspect zNear zFar : ℚ)
  | ortho (left right bottom top zNear zFar : ℚ)
deriving DecidableEq

/-- The state of the view manager: the members `m_pShaderManager` and
`m_pWindow`, the variables `g_pCamera`, `gDeltaTime`, `gLastFrame` and
`bOrthographicProjection` of the anonymous namespace, and the close flag GLFW
keeps for the window. -/
structure ViewManager (R : Type) where
  m_pShaderManager : Bool
  m_pWindow : Bool
  g_pCamera : Option (Camera R)
  gDeltaTime : ℚ
  gLastFrame : ℚ
  bOrthographicProjection : Bool
  windowShouldClose : Bool

namespace ViewManager

/-- The constant `WINDOW_WIDTH`. -/
def WINDOW_WIDTH : Int := 1000

/-- The constant `WINDOW_HEIGHT`. -/
def WINDOW_HEIGHT : Int := 800

/-- The constructor `ViewManager(ShaderManager* pShaderManager)`, run on the
initial values of the namespace variables; `camera` is the object
`new Camera()` yields, whose five view members the constructor then assigns. -/
def new {R : Type} (pShaderManager : Bool) (camera : Camera R) : ViewManager R where
  m_pShaderManager := pShaderManager
  m_pWindow := false
  g_pCamera :=
    some { camera with
      Position := ⟨0.0, 5.5, 8.0⟩
      Front := ⟨0.0, -0.5, -2.0⟩
      Up := ⟨0.0, 1.0, 0.0⟩
      Zoom := 80
      MovementSpeed := 20 }
  gDeltaTime := 0.0
  gLastFrame := 0.0
  bOrthographicProjection := false
  windowShouldClose := false

/-- The method `CreateDisplayWindow`, as far as the state goes: `window` tells
whether `glfwCreateWindow` returned a window. -/
def CreateDisplayWindow {R : Type} (v : ViewManager R) (window : Bool) : ViewManager R :=
  if window = false then v else { v with m_pWindow := true }

/-- The six movement tests of `ProcessKeyboardEvents` (lines 163-174), applied
to the camera in order. `ProcessKeyboard` is `Camera::ProcessKeyboard`. -/
def ProcessKeyboardEvents.movement {R : Type} (glfwGetKey : Key → Bool)
    (ProcessKeyboard : Camera R → Camera_Movement → ℚ → Camera R) (gDeltaTime : ℚ)
    (camera : Camera R) : Camera R :=
  let camera :=
    if glfwGetKey .GLFW_KEY_W then ProcessKeyboard camera .FORWARD gDeltaTime else camera
  let camera :=
    if glfwGetKey .GLFW_KEY_S then ProcessKeyboard camera .BACKWARD gDeltaTime else camera
  let camera :=
    if glfwGetKey .GLFW_KEY_A then ProcessKeyboard camera .LEFT gDeltaTime else camera
  let camera :=
    if glfwGetKey .GLFW_KEY_D then ProcessKeyboard camera .RIGHT gDeltaTime else camera
  let camera :=
    if glfwGetKey .GLFW_KEY_Q then ProcessKeyboard camera .UP gDeltaTime else camera
  if glfwGetKey .GLFW_KEY_E then ProcessKeyboard camera .DOWN gDeltaTime else camera

/-- The four projection tests of `ProcessKeyboardEvents` (lines 182-209),
applied in order to the pair of `bOrthographicProjection` and the camera. -/
def ProcessKeyboardEvents.projection {R : Type} (glfwGetKey : Key → Bool)
    (view : Bool × Camera R) :
    Bool × Camera R :=
  let view :=
    if glfwGetKey .GLFW_KEY_1 then
      (true, { view.2 with
        Position := ⟨0.0, 4.0, 10.0⟩, Up := ⟨0.0, 1.0, 0.0⟩, Front := ⟨0.0, 0.0, -1.0⟩ })
    else view
  let view :=
    if glfwGetKey .GLFW_KEY_2 then
      (true, { view.2 with
        Position := ⟨10.0, 4.0, 0.0⟩, Up := ⟨0.0, 1.0, 0.0⟩, Front := ⟨-1.0, 0.0, 0.0⟩ })
    else view
  let view :=
    if glfwGetKey .GLFW_KEY_3 then
      (true, { view.2 with
        Position := ⟨0.0, 7.0, 0.0⟩, Up := ⟨-1.0, 0.0, 0.0⟩, Front := ⟨0.0, -1.0, 0.0⟩ })
    else view
  if glfwGetKey .GLFW_KEY_4 then
    (false, { view.2 with
      Position := ⟨0.0, 5.5, 8.0⟩, Front := ⟨0.0, -0.5, -2.0⟩, Up := ⟨0.0, 1.0, 0.0⟩ })
  else view

/-- The method `void ProcessKeyboardEvents()`. `glfwGetKey key` tells whether
`glfwGetKey(m_pWindow, key) == GLFW_PRESS`. -/
def ProcessKeyboardEvents {R : Type} (v : ViewManager R) (glfwGetKey : Key → Bool)
    (ProcessKeyboard : Camera R → Camera_Movement → ℚ → Camera R) : ViewManager R :=
  if v.m_pWindow = false then v
  else
    match v.g_pCamera with
    | none => v
    | some camera =>
      let view := ProcessKeyboardEvents.projection glfwGetKey
        (v.bOrthographicProjection,
          ProcessKeyboardEvents.movement glfwGetKey ProcessKeyboard v.gDeltaTime camera)
      { v with
        windowShouldClose := if glfwGetKey .GLFW_KEY_ESCAPE then true else v.windowShouldClose
        g_pCamera := some view.2
        bOrthographicProjection := view.1 }

/-- The projection choice of `PrepareSceneView` (lines 246-273), in exact
arithmetic. -/
def PrepareSceneView.projection (bOrthographicProjection : Bool) (Zoom : ℚ) : Projection :=
  if !bOrthographicProjection then
    .perspective Zoom ((WINDOW_WIDTH : ℚ) / (WINDOW_HEIGHT : ℚ)) 0.1 100.0
  else if WINDOW_WIDTH > WINDOW_HEIGHT then
    .ortho (-5.0) 5.0 (-5.0 * ((WINDOW_HEIGHT : ℚ) / (WINDOW_WIDTH : ℚ)))
      (5.0 * ((WINDOW_HEIGHT : ℚ) / (WINDOW_WIDTH : ℚ))) 0.1 100.0
  else if WINDOW_WIDTH < WINDOW_HEIGHT then
    .ortho (-5.0 * ((WINDOW_WIDTH : ℚ) / (WINDOW_HEIGHT : ℚ)))
      (5.0 * ((WINDOW_WIDTH : ℚ) / (WINDOW_HEIGHT : ℚ))) (-5.0) 5.0 0.1 100.0
  else .ortho (-5.0) 5.0 (-5.0) 5.0 0.1 100.0

/-- The method `void PrepareSceneView()`, as far as the state and the
projection go: the state afterwards and the projection call made (`none` when
the method returns at one of its two checks). `glfwGetTime` is the value
`glfwGetTime()` returns; the `float` subtraction of the frame timing is taken
exactly. -/
def PrepareSceneView {R : Type} (v : ViewManager R) (glfwGetTime : ℚ)
    (glfwGetKey : Key → Bool)
    (ProcessKeyboard : Camera R → Camera_Movement → ℚ → Camera R) :
    ViewManager R × Option Projection :=
  if v.m_pShaderManager = false then (v, none)
  else
    match v.g_pCamera with
    | none => (v, none)
    | some _ =>
      let v1 := ProcessKeyboardEvents
        { v with gDeltaTime := glfwGetTime - v.gLastFrame, gLastFrame := glfwGetTime }
        glfwGetKey ProcessKeyboard
      (v1, v1.g_pCamera.map fun camera =>
        PrepareSceneView.projection v1.bOrthographicProjection camera.Zoom)

end ViewManager

/-! ## Concrete inputs used by the theorems -/

namespace SceneManager

/-- Sixteen registrations of readable 3-channel images under distinct tags,
with the handles 1 to 16. -/
def sixteenRegistrations : List Call :=
  [ .CreateGLTexture (some ⟨64, 64, 3⟩) 1 "t0", .CreateGLTexture (some ⟨64, 64, 3⟩) 2 "t1",
    .CreateGLTexture (some ⟨64, 64, 3⟩) 3 "t2", .CreateGLTexture (some ⟨64, 64, 3⟩) 4 "t3",
    .CreateGLTexture (some ⟨64, 64, 3⟩) 5 "t4", .CreateGLTexture (some ⟨64, 64, 3⟩) 6 "t5",
    .CreateGLTexture (some ⟨64, 64, 3⟩) 7 "t6", .CreateGLTexture (some ⟨64, 64, 3⟩) 8 "t7",
    .CreateGLTexture (some ⟨64, 64, 3⟩) 9 "t8", .CreateGLTexture (some ⟨64, 64, 3⟩) 10 "t9",
    .CreateGLTexture (some ⟨64, 64, 3⟩) 11 "t10", .CreateGLTexture (some ⟨64, 64, 3⟩) 12 "t11",
    .CreateGLTexture (some ⟨64, 64, 3⟩) 13 "t12", .CreateGLTexture (some ⟨64, 64, 3⟩) 14 "t13",
    .CreateGLTexture (some ⟨64, 64, 3⟩) 15 "t14", .CreateGLTexture (some ⟨64, 64, 3⟩) 16 "t15" ]

/-- An output record with all fields zero and an empty tag. -/
def blankMaterial : OBJECT_MATERIAL :=
  { diffuseColor := ⟨0, 0, 0⟩, specularColor := ⟨0, 0, 0⟩, shininess := 0, tag := "" }

/-- Two different records under the one tag "x". -/
def conflictingMaterials : List OBJECT_MATERIAL :=
  [ { diffuseColor := ⟨1, 1, 1⟩, specularColor := ⟨1, 1, 1⟩, shininess := 1, tag := "x" },
    { diffuseColor := ⟨2, 2, 2⟩, specularColor := ⟨2, 2, 2⟩, shininess := 2, tag := "x" } ]

/-- A fresh `SceneManager` after the registration of "table" (handle 7) and a
failed load. -/
def oneTexture : SceneManager :=
  (run (new true)
    [.CreateGLTexture (some ⟨64, 64, 3⟩) 7 "table", .CreateGLTexture none 0 "missing"]).getD
    (new true)

/-- A fresh `SceneManager` after the registration of two textures, "table"
(handle 7) and "teapot" (handle 9), with a failed load in between. -/
def twoTextures : SceneManager :=
  (run (new true)
    [ .CreateGLTexture (some ⟨64, 64, 3⟩) 7 "table", .CreateGLTexture none 0 "missing",
      .CreateGLTexture (some ⟨32, 32, 4⟩) 9 "teapot" ]).getD (new true)

/-- A `SceneManager` whose mesh collaborator is absent (`m_basicMeshes` is NULL). -/
def withoutMeshes : SceneManager :=
  { twoTextures with m_basicMeshes := false }

end SceneManager

namespace ViewManager

/-- The keys held down: `glfwGetKey` answers `GLFW_PRESS` for the keys of the
list and for no other. -/
def pressed (keys : List Key) : Key → Bool := fun key => decide (key ∈ keys)

/-- A camera with the view members (0,0,0), (0,0,-1), (0,1,0), zoom 45 and
speed 2.5, and no other member. -/
def plainCamera : Camera Unit :=
  { Position := ⟨0, 0, 0⟩, Front := ⟨0, 0, -1⟩, Up := ⟨0, 1, 0⟩, Zoom := 45, MovementSpeed := 2.5,
    rest := () }

/-- A `ProcessKeyboard` that moves the camera along its `Front` and `Up`
vectors by `MovementSpeed * deltaTime`, and does not move it sideways. -/
def plainProcessKeyboard (camera : Camera Unit) (direction : Camera_Movement)
    (deltaTime : ℚ) : Camera Unit :=
  let velocity := camera.MovementSpeed * deltaTime
  let along (d : vec3 ℚ) (sign : ℚ) : vec3 ℚ :=
    ⟨camera.Position.x + sign * velocity * d.x, camera.Position.y + sign * velocity * d.y,
      camera.Position.z + sign * velocity * d.z⟩
  match direction with
  | .FORWARD => { camera with Position := along camera.Front 1 }
  | .BACKWARD => { camera with Position := along camera.Front (-1) }
  | .UP => { camera with Position := along camera.Up 1 }
  | .DOWN => { camera with Position := along camera.Up (-1) }
  | _ => camera

/-- A view manager with a window, after a frame in which key 2 was held down:
the side orthographic view. -/
def sideView : ViewManager Unit :=
  ((new true plainCamera).CreateDisplayWindow true).ProcessKeyboardEvents
    (pressed [.GLFW_KEY_2]) plainProcessKeyboard

end ViewManager

/-! ## Theorems -/

/-! ### Helper lemmas: transform builder -/

theorem glm.normalize_unitX : glm.normalize ⟨1, 0, 0⟩ = ⟨1, 0, 0⟩ := by
  simp [glm.normalize, glm.dot]

theorem glm.normalize_unitY : glm.normalize ⟨0, 1, 0⟩ = ⟨0, 1, 0⟩ := by
  simp [glm.normalize, glm.dot]

theorem glm.normalize_unitZ : glm.normalize ⟨0, 0, 1⟩ = ⟨0, 0, 1⟩ := by
  simp [glm.normalize, glm.dot]

theorem glm.rotate_unitX (θ : ℝ) : glm.rotate θ ⟨1, 0, 0⟩ = Spec.RotationX θ := by
  simp [glm.rotate, glm.normalize_unitX, Spec.RotationX]

theorem glm.rotate_unitY (θ : ℝ) : glm.rotate θ ⟨0, 1, 0⟩ = Spec.RotationY θ := by
  simp [glm.rotate, glm.normalize_unitY, Spec.RotationY]

theorem glm.rotate_unitZ (θ : ℝ) : glm.rotate θ ⟨0, 0, 1⟩ = Spec.RotationZ θ := by
  simp [glm.rotate, glm.normalize_unitZ, Spec.RotationZ]

theorem glm.scale_eq (s : vec3 ℝ) : glm.scale s = Spec.Scale s := by
  ext i j
  fin_cases i <;> fin_cases j <;> rfl

theorem glm.translate_eq (t : vec3 ℝ) : glm.translate t = Spec.Translation t := by
  ext i j
  fin_cases i <;> fin_cases j <;>
    first | rfl | (simp [glm.translate, Spec.Translation]; done) |
      (simp [glm.translate, Spec.Translation]; rfl)

/-! ### Transform builder -/

theorem SceneManager.SetTransformations.modelView_eq (s : vec3 ℝ) (rx ry rz : ℝ) (t : vec3 ℝ) :
    SceneManager.SetTransformations.modelView s rx ry rz t =
      Spec.Translation t * Spec.RotationZ (glm.radians rz) * Spec.RotationY (glm.radians ry) *
        Spec.RotationX (glm.radians rx) * Spec.Scale s := by
  simp only [SceneManager.SetTransformations.modelView, glm.rotate_unitX, glm.rotate_unitY,
    glm.rotate_unitZ, glm.scale_eq, glm.translate_eq]

theorem Spec.Scale_mulVec (s p : vec3 ℝ) :
    (Spec.Scale s).mulVec p.homogeneous = (Spec.scalePoint s p).homogeneous := by
  funext i
  fin_cases i <;>
    simp [Spec.Scale, Spec.scalePoint, vec3.homogeneous, Matrix.mulVec, Matrix.dotProduct,
      Fin.sum_univ_four, Matrix.diagonal]

theorem Spec.RotationX_mulVec (θ : ℝ) (p : vec3 ℝ) :
    (Spec.RotationX θ).mulVec p.homogeneous = (Spec.rotatePointX θ p).homogeneous := by
  funext i
  fin_cases i <;>
    simp [Spec.RotationX, Spec.rotatePointX, vec3.homogeneous, Matrix.mulVec, Matrix.dotProduct,
      Fin.sum_univ_four]
  all_goals ring

theorem Spec.RotationY_mulVec (θ : ℝ) (p : vec3 ℝ) :
    (Spec.RotationY θ).mulVec p.homogeneous = (Spec.rotatePointY θ p).homogeneous := by
  funext i
  fin_cases i <;>
    simp [Spec.RotationY, Spec.rotatePointY, vec3.homogeneous, Matrix.mulVec, Matrix.dotProduct,
      Fin.sum_univ_four]
  all_goals ring

theorem Spec.RotationZ_mulVec (θ : ℝ) (p : vec3 ℝ) :
    (Spec.RotationZ θ).mulVec p.homogeneous = (Spec.rotatePointZ θ p).homogeneous := by
  funext i
  fin_cases i <;>
    simp [Spec.RotationZ, Spec.rotatePointZ, vec3.homogeneous, Matrix.mulVec, Matrix.dotProduct,
      Fin.sum_univ_four]
  all_goals ring

theorem Spec.Translation_mulVec (t p : vec3 ℝ) :
    (Spec.Translation t).mulVec p.homogeneous = (Spec.translatePoint t p).homogeneous := by
  funext i
  fin_cases i <;>
    simp [Spec.Translation, Spec.translatePoint, vec3.homogeneous, Matrix.mulVec,
      Matrix.dotProduct, Fin.sum_univ_four]

theorem SceneManager.SetTransformations.modelView_mulVec (s : vec3 ℝ) (rx ry rz : ℝ)
    (t p : vec3 ℝ) :
    (SceneManager.SetTransformations.modelView s rx ry rz t).mulVec p.homogeneous =
      (Spec.translatePoint t
        (Spec.rotatePointZ (glm.radians rz)
          (Spec.rotatePointY (glm.radians ry)
            (Spec.rotatePointX (glm.radians rx) (Spec.scalePoint s p))))).homogeneous := by
  rw [SceneManager.SetTransformations.modelView_eq, ← Matrix.mulVec_mulVec,
    ← Matrix.mulVec_mulVec, ← Matrix.mulVec_mulVec, ← Matrix.mulVec_mulVec,
    Spec.Scale_mulVec, Spec.RotationX_mulVec, Spec.RotationY_mulVec, Spec.RotationZ_mulVec,
    Spec.Translation_mulVec]

theorem glm.radians_ninety : glm.radians 90 = Real.pi / 2 := by
  unfold glm.radians; ring

theorem glm.radians_zero : glm.radians 0 = 0 := by
  unfold glm.radians; ring

/-- C1: the matrix `SetTransformations` writes to the "model" uniform (when a
shader manager is present; otherwise nothing is written) is
`Translation t * RotationZ (radians rz) * RotationY (radians ry) * RotationX (radians rx) * Scale s`
over the reals; applied to a point it scales first, then rotates about X, then
Y, then Z, then translates; and for scale (2,1,1), rotation (0,90,0) degrees
and translation (1,0,0) the point (1,0,0) is mapped to (1,0,-2). -/
theorem SceneManager.SetTransformations_composition (sm : SceneManager) (s : vec3 ℝ)
    (rx ry rz : ℝ) (t : vec3 ℝ) :
    sm.SetTransformations s rx ry rz t =
        (if sm.m_pShaderManager then
          [ShaderCall.setMat4Value "model"
            (Spec.Translation t * Spec.RotationZ (glm.radians rz) *
              Spec.RotationY (glm.radians ry) * Spec.RotationX (glm.radians rx) * Spec.Scale s)]
        else []) ∧
      (∀ p : vec3 ℝ,
        (SceneManager.SetTransformations.modelView s rx ry rz t).mulVec p.homogeneous =
          (Spec.translatePoint t
            (Spec.rotatePointZ (glm.radians rz)
              (Spec.rotatePointY (glm.radians ry)
                (Spec.rotatePointX (glm.radians rx) (Spec.scalePoint s p))))).homogeneous) ∧
      (SceneManager.SetTransformations.modelView ⟨2, 1, 1⟩ 0 90 0 ⟨1, 0, 0⟩).mulVec
          (vec3.homogeneous ⟨1, 0, 0⟩) = vec3.homogeneous ⟨1, 0, -2⟩ := by
  refine ⟨?_, fun p => SceneManager.SetTransformations.modelView_mulVec s rx ry rz t p, ?_⟩
  · simp only [SceneManager.SetTransformations, SceneManager.SetTransformations.modelView_eq]
  · rw [SceneManager.SetTransformations.modelView_mulVec, glm.radians_ninety, glm.radians_zero]
    simp [Spec.translatePoint, Spec.rotatePointZ, Spec.rotatePointY, Spec.rotatePointX,
      Spec.scalePoint]

/-- C2: with scale (1,1,1), rotations (0,0,0) degrees and translation (0,0,0),
`SetTransformations` writes the 4x4 identity matrix to the "model" uniform
(when a shader manager is present; otherwise nothing is written). -/
theorem SceneManager.SetTransformations_identity (sm : SceneManager) :
    SceneManager.SetTransformations.modelView ⟨1, 1, 1⟩ 0 0 0 ⟨0, 0, 0⟩ = 1 ∧
      sm.SetTransformations ⟨1, 1, 1⟩ 0 0 0 ⟨0, 0, 0⟩ =
        (if sm.m_pShaderManager then [ShaderCall.setMat4Value "model" 1] else []) := by
  have h : SceneManager.SetTransformations.modelView ⟨1, 1, 1⟩ 0 0 0 ⟨0, 0, 0⟩ = 1 := by
    rw [SceneManager.SetTransformations.modelView_eq, glm.radians_zero]
    have hS : Spec.Scale ⟨1, 1, 1⟩ = 1 := by
      ext i j
      fin_cases i <;> fin_cases j <;> simp [Spec.Scale, Matrix.diagonal]
    have hT : Spec.Translation ⟨0, 0, 0⟩ = 1 := by
      ext i j
      fin_cases i <;> fin_cases j <;> simp [Spec.Translation, Matrix.one_apply]
    have hX : Spec.RotationX 0 = 1 := by
      ext i j
      fin_cases i <;> fin_cases j <;>
        first | (simp [Spec.RotationX, Matrix.one_apply]; done) |
          (simp [Spec.RotationX, Matrix.one_apply]; rfl)
    have hY : Spec.RotationY 0 = 1 := by
      ext i j
      fin_cases i <;> fin_cases j <;>
        first | (simp [Spec.RotationY, Matrix.one_apply]; done) |
          (simp [Spec.RotationY, Matrix.one_apply]; rfl)
    have hZ : Spec.RotationZ 0 = 1 := by
      ext i j
      fin_cases i <;> fin_cases j <;>
        first | (simp [Spec.RotationZ, Matrix.one_apply]; done) |
          (simp [Spec.RotationZ, Matrix.one_apply]; rfl)
    rw [hS, hT, hX, hY, hZ]
    simp
  exact ⟨h, by simp only [SceneManager.SetTransformations, h]⟩

/-! ### Texture registry -/

namespace SceneManager

/-- C3 (the code at the failing input): after sixteen successful registrations
on a fresh `SceneManager` the count is 16 and the array is full; a further
`CreateGLTexture` with a readable 3-channel or 4-channel image does not return
`false`: it reaches the registration block, whose store to `m_textureIDs[16]`
is outside the array (no result, `isSome = false`). Only a call whose image
load fails returns `false`. -/
theorem CreateGLTexture_seventeenth :
    (run (new true) sixteenRegistrations).map (fun s =>
        (s.m_loadedTextures, s.m_textureIDs.length,
          (s.CreateGLTexture (some ⟨64, 64, 3⟩) 17 "t16").isSome,
          (s.CreateGLTexture (some ⟨64, 64, 4⟩) 17 "t16").isSome,
          (s.CreateGLTexture none 17 "t16").map fun r => r.1)) =
      some (16, 16, false, false, some false) := by
  decide

end SceneManager

/-! ### Helper lemmas: linear scans and registration -/

namespace SceneManager

theorem FindTextureSlot_scan_eq (ids : List TEXTURE_INFO) (tag : String) :
    ∀ (remaining index : Nat), index + remaining ≤ ids.length →
      FindTextureSlot.scan ids tag remaining index =
        some (firstSlot tag ((ids.drop index).take remaining) index) := by
  intro remaining
  induction remaining with
  | zero => intro index _; simp [FindTextureSlot.scan, firstSlot]
  | succ r ih =>
    intro index h
    have hlt : index < ids.length := by omega
    rw [FindTextureSlot.scan, List.getElem?_eq_getElem hlt, List.drop_eq_getElem_cons hlt,
      List.take_succ_cons]
    simp only [firstSlot]
    split
    · rfl
    · exact ih (index + 1) (by omega)

theorem FindTextureID_scan_eq (ids : List TEXTURE_INFO) (tag : String) :
    ∀ (remaining index : Nat), index + remaining ≤ ids.length →
      FindTextureID.scan ids tag remaining index =
        some (firstID tag ((ids.drop index).take remaining)) := by
  intro remaining
  induction remaining with
  | zero => intro index _; simp [FindTextureID.scan, firstID]
  | succ r ih =>
    intro index h
    have hlt : index < ids.length := by omega
    rw [FindTextureID.scan, List.getElem?_eq_getElem hlt, List.drop_eq_getElem_cons hlt,
      List.take_succ_cons]
    simp only [firstID]
    split
    · rfl
    · exact ih (index + 1) (by omega)

theorem Original.FindTextureSlot_eq (s : SceneManager)
    (h : s.m_loadedTextures ≤ s.m_textureIDs.length) (tag : String) :
    Original.FindTextureSlot s tag = some (firstSlot tag s.registered 0) := by
  rw [Original.FindTextureSlot, FindTextureSlot_scan_eq _ _ _ _ (by omega)]
  simp [registered]

theorem Original.FindTextureID_eq (s : SceneManager)
    (h : s.m_loadedTextures ≤ s.m_textureIDs.length) (tag : String) :
    Original.FindTextureID s tag = some (firstID tag s.registered) := by
  rw [Original.FindTextureID, FindTextureID_scan_eq _ _ _ _ (by omega)]
  simp [registered]

theorem firstSlot_append_of_ne (tag : String) (e : TEXTURE_INFO) (h : e.tag ≠ tag) :
    ∀ (l : List TEXTURE_INFO) (index : Nat),
      firstSlot tag (l ++ [e]) index = firstSlot tag l index := by
  intro l
  induction l with
  | nil => intro index; simp [firstSlot, h]
  | cons a l ih => intro index; rw [List.cons_append, firstSlot, firstSlot, ih]

theorem firstSlot_append_of_not_mem (tag : String) (e : TEXTURE_INFO) (h : e.tag = tag) :
    ∀ (l : List TEXTURE_INFO) (index : Nat), (∀ x ∈ l, x.tag ≠ tag) →
      firstSlot tag (l ++ [e]) index = ((index + l.length : Nat) : Int) := by
  intro l
  induction l with
  | nil => intro index _; simp [firstSlot, h]
  | cons a l ih =>
    intro index hl
    have ha : a.tag ≠ tag := hl a (List.mem_cons_self _ _)
    rw [List.cons_append, firstSlot, if_neg ha,
      ih (index + 1) (fun x hx => hl x (List.mem_cons_of_mem _ hx)), List.length_cons]
    congr 1
    omega

theorem firstID_append_of_ne (tag : String) (e : TEXTURE_INFO) (h : e.tag ≠ tag) :
    ∀ (l : List TEXTURE_INFO), firstID tag (l ++ [e]) = firstID tag l := by
  intro l
  induction l with
  | nil => simp [firstID, h]
  | cons a l ih => rw [List.cons_append, firstID, firstID, ih]

theorem firstID_append_of_not_mem (tag : String) (e : TEXTURE_INFO) (h : e.tag = tag) :
    ∀ (l : List TEXTURE_INFO), (∀ x ∈ l, x.tag ≠ tag) →
      firstID tag (l ++ [e]) = static_cast_int e.ID := by
  intro l
  induction l with
  | nil => intro _; simp [firstID, h]
  | cons a l ih =>
    intro hl
    have ha : a.tag ≠ tag := hl a (List.mem_cons_self _ _)
    rw [List.cons_append, firstID, if_neg ha]
    exact ih (fun x hx => hl x (List.mem_cons_of_mem _ hx))

theorem CreateGLTexture.register_eq (s s1 : SceneManager) (textureID : Nat) (tag : String)
    (h : CreateGLTexture.register s textureID tag = some s1) :
    s.m_loadedTextures < s.m_textureIDs.length ∧
      s1 = { s with
        m_textureIDs := s.m_textureIDs.set s.m_loadedTextures { tag := tag, ID := textureID }
        m_textureIdLookup := s.m_textureIdLookup.assign tag textureID
        m_textureSlotLookup := s.m_textureSlotLookup.assign tag (s.m_loadedTextures : Int)
        m_loadedTextures := s.m_loadedTextures + 1 } := by
  unfold CreateGLTexture.register at h
  split at h
  · rename_i hlt
    exact ⟨hlt, (Option.some.inj h).symm⟩
  · cases h

theorem CreateGLTexture.true_iff (s s1 : SceneManager) (image : Option stbi_image)
    (textureID : Nat) (tag : String) (gl : List GLCall) :
    s.CreateGLTexture image textureID tag = some (true, s1, gl) →
      (Call.CreateGLTexture image textureID tag).registers = true ∧
        CreateGLTexture.register s textureID tag = some s1 := by
  intro h
  unfold SceneManager.CreateGLTexture at h
  cases image with
  | none => simp at h
  | some img =>
    simp only at h
    split at h
    · rename_i h3
      cases hr : CreateGLTexture.register s textureID tag with
      | none => simp [hr] at h
      | some s2 =>
        simp [hr] at h
        exact ⟨by simp [Call.registers, h3], by rw [h.1]⟩
    · split at h
      · rename_i h4
        cases hr : CreateGLTexture.register s textureID tag with
        | none => simp [hr] at h
        | some s2 =>
          simp [hr] at h
          exact ⟨by simp [Call.registers, h4], by rw [h.1]⟩
      · simp at h

theorem step_CreateGLTexture (s s1 : SceneManager) (image : Option stbi_image)
    (textureID : Nat) (tag : String)
    (h : s.step (.CreateGLTexture image textureID tag) = some s1) :
    ((Call.CreateGLTexture image textureID tag).registers = true ∧
        CreateGLTexture.register s textureID tag = some s1) ∨
      ((Call.CreateGLTexture image textureID tag).registers = false ∧ s1 = s) := by
  unfold step SceneManager.CreateGLTexture at h
  cases image with
  | none => simp at h; exact Or.inr ⟨rfl, h.symm⟩
  | some img =>
    simp only at h
    split at h
    · rename_i h3
      cases hr : CreateGLTexture.register s textureID tag with
      | none => simp [hr] at h
      | some s2 =>
        simp [hr] at h
        exact Or.inl ⟨by simp [Call.registers, h3], by rw [h]⟩
    · split at h
      · rename_i h4
        cases hr : CreateGLTexture.register s textureID tag with
        | none => simp [hr] at h
        | some s2 =>
          simp [hr] at h
          exact Or.inl ⟨by simp [Call.registers, h4], by rw [h]⟩
      · rename_i h3 h4
        simp at h
        exact Or.inr ⟨by simp [Call.registers, h3, h4], h.symm⟩

theorem registered_register (s : SceneManager) (textureID : Nat) (tag : String)
    (hlt : s.m_loadedTextures < s.m_textureIDs.length) :
    (s.m_textureIDs.set s.m_loadedTextures { tag := tag, ID := textureID }).take
        (s.m_loadedTextures + 1) =
      s.registered ++ [{ tag := tag, ID := textureID }] := by
  have h0 : (s.m_textureIDs.set s.m_loadedTextures { tag := tag, ID := textureID }).take
      s.m_loadedTextures = s.m_textureIDs.take s.m_loadedTextures := by
    apply List.ext_getElem?
    intro i
    rw [List.getElem?_take, List.getElem?_take]
    split
    · rw [List.getElem?_set_ne (by omega)]
    · rfl
  rw [List.take_succ, List.getElem?_set_self hlt, h0]
  rfl

end SceneManager

/-! ### Helper lemmas: the lookup maps as a cache of the array -/

namespace SceneManager

theorem register_cacheConsistent (s s1 : SceneManager) (textureID : Nat) (tag : String)
    (h : CreateGLTexture.register s textureID tag = some s1)
    (hJ : s.DistinctTags → s.CacheConsistent) :
    s1.m_loadedTextures ≤ s1.m_textureIDs.length ∧ (s1.DistinctTags → s1.CacheConsistent) := by
  obtain ⟨hlt, rfl⟩ := CreateGLTexture.register_eq s s1 textureID tag h
  refine ⟨by simp only [List.length_set]; omega, ?_⟩
  intro hnd
  have hreg := registered_register s textureID tag hlt
  have hlen : s.registered.length = s.m_loadedTextures := by
    simp only [registered, List.length_take]; omega
  unfold DistinctTags at hnd
  simp only [registered] at hnd
  rw [hreg, List.map_append, List.nodup_append] at hnd
  obtain ⟨hnd0, -, hdisj⟩ := hnd
  have hnot : ∀ x ∈ s.registered, x.tag ≠ tag := by
    intro x hx hxt
    exact hdisj (List.mem_map.mpr ⟨x, hx, rfl⟩) (by simp [hxt])
  obtain ⟨hslot, hid⟩ := hJ hnd0
  constructor
  · intro t k hk
    simp only [registered, unordered_map.assign] at hk ⊢
    rw [hreg]
    by_cases ht : t = tag
    · subst ht
      rw [if_pos rfl] at hk
      rw [firstSlot_append_of_not_mem t _ rfl _ _ hnot, hlen, ← Option.some.inj hk]
      simp
    · rw [if_neg ht] at hk
      rw [firstSlot_append_of_ne t _ (fun h' => ht h'.symm)]
      exact hslot t k hk
  · intro t v hv
    simp only [registered, unordered_map.assign] at hv ⊢
    rw [hreg]
    by_cases ht : t = tag
    · subst ht
      rw [if_pos rfl] at hv
      rw [firstID_append_of_not_mem t _ rfl _ hnot, ← Option.some.inj hv]
    · rw [if_neg ht] at hv
      rw [firstID_append_of_ne t _ (fun h' => ht h'.symm)]
      exact hid t v hv

theorem step_cacheConsistent (s s1 : SceneManager) (c : Call) (hc : c ≠ .DestroyGLTextures)
    (h : s.step c = some s1) (hle : s.m_loadedTextures ≤ s.m_textureIDs.length)
    (hJ : s.DistinctTags → s.CacheConsistent) :
    s1.m_loadedTextures ≤ s1.m_textureIDs.length ∧ (s1.DistinctTags → s1.CacheConsistent) := by
  cases c with
  | CreateGLTexture image textureID tag =>
    rcases step_CreateGLTexture s s1 image textureID tag h with ⟨-, hr⟩ | ⟨-, rfl⟩
    · exact register_cacheConsistent s s1 textureID tag hr hJ
    · exact ⟨hle, hJ⟩
  | DestroyGLTextures => exact absurd rfl hc
  | DefineObjectMaterials =>
    simp only [step, Option.some.injEq] at h
    subst h
    exact ⟨hle, hJ⟩

theorem run_cacheConsistent (cs : List Call) :
    ∀ (s s1 : SceneManager), (∀ c ∈ cs, c ≠ .DestroyGLTextures) → s.run cs = some s1 →
      s.m_loadedTextures ≤ s.m_textureIDs.length → (s.DistinctTags → s.CacheConsistent) →
      s1.m_loadedTextures ≤ s1.m_textureIDs.length ∧
        (s1.DistinctTags → s1.CacheConsistent) := by
  induction cs with
  | nil =>
    intro s s1 _ h hle hJ
    simp only [run, Option.some.injEq] at h
    subst h
    exact ⟨hle, hJ⟩
  | cons c cs ih =>
    intro s s1 hcs h hle hJ
    simp only [run] at h
    cases hs : s.step c with
    | none => simp [hs] at h
    | some s2 =>
      rw [hs, Option.some_bind] at h
      obtain ⟨hle2, hJ2⟩ :=
        step_cacheConsistent s s2 c (hcs c (List.mem_cons_self _ _)) hs hle hJ
      exact ih s2 s1 (fun c' hc' => hcs c' (List.mem_cons_of_mem _ hc')) h hle2 hJ2

theorem new_cacheConsistent (p : Bool) :
    (new p).m_loadedTextures ≤ (new p).m_textureIDs.length ∧ (new p).CacheConsistent := by
  refine ⟨by simp [new], ?_, ?_⟩
  · intro t k hk
    simp [new, unordered_map.empty] at hk
  · intro t v hv
    simp [new, unordered_map.empty] at hv

theorem lookups_eq_of_cacheConsistent (s : SceneManager)
    (hle : s.m_loadedTextures ≤ s.m_textureIDs.length) (hJ : s.CacheConsistent) (tag : String) :
    s.FindTextureSlot tag = some (firstSlot tag s.registered 0) ∧
      s.FindTextureID tag = some (firstID tag s.registered) := by
  constructor
  · unfold SceneManager.FindTextureSlot
    cases hm : s.m_textureSlotLookup tag with
    | none => exact Original.FindTextureSlot_eq s hle tag
    | some k => simp only [hJ.1 tag k hm]
  · unfold SceneManager.FindTextureID
    cases hm : s.m_textureIdLookup tag with
    | none => exact Original.FindTextureID_eq s hle tag
    | some v => simp only [hJ.2 tag v hm]

end SceneManager

/-! ### Helper lemmas: the loop of `DestroyGLTextures` -/

namespace SceneManager

/-- The `glDeleteTextures` calls for the entries of a list that hold a handle. -/
theorem DestroyGLTextures.loop_eq (ids : List TEXTURE_INFO) (calls : List GLCall) :
    ∀ n, n ≤ ids.length →
      ∃ ids1, (List.range n).foldlM DestroyGLTextures.body (ids, calls) =
          some (ids1, calls ++ ((ids.take n).filter fun e => e.ID ≠ GLuint_minus_one).map
            fun e => GLCall.glDeleteTextures e.ID) ∧
        ids1.length = ids.length ∧
        (∀ i, n ≤ i → ids1[i]? = ids[i]?) ∧
        (∀ i, i < n → ids1[i]? = ids[i]?.map fun e => { e with ID := GLuint_minus_one }) := by
  intro n
  induction n with
  | zero =>
    intro _
    exact ⟨ids, by simp, rfl, fun _ _ => rfl, fun i hi => absurd hi (Nat.not_lt_zero i)⟩
  | succ n ih =>
    intro hn
    obtain ⟨ids0, hfold, hlen, hge, hlt⟩ := ih (by omega)
    have hn' : n < ids.length := by omega
    have hget : ids0[n]? = some ids[n] := by
      rw [hge n (Nat.le_refl n), List.getElem?_eq_getElem hn']
    have htake : ids.take (n + 1) = ids.take n ++ [ids[n]] := by
      rw [List.take_succ, List.getElem?_eq_getElem hn']; rfl
    have hfilter : ((ids.take (n + 1)).filter fun e => e.ID ≠ GLuint_minus_one) =
        ((ids.take n).filter fun e => e.ID ≠ GLuint_minus_one) ++
          if ids[n].ID ≠ GLuint_minus_one then [ids[n]] else [] := by
      rw [htake, List.filter_append]
      by_cases hid : ids[n].ID = GLuint_minus_one <;> simp [List.filter, hid]
    rw [List.range_succ, List.foldlM_append, hfold, hfilter]
    by_cases hid : ids[n].ID = GLuint_minus_one
    · refine ⟨ids0, ?_, hlen, fun i hi => hge i (by omega), ?_⟩
      · simp [DestroyGLTextures.body, hget, hid]
      · intro i hi
        by_cases hin : i = n
        · subst hin
          rw [hget, List.getElem?_eq_getElem hn']
          simp only [Option.map_some']
          congr 1
          cases hx : ids[i] with
          | mk tag ID =>
            rw [hx] at hid
            simp only at hid
            simp [hid]
        · exact hlt i (by omega)
    · refine ⟨ids0.set n { ids[n] with ID := GLuint_minus_one }, ?_, ?_, ?_, ?_⟩
      · simp [DestroyGLTextures.body, hget, hid]
      · simp [hlen]
      · intro i hi
        rw [List.getElem?_set_ne (by omega)]
        exact hge i (by omega)
      · intro i hi
        by_cases hin : i = n
        · subst hin
          rw [List.getElem?_set_self (by omega), List.getElem?_eq_getElem hn']
          rfl
        · rw [List.getElem?_set_ne (fun h => hin h.symm)]
          exact hlt i (by omega)

end SceneManager

/-! ### Texture registry: release -/

namespace SceneManager

/-- C9: on a registry within its array bounds `DestroyGLTextures` returns; the
OpenGL calls it issues are exactly one `glDeleteTextures` per slot
`0 ≤ i < m_loadedTextures` holding a handle (an ID other than the "no texture"
sentinel), in slot order, hence one per registered entry when no entry holds
the sentinel; none of them is `glGenTextures`; the count is 0 afterwards; and a
second consecutive `DestroyGLTextures` issues no call at all and returns the
same state. -/
theorem DestroyGLTextures_release (s : SceneManager)
    (h : s.m_loadedTextures ≤ s.m_textureIDs.length) :
    ∃ s1 gl, s.DestroyGLTextures = some (s1, gl) ∧
      gl = ((s.registered.filter fun e => e.ID ≠ GLuint_minus_one).map
        fun e => GLCall.glDeleteTextures e.ID) ∧
      ((∀ e ∈ s.registered, e.ID ≠ GLuint_minus_one) →
        gl = s.registered.map fun e => GLCall.glDeleteTextures e.ID) ∧
      (∀ c ∈ gl, ∀ textureID, c ≠ GLCall.glGenTextures textureID) ∧
      s1.m_loadedTextures = 0 ∧
      s1.DestroyGLTextures = some (s1, []) := by
  obtain ⟨ids1, hfold, -, -, -⟩ := DestroyGLTextures.loop_eq s.m_textureIDs [] s.m_loadedTextures h
  refine ⟨{ s with m_textureIDs := ids1, m_loadedTextures := 0 }, _, ?_, rfl, ?_, ?_, rfl, ?_⟩
  · simp only [SceneManager.DestroyGLTextures, hfold, Option.map_some', List.nil_append,
      registered]
  · intro hall
    congr 1
    rw [List.filter_eq_self]
    intro e he
    simpa using hall e he
  · intro c hc textureID hgen
    subst hgen
    simp at hc
  · simp [SceneManager.DestroyGLTextures]

/-- Witness for C9: the registry holding "table" (handle 7) and "teapot" (handle 9). -/
theorem DestroyGLTextures_release_witness :
    twoTextures.m_loadedTextures ≤ twoTextures.m_textureIDs.length ∧
      ∃ s1 gl, twoTextures.DestroyGLTextures = some (s1, gl) ∧
        gl = ((twoTextures.registered.filter fun e => e.ID ≠ GLuint_minus_one).map
          fun e => GLCall.glDeleteTextures e.ID) ∧
        ((∀ e ∈ twoTextures.registered, e.ID ≠ GLuint_minus_one) →
          gl = twoTextures.registered.map fun e => GLCall.glDeleteTextures e.ID) ∧
        (∀ c ∈ gl, ∀ textureID, c ≠ GLCall.glGenTextures textureID) ∧
        s1.m_loadedTextures = 0 ∧
        s1.DestroyGLTextures = some (s1, []) :=
  ⟨by decide, DestroyGLTextures_release twoTextures (by decide)⟩

/-- C8 (the code at the failing input): after registering "a" with handle 7
and calling `DestroyGLTextures`, the count is 0 but `FindTextureSlot("a")`
still returns 0 and `FindTextureID("a")` still returns 7 (the lookup maps are
not cleared); only a tag that was never registered gives -1. -/
theorem DestroyGLTextures_keeps_lookups :
    (run (new true) [.CreateGLTexture (some ⟨64, 64, 3⟩) 7 "a", .DestroyGLTextures]).map
        (fun s => (s.m_loadedTextures, s.FindTextureSlot "a", s.FindTextureID "a",
          s.FindTextureSlot "b", s.FindTextureID "b")) =
      some (0, some 0, some 7, some (-1), some (-1)) := by
  decide

end SceneManager

/-! ### Texture registry: hash path and linear scan -/

namespace SceneManager

/-- C4 (counterexample): the hash path and the linear scan disagree after a
tag is registered twice ("a" with handles 7 and 8: slot 1 against 0, handle 8
against 7), and after `DestroyGLTextures` ("table" and "teapot" registered and
released: slot 1 and handle 9 against -1 and -1). -/
theorem lookup_paths_disagree :
    (run (new true)
        [.CreateGLTexture (some ⟨64, 64, 3⟩) 7 "a", .CreateGLTexture (some ⟨64, 64, 3⟩) 8 "a"]).map
        (fun s => (s.FindTextureSlot "a", Original.FindTextureSlot s "a",
          s.FindTextureID "a", Original.FindTextureID s "a")) =
      some (some 1, some 0, some 8, some 7) ∧
    (twoTextures.run [.DestroyGLTextures]).map
        (fun s => (s.FindTextureSlot "teapot", Original.FindTextureSlot s "teapot",
          s.FindTextureID "teapot", Original.FindTextureID s "teapot")) =
      some (some 1, some (-1), some 9, some (-1)) := by
  decide

/-- C4 (amended): in every state reached from a fresh `SceneManager` by calls
other than `DestroyGLTextures` in which the registered tags are pairwise
distinct, `FindTextureSlot` and the linear scan return the same slot (or both
-1) and `FindTextureID` and its linear scan return the same handle, for every
tag. -/
theorem lookup_paths_agree (p : Bool) (cs : List Call) (s : SceneManager)
    (hcs : ∀ c ∈ cs, c ≠ Call.DestroyGLTextures) (hrun : (new p).run cs = some s)
    (hdistinct : s.DistinctTags) (tag : String) :
    (∃ slot, s.FindTextureSlot tag = some slot ∧ Original.FindTextureSlot s tag = some slot) ∧
      ∃ textureID, s.FindTextureID tag = some textureID ∧
        Original.FindTextureID s tag = some textureID := by
  obtain ⟨hle0, hJ0⟩ := new_cacheConsistent p
  obtain ⟨hle, hJ⟩ := run_cacheConsistent cs (new p) s hcs hrun hle0 (fun _ => hJ0)
  obtain ⟨h1, h2⟩ := lookups_eq_of_cacheConsistent s hle (hJ hdistinct) tag
  exact ⟨⟨_, h1, Original.FindTextureSlot_eq s hle tag⟩,
    ⟨_, h2, Original.FindTextureID_eq s hle tag⟩⟩

/-- Witness for C4 (amended): two registrations with a failed load in between,
queried for "teapot". -/
theorem lookup_paths_agree_witness :
    (∃ slot, twoTextures.FindTextureSlot "teapot" = some slot ∧
        Original.FindTextureSlot twoTextures "teapot" = some slot) ∧
      ∃ textureID, twoTextures.FindTextureID "teapot" = some textureID ∧
        Original.FindTextureID twoTextures "teapot" = some textureID :=
  lookup_paths_agree true
    [ .CreateGLTexture (some ⟨64, 64, 3⟩) 7 "table", .CreateGLTexture none 0 "missing",
      .CreateGLTexture (some ⟨32, 32, 4⟩) 9 "teapot" ]
    twoTextures (by decide) rfl (by unfold DistinctTags; decide) "teapot"

/-! ### Texture registry: slot stability and allocation order -/

theorem step_keeps_slot (s s1 : SceneManager) (c : Call) (tag : String)
    (hc : c.keeps tag = true) (h : s.step c = some s1) :
    s1.m_textureSlotLookup tag = s.m_textureSlotLookup tag := by
  cases c with
  | CreateGLTexture image textureID t =>
    rcases step_CreateGLTexture s s1 image textureID t h with ⟨hreg, hr⟩ | ⟨-, rfl⟩
    · obtain ⟨-, rfl⟩ := CreateGLTexture.register_eq s s1 textureID t hr
      have ht : t ≠ tag := by simpa [Call.keeps, hreg] using hc
      have ht' : ¬ tag = t := fun h' => ht h'.symm
      simp only [unordered_map.assign, if_neg ht']
    · rfl
  | DestroyGLTextures => simp [Call.keeps] at hc
  | DefineObjectMaterials =>
    simp only [step, Option.some.injEq] at h
    subst h
    rfl

theorem run_keeps_slot (cs : List Call) (tag : String) :
    ∀ (s s1 : SceneManager), (∀ c ∈ cs, c.keeps tag = true) → s.run cs = some s1 →
      s1.m_textureSlotLookup tag = s.m_textureSlotLookup tag := by
  induction cs with
  | nil =>
    intro s s1 _ h
    simp only [run, Option.some.injEq] at h
    subst h
    rfl
  | cons c cs ih =>
    intro s s1 hcs h
    simp only [run] at h
    cases hs : s.step c with
    | none => simp [hs] at h
    | some s2 =>
      rw [hs, Option.some_bind] at h
      rw [ih s2 s1 (fun c' hc' => hcs c' (List.mem_cons_of_mem _ hc')) h]
      exact step_keeps_slot s s2 c tag (hcs c (List.mem_cons_self _ _)) hs

/-- C7 (counterexample): "a" is registered in slot 0, and `FindTextureSlot("a")`
returns 0; after the further registrations of "b" and of "a" again,
`FindTextureSlot("a")` returns 2. -/
theorem FindTextureSlot_reassigned :
    (run (new true) [.CreateGLTexture (some ⟨64, 64, 3⟩) 7 "a"]).map
        (fun s => s.FindTextureSlot "a") = some (some 0) ∧
    (run (new true)
        [ .CreateGLTexture (some ⟨64, 64, 3⟩) 7 "a", .CreateGLTexture (some ⟨64, 64, 3⟩) 8 "b",
          .CreateGLTexture (some ⟨64, 64, 3⟩) 9 "a" ]).map
        (fun s => s.FindTextureSlot "a") = some (some 2) := by
  decide

/-- C7 (amended): once a tag has been registered by a `CreateGLTexture` that
returned `true`, `FindTextureSlot(tag)` returns the slot assigned at that
registration (the count before the call) after any further sequence of calls
that contains no `DestroyGLTextures` and no registration of the same tag
reaching the registration block: registrations of other tags, failed
registrations of any tag, and `DefineObjectMaterials` (the lookups themselves
are functions of the state and change nothing). -/
theorem FindTextureSlot_stable (s s1 s2 : SceneManager) (image : Option stbi_image)
    (textureID : Nat) (tag : String) (gl : List GLCall) (cs : List Call)
    (hcreate : s.CreateGLTexture image textureID tag = some (true, s1, gl))
    (hcs : ∀ c ∈ cs, c.keeps tag = true) (hrun : s1.run cs = some s2) :
    s2.FindTextureSlot tag = some (s.m_loadedTextures : Int) := by
  obtain ⟨-, hr⟩ := CreateGLTexture.true_iff s s1 image textureID tag gl hcreate
  obtain ⟨-, rfl⟩ := CreateGLTexture.register_eq s s1 textureID tag hr
  have h := run_keeps_slot cs tag _ s2 hcs hrun
  simp only [unordered_map.assign, if_pos] at h
  simp only [SceneManager.FindTextureSlot, h]

/-- Witness for C7 (amended): "teapot" registered in slot 1 of a registry
holding "table", followed by the registration of "cup", a failed load of
"teapot" and `DefineObjectMaterials`. -/
theorem FindTextureSlot_stable_witness :
    (oneTexture.CreateGLTexture (some ⟨32, 32, 4⟩) 9 "teapot").map (fun r => r.1) = some true ∧
      ((twoTextures.run
        [.CreateGLTexture (some ⟨64, 64, 3⟩) 11 "cup", .CreateGLTexture none 0 "teapot",
          .DefineObjectMaterials]).getD twoTextures).FindTextureSlot "teapot" = some 1 :=
  ⟨by decide,
    FindTextureSlot_stable oneTexture twoTextures _ (some ⟨32, 32, 4⟩) 9 "teapot" _
      [.CreateGLTexture (some ⟨64, 64, 3⟩) 11 "cup", .CreateGLTexture none 0 "teapot",
        .DefineObjectMaterials]
      rfl (by decide) rfl⟩

theorem step_count (s s1 : SceneManager) (c : Call) (hc : c ≠ .DestroyGLTextures)
    (h : s.step c = some s1) :
    s1.m_loadedTextures = s.m_loadedTextures + (if c.registers then 1 else 0) := by
  cases c with
  | CreateGLTexture image textureID t =>
    rcases step_CreateGLTexture s s1 image textureID t h with ⟨hreg, hr⟩ | ⟨hreg, rfl⟩
    · obtain ⟨-, rfl⟩ := CreateGLTexture.register_eq s s1 textureID t hr
      simp [hreg]
    · simp [hreg]
  | DestroyGLTextures => exact absurd rfl hc
  | DefineObjectMaterials =>
    simp only [step, Option.some.injEq] at h
    subst h
    simp [Call.registers, DefineObjectMaterials]

theorem run_count (cs : List Call) :
    ∀ (s s1 : SceneManager), (∀ c ∈ cs, c ≠ .DestroyGLTextures) → s.run cs = some s1 →
      s1.m_loadedTextures = s.m_loadedTextures + (cs.filter Call.registers).length := by
  induction cs with
  | nil =>
    intro s s1 _ h
    simp only [run, Option.some.injEq] at h
    subst h
    rfl
  | cons c cs ih =>
    intro s s1 hcs h
    simp only [run] at h
    cases hs : s.step c with
    | none => simp [hs] at h
    | some s2 =>
      rw [hs, Option.some_bind] at h
      rw [ih s2 s1 (fun c' hc' => hcs c' (List.mem_cons_of_mem _ hc')) h,
        step_count s s2 c (hcs c (List.mem_cons_self _ _)) hs]
      by_cases hreg : c.registers = true
      · simp [List.filter, hreg]; omega
      · simp [List.filter, hreg]

/-- C10: let a registry be reached from a state `s0` by calls without
`DestroyGLTextures`, and let a further `CreateGLTexture(file, tag)` return
`true`. The registry then held `n` entries, `n` being the count of `s0` plus
the number of earlier calls that reached the registration block (for a fresh
`s0`: the number of successful registrations that preceded; failed ones are
not counted); the call stores the new handle and tag in array position `n`,
makes `FindTextureSlot(tag)` return `n` and `FindTextureID(tag)` return the new
handle (converted to `int`, which is the handle itself below `2 ^ 31`), and
increases the count to `n + 1`. -/
theorem CreateGLTexture_success (s0 s s1 : SceneManager) (cs : List Call)
    (image : Option stbi_image) (textureID : Nat) (tag : String) (gl : List GLCall)
    (hcs : ∀ c ∈ cs, c ≠ Call.DestroyGLTextures) (hrun : s0.run cs = some s)
    (hcreate : s.CreateGLTexture image textureID tag = some (true, s1, gl)) :
    s.m_loadedTextures = s0.m_loadedTextures + (cs.filter Call.registers).length ∧
      s1.m_textureIDs[s.m_loadedTextures]? = some { tag := tag, ID := textureID } ∧
      s1.FindTextureSlot tag = some (s.m_loadedTextures : Int) ∧
      s1.FindTextureID tag = some (static_cast_int textureID) ∧
      (textureID < 2 ^ 31 → s1.FindTextureID tag = some (textureID : Int)) ∧
      s1.m_loadedTextures = s.m_loadedTextures + 1 := by
  obtain ⟨-, hr⟩ := CreateGLTexture.true_iff s s1 image textureID tag gl hcreate
  obtain ⟨hlt, rfl⟩ := CreateGLTexture.register_eq s s1 textureID tag hr
  have hid : SceneManager.FindTextureID
      { s with
        m_textureIDs := s.m_textureIDs.set s.m_loadedTextures { tag := tag, ID := textureID }
        m_textureIdLookup := s.m_textureIdLookup.assign tag textureID
        m_textureSlotLookup := s.m_textureSlotLookup.assign tag (s.m_loadedTextures : Int)
        m_loadedTextures := s.m_loadedTextures + 1 } tag = some (static_cast_int textureID) := by
    simp [SceneManager.FindTextureID, unordered_map.assign]
  refine ⟨run_count cs s0 s hcs hrun, ?_, ?_, hid, ?_, rfl⟩
  · simp only [List.getElem?_set_self hlt]
  · simp [SceneManager.FindTextureSlot, unordered_map.assign]
  · intro hsmall
    rw [hid]
    have hmod : textureID % 2 ^ 32 = textureID := Nat.mod_eq_of_lt (by omega)
    simp only [static_cast_int, hmod, if_pos hsmall]

/-- Witness for C10: "teapot" (handle 9) registered after "table" and a failed load. -/
theorem CreateGLTexture_success_witness :
    oneTexture.m_loadedTextures = 1 ∧
      twoTextures.m_textureIDs[1]? = some { tag := "teapot", ID := 9 } ∧
      twoTextures.FindTextureSlot "teapot" = some 1 ∧
      twoTextures.FindTextureID "teapot" = some 9 ∧
      twoTextures.m_loadedTextures = 2 :=
  have h := CreateGLTexture_success (new true) oneTexture twoTextures
    [.CreateGLTexture (some ⟨64, 64, 3⟩) 7 "table", .CreateGLTexture none 0 "missing"]
    (some ⟨32, 32, 4⟩) 9 "teapot" _ (by decide) rfl rfl
  ⟨h.1, h.2.1, h.2.2.1, h.2.2.2.2.1 (by decide), h.2.2.2.2.2⟩

end SceneManager

/-! ### Helper lemmas: material lookup -/

namespace SceneManager

theorem FindMaterial_scan_eq (tag : String) (material : OBJECT_MATERIAL) :
    ∀ materials : List OBJECT_MATERIAL,
      FindMaterial.scan tag material materials =
        match materials.find? (fun m => m.tag = tag) with
        | some m => (true, m)
        | none => (false, material) := by
  intro materials
  induction materials with
  | nil => rfl
  | cons a l ih =>
    by_cases ha : a.tag = tag
    · simp [FindMaterial.scan, List.find?, ha]
    · simp [FindMaterial.scan, List.find?, ha, ih]

theorem Original_FindMaterial_scan_eq (tag : String) (material : OBJECT_MATERIAL) :
    ∀ materials : List OBJECT_MATERIAL,
      Original.FindMaterial.scan tag material materials =
        match materials.find? (fun m => m.tag = tag) with
        | some m =>
          { material with
            diffuseColor := m.diffuseColor
            specularColor := m.specularColor
            shininess := m.shininess }
        | none => material := by
  intro materials
  induction materials with
  | nil => rfl
  | cons a l ih =>
    by_cases ha : a.tag = tag
    · simp [Original.FindMaterial.scan, List.find?, ha]
    · simp [Original.FindMaterial.scan, List.find?, ha, ih]

theorem DefineObjectMaterials.foldl_assign (tag : String) :
    ∀ (materials : List OBJECT_MATERIAL) (m0 : unordered_map OBJECT_MATERIAL),
      TagDeterminesRecord materials →
      (materials.foldl (fun m mat => m.assign mat.tag mat) m0) tag =
        match materials.find? (fun m => m.tag = tag) with
        | some x => some x
        | none => m0 tag := by
  intro materials
  induction materials with
  | nil => intro m0 _; rfl
  | cons a l ih =>
    intro m0 hdet
    have hdet' : TagDeterminesRecord l := fun x hx y hy =>
      hdet x (List.mem_cons_of_mem _ hx) y (List.mem_cons_of_mem _ hy)
    rw [List.foldl_cons, ih _ hdet']
    by_cases ha : a.tag = tag
    · cases hf : l.find? (fun m => m.tag = tag) with
      | none => simp [List.find?, ha, unordered_map.assign]
      | some x =>
        have hx : x ∈ l := List.mem_of_find?_eq_some hf
        have hxt : x.tag = tag := by simpa using List.find?_some hf
        have : a = x :=
          hdet a (List.mem_cons_self _ _) x (List.mem_cons_of_mem _ hx) (ha.trans hxt.symm)
        subst this
        simp [List.find?, ha]
    · have ha' : ¬ tag = a.tag := fun h => ha h.symm
      simp [List.find?, ha, unordered_map.assign, ha']

theorem DefineObjectMaterials.buildLookup_eq (materials : List OBJECT_MATERIAL)
    (hdet : TagDeterminesRecord materials) (tag : String) :
    DefineObjectMaterials.buildLookup materials tag = materials.find? (fun m => m.tag = tag) := by
  rw [DefineObjectMaterials.buildLookup, DefineObjectMaterials.foldl_assign tag _ _ hdet]
  cases materials.find? (fun m => m.tag = tag) <;> rfl

theorem tagDeterminesRecord_of_subset (materials : List OBJECT_MATERIAL)
    (h : ∀ m ∈ materials, m ∈ DefineObjectMaterials.materials) :
    TagDeterminesRecord materials := by
  have hnd : (DefineObjectMaterials.materials.map fun m => m.tag).Nodup := by decide
  intro a ha b hb hab
  exact List.inj_on_of_nodup_map hnd (h a ha) (h b hb) hab

theorem iterate_DefineObjectMaterials (p : Bool) (n : Nat) :
    (DefineObjectMaterials^[n] (new p)).m_materialLookup =
        DefineObjectMaterials.buildLookup (DefineObjectMaterials^[n] (new p)).m_objectMaterials ∧
      (∀ m ∈ (DefineObjectMaterials^[n] (new p)).m_objectMaterials,
        m ∈ DefineObjectMaterials.materials) ∧
      (DefineObjectMaterials^[n] (new p)).m_objectMaterials.length = 12 * n := by
  induction n with
  | zero => exact ⟨rfl, by simp [new], rfl⟩
  | succ n ih =>
    rw [Function.iterate_succ_apply']
    obtain ⟨-, hsub, hlen⟩ := ih
    refine ⟨rfl, ?_, ?_⟩
    · intro m hm
      simp only [DefineObjectMaterials, List.mem_append] at hm
      rcases hm with hm | hm
      · exact hsub m hm
      · exact hm
    · simp only [DefineObjectMaterials, List.length_append, hlen]
      simp [DefineObjectMaterials.materials]
      omega

end SceneManager

/-! ### Material registry -/

namespace SceneManager

theorem FindMaterial_eq_scan (s : SceneManager)
    (hbuild : s.m_materialLookup = DefineObjectMaterials.buildLookup s.m_objectMaterials)
    (hdet : TagDeterminesRecord s.m_objectMaterials) (tag : String)
    (material : OBJECT_MATERIAL) :
    FindMaterial.scan tag material s.m_objectMaterials =
        (match s.m_materialLookup tag with
        | some m => (true, m)
        | none => (false, material)) ∧
      s.FindMaterial tag material = FindMaterial.scan tag material s.m_objectMaterials := by
  have hlook : s.m_materialLookup tag = s.m_objectMaterials.find? (fun m => m.tag = tag) := by
    rw [hbuild, DefineObjectMaterials.buildLookup_eq _ hdet]
  have hscan := FindMaterial_scan_eq tag material s.m_objectMaterials
  refine ⟨by rw [hscan, hlook], ?_⟩
  unfold SceneManager.FindMaterial
  rw [hlook]
  cases hf : s.m_objectMaterials.find? (fun m => m.tag = tag) with
  | some m => simp [hscan, hf]
  | none =>
    by_cases he : s.m_objectMaterials.isEmpty = true
    · have : s.m_objectMaterials = [] := List.isEmpty_iff.mp he
      simp [this, FindMaterial.scan]
    · simp [he]

/-- C5: in the state reached from a fresh `SceneManager` by any number `n` of
`DefineObjectMaterials` calls (zero included), for every tag the linear scan
over `m_objectMaterials` gives what the hash-map path gives (found with the
very record of the map entry, or not found with the output record untouched),
and `FindMaterial` returns exactly the result of the linear scan. -/
theorem FindMaterial_paths_agree (p : Bool) (n : Nat) (tag : String)
    (material : OBJECT_MATERIAL) :
    FindMaterial.scan tag material (DefineObjectMaterials^[n] (new p)).m_objectMaterials =
        (match (DefineObjectMaterials^[n] (new p)).m_materialLookup tag with
        | some m => (true, m)
        | none => (false, material)) ∧
      (DefineObjectMaterials^[n] (new p)).FindMaterial tag material =
        FindMaterial.scan tag material (DefineObjectMaterials^[n] (new p)).m_objectMaterials := by
  obtain ⟨hbuild, hsub, -⟩ := iterate_DefineObjectMaterials p n
  exact FindMaterial_eq_scan _ hbuild (tagDeterminesRecord_of_subset _ hsub) tag material

/-- C6 (counterexample): after `DefineObjectMaterials` the tag "chrome" is not
defined; the enhanced `FindMaterial` returns `false`, the original returns
`true`. And on a list holding two different records under one tag the two
leave different shininess values in the output record. -/
theorem FindMaterial_original_differs :
    ((new true).DefineObjectMaterials.FindMaterial "chrome" blankMaterial).1 = false ∧
      (Original.FindMaterial (new true).DefineObjectMaterials "chrome" blankMaterial).1 = true ∧
      ((withMaterials conflictingMaterials).FindMaterial "x" blankMaterial).2.shininess = 2 ∧
      (Original.FindMaterial (withMaterials conflictingMaterials) "x" blankMaterial).2.shininess
        = 1 := by
  refine ⟨by decide, by decide, rfl, rfl⟩

/-- C6 (amended): for every material list in which records with equal tags are
equal (every list `DefineObjectMaterials` can build), with the lookup map built
from it, and for every tag, the enhanced and the original `FindMaterial` leave
the same diffuse colour, specular colour and shininess in the output record;
the original returns `true` exactly when the list is not empty, the enhanced
exactly when the tag is defined; so the Boolean results are equal exactly when
the list is empty or the tag is defined. -/
theorem FindMaterial_enhanced_original (s : SceneManager)
    (hbuild : s.m_materialLookup = DefineObjectMaterials.buildLookup s.m_objectMaterials)
    (hdet : TagDeterminesRecord s.m_objectMaterials) (tag : String)
    (material : OBJECT_MATERIAL) :
    (s.FindMaterial tag material).2.diffuseColor =
        (Original.FindMaterial s tag material).2.diffuseColor ∧
      (s.FindMaterial tag material).2.specularColor =
        (Original.FindMaterial s tag material).2.specularColor ∧
      (s.FindMaterial tag material).2.shininess =
        (Original.FindMaterial s tag material).2.shininess ∧
      ((Original.FindMaterial s tag material).1 = true ↔ s.m_objectMaterials ≠ []) ∧
      ((s.FindMaterial tag material).1 = true ↔
        tag ∈ s.m_objectMaterials.map fun m => m.tag) ∧
      ((s.FindMaterial tag material).1 = (Original.FindMaterial s tag material).1 ↔
        (s.m_objectMaterials = [] ∨ tag ∈ s.m_objectMaterials.map fun m => m.tag)) := by
  obtain ⟨-, henh⟩ := FindMaterial_eq_scan s hbuild hdet tag material
  rw [henh, FindMaterial_scan_eq]
  unfold Original.FindMaterial
  rw [Original_FindMaterial_scan_eq]
  cases hl : s.m_objectMaterials with
  | nil => simp
  | cons a l =>
    rw [← hl]
    have hne : s.m_objectMaterials.length ≠ 0 := by simp [hl]
    have hne' : s.m_objectMaterials ≠ [] := by simp [hl]
    cases hf : s.m_objectMaterials.find? (fun m => m.tag = tag) with
    | some m =>
      have hm : m ∈ s.m_objectMaterials := List.mem_of_find?_eq_some hf
      have hmt : m.tag = tag := by simpa using List.find?_some hf
      have hmem : tag ∈ s.m_objectMaterials.map fun m => m.tag :=
        List.mem_map.mpr ⟨m, hm, hmt⟩
      simp [hne, hne', hmem]
    | none =>
      have hnot : tag ∉ s.m_objectMaterials.map fun m => m.tag := by
        intro hmem
        obtain ⟨m, hm, hmt⟩ := List.mem_map.mp hmem
        have := List.find?_eq_none.mp hf m hm
        simp [hmt] at this
      simp [hne, hne', hnot]

/-- Witness for C6 (amended): the state after one `DefineObjectMaterials`,
queried for "glass". -/
theorem FindMaterial_enhanced_original_witness :
    ((new true).DefineObjectMaterials.FindMaterial "glass" blankMaterial).2.shininess =
        (Original.FindMaterial (new true).DefineObjectMaterials "glass" blankMaterial).2.shininess ∧
      ((new true).DefineObjectMaterials.FindMaterial "glass" blankMaterial).1 =
        (Original.FindMaterial (new true).DefineObjectMaterials "glass" blankMaterial).1 :=
  have h := FindMaterial_enhanced_original (new true).DefineObjectMaterials rfl
    (tagDeterminesRecord_of_subset _ (fun _ hm => hm)) "glass" blankMaterial
  ⟨h.2.2.1, h.2.2.2.2.2.mpr (Or.inr (by decide))⟩

end SceneManager

/-! ### Array bounds in reachable states -/

namespace SceneManager

theorem step_wellFormed (s s1 : SceneManager) (c : Call) (hwf : s.WellFormed)
    (h : s.step c = some s1) : s1.WellFormed := by
  obtain ⟨hlen, hle⟩ := hwf
  cases c with
  | CreateGLTexture image textureID tag =>
    rcases step_CreateGLTexture s s1 image textureID tag h with ⟨-, hr⟩ | ⟨-, rfl⟩
    · obtain ⟨hlt, rfl⟩ := CreateGLTexture.register_eq s s1 textureID tag hr
      exact ⟨by simp only [List.length_set]; exact hlen, by simp only; omega⟩
    · exact ⟨hlen, hle⟩
  | DestroyGLTextures =>
    obtain ⟨ids1, hfold, hlen1, -, -⟩ :=
      DestroyGLTextures.loop_eq s.m_textureIDs [] s.m_loadedTextures (by omega)
    simp only [step, SceneManager.DestroyGLTextures, hfold, Option.map_some',
      Option.some.injEq] at h
    subst h
    exact ⟨by simp only; omega, by simp only; omega⟩
  | DefineObjectMaterials =>
    simp only [step, Option.some.injEq] at h
    subst h
    exact ⟨hlen, hle⟩

/-- Every state reached from a state within its array bounds, such as a fresh
`SceneManager`, is within its array bounds. -/
theorem run_wellFormed (cs : List Call) :
    ∀ (s s1 : SceneManager), s.WellFormed → s.run cs = some s1 → s1.WellFormed := by
  induction cs with
  | nil =>
    intro s s1 hwf h
    simp only [run, Option.some.injEq] at h
    subst h
    exact hwf
  | cons c cs ih =>
    intro s s1 hwf h
    simp only [run] at h
    cases hs : s.step c with
    | none => simp [hs] at h
    | some s2 =>
      rw [hs, Option.some_bind] at h
      exact ih s2 s1 (step_wellFormed s s2 c hwf hs) h

theorem new_wellFormed (p : Bool) : (new p).WellFormed := by
  simp [WellFormed, new]

end SceneManager

/-! ### Texture registry: failed registrations -/

namespace SceneManager

/-- C11: whenever the image loader fails (`image = none`) or reports a channel
count other than 3 and 4, `CreateGLTexture` returns `false` and the state after
the call is the state before it: the count, every array entry and both lookup
maps are unchanged. -/
theorem CreateGLTexture_failure (s : SceneManager) (image : Option stbi_image)
    (textureID : Nat) (tag : String)
    (h : image = none ∨
      ∃ img, image = some img ∧ img.colorChannels ≠ 3 ∧ img.colorChannels ≠ 4) :
    ∃ gl, s.CreateGLTexture image textureID tag = some (false, s, gl) := by
  rcases h with rfl | ⟨img, rfl, h3, h4⟩
  · exact ⟨[], rfl⟩
  · exact ⟨CreateGLTexture.setup textureID ++ [.glBindTexture 0],
      by simp only [SceneManager.CreateGLTexture, if_neg h3, if_neg h4]⟩

/-- Witness for C11: a one-channel image offered to the registry holding
"table" and "teapot". -/
theorem CreateGLTexture_failure_witness :
    ∃ gl, twoTextures.CreateGLTexture (some ⟨64, 64, 1⟩) 5 "gray" =
      some (false, twoTextures, gl) :=
  CreateGLTexture_failure twoTextures (some ⟨64, 64, 1⟩) 5 "gray"
    (Or.inr ⟨⟨64, 64, 1⟩, rfl, by decide, by decide⟩)

/-! ### Material registry: the defined materials -/

/-- C13: after `DefineObjectMaterials` on a fresh `SceneManager`, `FindMaterial`
on the tag of each of the twelve records it defines returns `true` with that
very record, whatever the output record held before; in particular
`FindMaterial("glass")` yields shininess 128.0 and specular colour (1,1,1). -/
theorem DefineObjectMaterials_lookup (p : Bool) (material : OBJECT_MATERIAL) :
    DefineObjectMaterials.materials.map
        (fun m => (new p).DefineObjectMaterials.FindMaterial m.tag material) =
      DefineObjectMaterials.materials.map (fun m => (true, m)) ∧
    ((new p).DefineObjectMaterials.FindMaterial "glass" material).1 = true ∧
    ((new p).DefineObjectMaterials.FindMaterial "glass" material).2.shininess = 128.0 ∧
    ((new p).DefineObjectMaterials.FindMaterial "glass" material).2.specularColor =
      ⟨1.0, 1.0, 1.0⟩ ∧
    ((new p).DefineObjectMaterials.FindMaterial "glass" material).2.diffuseColor =
      ⟨0.2, 0.2, 0.3⟩ :=
  ⟨rfl, rfl, rfl, rfl, rfl⟩

/-! ### Scene renderer -/

/-- C19: with a mesh collaborator present, `RenderScene` makes the calls of
the routines table, backdrop, percolator, coffee cup, books, tray, flower pot
in this order, and these contain 1, 1, 5, 3, 6, 5 and 3 primitive draw calls
(every `RenderBookSection` one, six of them for the three books), 24 in total. -/
theorem RenderScene_draws (s : SceneManager) (h : s.m_basicMeshes = true) :
    ∃ table backdrop percolator cup book tray pot,
      s.RenderTable = some table ∧ s.RenderBackdrop = some backdrop ∧
      s.RenderPercolator = some percolator ∧ s.RenderCoffeeCup = some cup ∧
      s.RenderBook = some book ∧ s.RenderTray = some tray ∧ s.RenderFlowerPot = some pot ∧
      s.RenderScene = some (table ++ backdrop ++ percolator ++ cup ++ book ++ tray ++ pot) ∧
      SceneCall.draws table = 1 ∧ SceneCall.draws backdrop = 1 ∧
      SceneCall.draws percolator = 5 ∧ SceneCall.draws cup = 3 ∧ SceneCall.draws book = 6 ∧
      SceneCall.draws tray = 5 ∧ SceneCall.draws pot = 3 ∧
      SceneCall.draws (table ++ backdrop ++ percolator ++ cup ++ book ++ tray ++ pot) = 24 ∧
      (∀ scaleXYZ positionXYZ materialTag textureTag,
        SceneCall.draws (RenderBookSection.calls scaleXYZ positionXYZ materialTag textureTag)
          = 1) := by
  refine ⟨RenderTable.calls, RenderBackdrop.calls, RenderPercolator.calls,
    RenderCoffeeCup.calls, RenderBook.calls, RenderTray.calls, RenderFlowerPot.calls,
    ?_, ?_, ?_, ?_, ?_, ?_, ?_, ?_, by decide, by decide, by decide, by decide, by decide,
    by decide, by decide, by decide, fun _ _ _ _ => rfl⟩
  all_goals
    simp [RenderScene, RenderTable, RenderBackdrop, RenderPercolator, RenderCoffeeCup,
      RenderBook, RenderTray, RenderFlowerPot, objectRoutine, h]

/-- Witness for C19: a freshly constructed `SceneManager`, whose constructor
creates the mesh collaborator. -/
theorem RenderScene_draws_witness :
    (new true).m_basicMeshes = true ∧
      ((new true).RenderScene.map SceneCall.draws) = some 24 :=
  ⟨rfl, by
    obtain ⟨_, _, _, _, _, _, _, -, -, -, -, -, -, -, h, -, -, -, -, -, -, -, h24, -⟩ :=
      RenderScene_draws (new true) rfl
    rw [h, Option.map_some', h24]⟩

end SceneManager

/-! ### Scene renderer: the shape of a sub-part -/

namespace SceneManager

theorem RenderScene_eq (s : SceneManager) (h : s.m_basicMeshes = true) :
    s.RenderScene = some (RenderTable.calls ++ RenderBackdrop.calls ++ RenderPercolator.calls ++
      RenderCoffeeCup.calls ++ RenderBook.calls ++ RenderTray.calls ++ RenderFlowerPot.calls) := by
  simp [RenderScene, RenderTable, RenderBackdrop, RenderPercolator, RenderCoffeeCup,
    RenderBook, RenderTray, RenderFlowerPot, objectRoutine, h]

/-- C20 (counterexample): in the call trace of `RenderScene` on a freshly
constructed `SceneManager` not every draw call is preceded by a
`SetShaderMaterial` since the previous draw call: the calls between the 17th
and the 18th draw call are a single `SetTransformations` (the front edge of
the tray), and so it is for `RenderTray` alone after its first draw call. -/
theorem RenderScene_tray_edges :
    (new true).RenderScene.map
        (fun calls => (SceneCall.segments calls []).all SceneCall.specShape) = some false ∧
      (new true).RenderScene.map
        (fun calls => ((SceneCall.segments calls []).map fun seg => seg.map SceneCall.kind)[17]?)
        = some (some [.transform, .draw]) ∧
      (new true).RenderTray.map
        (fun calls => (SceneCall.segments calls []).map fun seg => seg.map SceneCall.kind) =
        some [ [.transform, .material, .texture, .uvScale, .draw], [.transform, .draw],
          [.transform, .draw], [.transform, .draw], [.transform, .draw] ] := by
  decide

/-- C20 (amended): with a mesh collaborator present, the call trace of
`RenderScene` consists of 24 segments, each ending with its draw call and
holding the calls since the previous draw call. Every segment starts with its
one `SetTransformations` call. In 20 of them one `SetShaderMaterial` call
follows, then optionally `SetShaderTexture`, then optionally
`SetTextureUVScale`, then the draw call; the other four, the 18th to the 21st
(the edges of the tray), are `SetTransformations` followed by the draw call. -/
theorem RenderScene_segments (s : SceneManager) (h : s.m_basicMeshes = true) :
    ∃ calls, s.RenderScene = some calls ∧
      (SceneCall.segments calls []).length = 24 ∧
      (∀ seg ∈ SceneCall.segments calls [],
        SceneCall.specShape seg = true ∨ seg.map SceneCall.kind = [.transform, .draw]) ∧
      (SceneCall.segments calls []).map SceneCall.specShape =
        List.replicate 17 true ++ List.replicate 4 false ++ List.replicate 3 true := by
  refine ⟨_, RenderScene_eq s h, by decide, by decide, by decide⟩

/-- Witness for C20 (amended): a freshly constructed `SceneManager`. -/
theorem RenderScene_segments_witness :
    ∃ calls, (new true).RenderScene = some calls ∧
      (SceneCall.segments calls []).length = 24 ∧
      (∀ seg ∈ SceneCall.segments calls [],
        SceneCall.specShape seg = true ∨ seg.map SceneCall.kind = [.transform, .draw]) ∧
      (SceneCall.segments calls []).map SceneCall.specShape =
        List.replicate 17 true ++ List.replicate 4 false ++ List.replicate 3 true :=
  RenderScene_segments (new true) rfl

end SceneManager

/-! ### Helper lemmas: what the calls leave alone -/

namespace SceneManager

theorem step_DestroyGLTextures (s s1 : SceneManager)
    (h : s.step .DestroyGLTextures = some s1) :
    ∃ ids1, s1 = { s with m_textureIDs := ids1, m_loadedTextures := 0 } := by
  simp only [step, SceneManager.DestroyGLTextures, Option.map_map, Option.map_eq_some'] at h
  obtain ⟨r, -, hr⟩ := h
  exact ⟨r.1, hr.symm⟩

theorem step_frame (s s1 : SceneManager) (c : Call) (h : s.step c = some s1) :
    s1.m_pShaderManager = s.m_pShaderManager ∧ s1.m_basicMeshes = s.m_basicMeshes := by
  cases c with
  | CreateGLTexture image textureID tag =>
    rcases step_CreateGLTexture s s1 image textureID tag h with ⟨-, hr⟩ | ⟨-, rfl⟩
    · obtain ⟨-, rfl⟩ := CreateGLTexture.register_eq s s1 textureID tag hr
      exact ⟨rfl, rfl⟩
    · exact ⟨rfl, rfl⟩
  | DestroyGLTextures =>
    obtain ⟨ids1, rfl⟩ := step_DestroyGLTextures s s1 h
    exact ⟨rfl, rfl⟩
  | DefineObjectMaterials =>
    simp only [step, Option.some.injEq] at h
    subst h
    exact ⟨rfl, rfl⟩

theorem run_frame (cs : List Call) :
    ∀ (s s1 : SceneManager), s.run cs = some s1 →
      s1.m_pShaderManager = s.m_pShaderManager ∧ s1.m_basicMeshes = s.m_basicMeshes := by
  induction cs with
  | nil =>
    intro s s1 h
    simp only [run, Option.some.injEq] at h
    subst h
    exact ⟨rfl, rfl⟩
  | cons c cs ih =>
    intro s s1 h
    simp only [run] at h
    cases hs : s.step c with
    | none => simp [hs] at h
    | some s2 =>
      rw [hs, Option.some_bind] at h
      obtain ⟨h1, h2⟩ := ih s2 s1 h
      obtain ⟨h3, h4⟩ := step_frame s s2 c hs
      exact ⟨h1.trans h3, h2.trans h4⟩

/-- The material list holds records of `DefineObjectMaterials` only, and the
lookup map is the one built from the list. -/
theorem step_materials (s s1 : SceneManager) (c : Call) (h : s.step c = some s1)
    (hM : s.m_materialLookup = DefineObjectMaterials.buildLookup s.m_objectMaterials ∧
      ∀ m ∈ s.m_objectMaterials, m ∈ DefineObjectMaterials.materials) :
    s1.m_materialLookup = DefineObjectMaterials.buildLookup s1.m_objectMaterials ∧
      ∀ m ∈ s1.m_objectMaterials, m ∈ DefineObjectMaterials.materials := by
  cases c with
  | CreateGLTexture image textureID tag =>
    rcases step_CreateGLTexture s s1 image textureID tag h with ⟨-, hr⟩ | ⟨-, rfl⟩
    · obtain ⟨-, rfl⟩ := CreateGLTexture.register_eq s s1 textureID tag hr
      exact hM
    · exact hM
  | DestroyGLTextures =>
    obtain ⟨ids1, rfl⟩ := step_DestroyGLTextures s s1 h
    exact hM
  | DefineObjectMaterials =>
    simp only [step, Option.some.injEq] at h
    subst h
    refine ⟨rfl, ?_⟩
    intro m hm
    simp only [DefineObjectMaterials, List.mem_append] at hm
    rcases hm with hm | hm
    · exact hM.2 m hm
    · exact hm

theorem run_materials (cs : List Call) :
    ∀ (s s1 : SceneManager), s.run cs = some s1 →
      (s.m_materialLookup = DefineObjectMaterials.buildLookup s.m_objectMaterials ∧
        ∀ m ∈ s.m_objectMaterials, m ∈ DefineObjectMaterials.materials) →
      s1.m_materialLookup = DefineObjectMaterials.buildLookup s1.m_objectMaterials ∧
        ∀ m ∈ s1.m_objectMaterials, m ∈ DefineObjectMaterials.materials := by
  induction cs with
  | nil =>
    intro s s1 h hM
    simp only [run, Option.some.injEq] at h
    subst h
    exact hM
  | cons c cs ih =>
    intro s s1 h hM
    simp only [run] at h
    cases hs : s.step c with
    | none => simp [hs] at h
    | some s2 =>
      rw [hs, Option.some_bind] at h
      exact ih s2 s1 h (step_materials s s2 c hs hM)

theorem new_materials (p : Bool) :
    (new p).m_materialLookup = DefineObjectMaterials.buildLookup (new p).m_objectMaterials ∧
      ∀ m ∈ (new p).m_objectMaterials, m ∈ DefineObjectMaterials.materials :=
  ⟨rfl, by simp [new]⟩

theorem FindMaterial_miss (s : SceneManager)
    (hM : s.m_materialLookup = DefineObjectMaterials.buildLookup s.m_objectMaterials ∧
      ∀ m ∈ s.m_objectMaterials, m ∈ DefineObjectMaterials.materials)
    (tag : String) (material : OBJECT_MATERIAL)
    (hnot : tag ∉ s.m_objectMaterials.map fun m => m.tag) :
    s.FindMaterial tag material = (false, material) := by
  obtain ⟨-, h⟩ :=
    FindMaterial_eq_scan s hM.1 (tagDeterminesRecord_of_subset _ hM.2) tag material
  rw [h, FindMaterial_scan_eq]
  have hf : s.m_objectMaterials.find? (fun m => m.tag = tag) = none := by
    rw [List.find?_eq_none]
    intro m hm hmt
    exact hnot (List.mem_map.mpr ⟨m, hm, by simpa using hmt⟩)
  rw [hf]

/-! ### Helper lemmas: tags that were never registered -/

theorem firstSlot_of_not_mem (tag : String) :
    ∀ (l : List TEXTURE_INFO) (index : Nat), (∀ x ∈ l, x.tag ≠ tag) →
      firstSlot tag l index = -1 := by
  intro l
  induction l with
  | nil => intro _ _; rfl
  | cons a l ih =>
    intro index hl
    rw [firstSlot, if_neg (hl a (List.mem_cons_self _ _))]
    exact ih (index + 1) (fun x hx => hl x (List.mem_cons_of_mem _ hx))

theorem firstID_of_not_mem (tag : String) :
    ∀ (l : List TEXTURE_INFO), (∀ x ∈ l, x.tag ≠ tag) → firstID tag l = -1 := by
  intro l
  induction l with
  | nil => intro _; rfl
  | cons a l ih =>
    intro hl
    rw [firstID, if_neg (hl a (List.mem_cons_self _ _))]
    exact ih (fun x hx => hl x (List.mem_cons_of_mem _ hx))

/-- The tag has no entry in the lookup maps and none among the registered
entries, and the count is within the array. -/
theorem step_unregistered (s s1 : SceneManager) (c : Call) (tag : String)
    (hc : c.registersTag tag = false) (h : s.step c = some s1)
    (hU : s.m_loadedTextures ≤ s.m_textureIDs.length ∧ s.m_textureSlotLookup tag = none ∧
      s.m_textureIdLookup tag = none ∧ ∀ e ∈ s.registered, e.tag ≠ tag) :
    s1.m_loadedTextures ≤ s1.m_textureIDs.length ∧ s1.m_textureSlotLookup tag = none ∧
      s1.m_textureIdLookup tag = none ∧ ∀ e ∈ s1.registered, e.tag ≠ tag := by
  obtain ⟨hle, hslot, hid, hreg⟩ := hU
  cases c with
  | CreateGLTexture image textureID t =>
    rcases step_CreateGLTexture s s1 image textureID t h with ⟨hr1, hr⟩ | ⟨-, rfl⟩
    · obtain ⟨hlt, rfl⟩ := CreateGLTexture.register_eq s s1 textureID t hr
      have ht : ¬ tag = t := by
        intro htt
        simp [Call.registersTag, hr1, htt] at hc
      refine ⟨by simp only [List.length_set]; omega, ?_, ?_, ?_⟩
      · simp only [unordered_map.assign, if_neg ht, hslot]
      · simp only [unordered_map.assign, if_neg ht, hid]
      · intro e he
        simp only [registered] at he
        rw [registered_register s textureID t hlt, List.mem_append] at he
        rcases he with he | he
        · exact hreg e he
        · simp only [List.mem_singleton] at he
          subst he
          exact fun h' => ht h'.symm
    · exact ⟨hle, hslot, hid, hreg⟩
  | DestroyGLTextures =>
    obtain ⟨ids1, rfl⟩ := step_DestroyGLTextures s s1 h
    exact ⟨Nat.zero_le _, hslot, hid, by simp [registered]⟩
  | DefineObjectMaterials =>
    simp only [step, Option.some.injEq] at h
    subst h
    exact ⟨hle, hslot, hid, hreg⟩

theorem run_unregistered (cs : List Call) (tag : String) :
    ∀ (s s1 : SceneManager), (∀ c ∈ cs, c.registersTag tag = false) → s.run cs = some s1 →
      (s.m_loadedTextures ≤ s.m_textureIDs.length ∧ s.m_textureSlotLookup tag = none ∧
        s.m_textureIdLookup tag = none ∧ ∀ e ∈ s.registered, e.tag ≠ tag) →
      s1.m_loadedTextures ≤ s1.m_textureIDs.length ∧ s1.m_textureSlotLookup tag = none ∧
        s1.m_textureIdLookup tag = none ∧ ∀ e ∈ s1.registered, e.tag ≠ tag := by
  induction cs with
  | nil =>
    intro s s1 _ h hU
    simp only [run, Option.some.injEq] at h
    subst h
    exact hU
  | cons c cs ih =>
    intro s s1 hcs h hU
    simp only [run] at h
    cases hs : s.step c with
    | none => simp [hs] at h
    | some s2 =>
      rw [hs, Option.some_bind] at h
      exact ih s2 s1 (fun c' hc' => hcs c' (List.mem_cons_of_mem _ hc')) h
        (step_unregistered s s2 c tag (hcs c (List.mem_cons_self _ _)) hs hU)

theorem lookups_unregistered (p : Bool) (cs : List Call) (s : SceneManager) (tag : String)
    (hrun : (new p).run cs = some s) (hnever : ∀ c ∈ cs, c.registersTag tag = false) :
    s.FindTextureSlot tag = some (-1) ∧ s.FindTextureID tag = some (-1) := by
  obtain ⟨hle, hslot, hid, hreg⟩ := run_unregistered cs tag (new p) s hnever hrun
    ⟨by simp [new], rfl, rfl, by simp [registered, new]⟩
  constructor
  · simp only [SceneManager.FindTextureSlot, hslot]
    have := Original.FindTextureSlot_eq s hle tag
    rw [Original.FindTextureSlot, firstSlot_of_not_mem tag _ _ hreg] at this
    exact this
  · simp only [SceneManager.FindTextureID, hid]
    have := Original.FindTextureID_eq s hle tag
    rw [Original.FindTextureID, firstID_of_not_mem tag _ hreg] at this
    exact this

theorem FindTextureSlot_total (s : SceneManager)
    (hle : s.m_loadedTextures ≤ s.m_textureIDs.length) (tag : String) :
    ∃ slot, s.FindTextureSlot tag = some slot := by
  unfold SceneManager.FindTextureSlot
  cases s.m_textureSlotLookup tag with
  | some k => exact ⟨k, rfl⟩
  | none => exact ⟨_, Original.FindTextureSlot_eq s hle tag⟩

end SceneManager

/-! ### Lookup misses -/

namespace SceneManager

/-- C14: in every state reached from a fresh `SceneManager`, for a tag that no
`CreateGLTexture` call has registered, `FindTextureSlot` and `FindTextureID`
return -1 (they return, they do not fault); and for a tag that is not the tag
of a defined material, in particular for every tag when no material has been
defined, `FindMaterial` returns `false` and leaves the output record as it was. -/
theorem lookup_miss (p : Bool) (cs : List Call) (s : SceneManager) (tag : String)
    (material : OBJECT_MATERIAL) (hrun : (new p).run cs = some s)
    (hnever : ∀ c ∈ cs, c.registersTag tag = false) :
    s.FindTextureSlot tag = some (-1) ∧ s.FindTextureID tag = some (-1) ∧
      ((tag ∉ s.m_objectMaterials.map fun m => m.tag) →
        s.FindMaterial tag material = (false, material)) ∧
      (s.m_objectMaterials = [] → s.FindMaterial tag material = (false, material)) := by
  obtain ⟨h1, h2⟩ := lookups_unregistered p cs s tag hrun hnever
  have hM := run_materials cs (new p) s hrun (new_materials p)
  refine ⟨h1, h2, FindMaterial_miss s hM tag material, ?_⟩
  intro hnil
  exact FindMaterial_miss s hM tag material (by simp [hnil])

/-- Witness for C14: the registry holding "table" and "teapot", asked for
"missing", whose load failed, with no material defined. -/
theorem lookup_miss_witness :
    twoTextures.FindTextureSlot "missing" = some (-1) ∧
      twoTextures.FindTextureID "missing" = some (-1) ∧
      twoTextures.FindMaterial "missing" blankMaterial = (false, blankMaterial) :=
  have h := lookup_miss true
    [ .CreateGLTexture (some ⟨64, 64, 3⟩) 7 "table", .CreateGLTexture none 0 "missing",
      .CreateGLTexture (some ⟨32, 32, 4⟩) 9 "teapot" ]
    twoTextures "missing" blankMaterial rfl (by decide)
  ⟨h.1, h.2.1, h.2.2.2 rfl⟩

/-! ### Shader state setters -/

theorem FindMaterial_scan_found (tag : String) (material material1 m : OBJECT_MATERIAL) :
    ∀ l : List OBJECT_MATERIAL, FindMaterial.scan tag material l = (true, m) →
      FindMaterial.scan tag material1 l = (true, m) := by
  intro l
  induction l with
  | nil => intro h; simp [FindMaterial.scan] at h
  | cons a l ih =>
    intro h
    by_cases ha : a.tag = tag
    · simp only [FindMaterial.scan, if_pos ha] at h ⊢
      exact h
    · simp only [FindMaterial.scan, if_neg ha] at h ⊢
      exact ih h

/-- A successful `FindMaterial` does not depend on what the output record held,
and it happens on a non-empty list only. -/
theorem FindMaterial_found (s : SceneManager)
    (hbuild : s.m_materialLookup = DefineObjectMaterials.buildLookup s.m_objectMaterials)
    (tag : String) (material material1 m : OBJECT_MATERIAL)
    (h : s.FindMaterial tag material = (true, m)) :
    s.FindMaterial tag material1 = (true, m) ∧ s.m_objectMaterials.isEmpty = false := by
  unfold SceneManager.FindMaterial at h ⊢
  cases hl : s.m_materialLookup tag with
  | some m1 =>
    rw [hl] at h
    refine ⟨h, ?_⟩
    cases hm : s.m_objectMaterials with
    | nil =>
      rw [hbuild, hm] at hl
      simp [DefineObjectMaterials.buildLookup, unordered_map.empty] at hl
    | cons a l => rfl
  | none =>
    rw [hl] at h
    simp only at h ⊢
    by_cases he : s.m_objectMaterials.isEmpty = true
    · simp [he] at h
    · simp only [he] at h ⊢
      exact ⟨FindMaterial_scan_found tag material material1 m _ h, trivial⟩

/-- C16: in a state whose material lookup map is the one built from the
material list (every reachable state), `SetShaderMaterial(tag)` performs no
uniform write at all when `FindMaterial` does not resolve the tag; and when
`FindMaterial` resolves it to a record (whatever the local output record held
before), the writes are exactly "material.diffuseColor",
"material.specularColor" and "material.shininess" with the values of that
record, provided a shader manager is present (none otherwise). -/
theorem SetShaderMaterial_writes (s : SceneManager)
    (hbuild : s.m_materialLookup = DefineObjectMaterials.buildLookup s.m_objectMaterials)
    (tag : String) :
    ((s.FindMaterial tag SetShaderMaterial.material).1 = false →
        s.SetShaderMaterial tag = []) ∧
      ∀ material m, s.FindMaterial tag material = (true, m) →
        s.SetShaderMaterial tag =
          if s.m_pShaderManager then
            [ ShaderCall.setVec3Value "material.diffuseColor" m.diffuseColor,
              ShaderCall.setVec3Value "material.specularColor" m.specularColor,
              ShaderCall.setFloatValue "material.shininess" (m.shininess : ℝ) ]
          else [] := by
  constructor
  · intro hf
    unfold SceneManager.SetShaderMaterial
    split
    · rfl
    · split
      · rename_i heq
        rw [heq] at hf
        cases hf
      · rfl
  · intro material m hfound
    obtain ⟨h1, hne⟩ := FindMaterial_found s hbuild tag material SetShaderMaterial.material m hfound
    unfold SceneManager.SetShaderMaterial
    cases hsh : s.m_pShaderManager with
    | false => simp
    | true => simp [hne, h1]

/-- Witness for C16: "glass" after `DefineObjectMaterials` on a fresh
`SceneManager` with a shader manager. -/
theorem SetShaderMaterial_writes_witness :
    (new true).DefineObjectMaterials.SetShaderMaterial "glass" =
      [ ShaderCall.setVec3Value "material.diffuseColor" ⟨0.2, 0.2, 0.3⟩,
        ShaderCall.setVec3Value "material.specularColor" ⟨1.0, 1.0, 1.0⟩,
        ShaderCall.setFloatValue "material.shininess" ((128.0 : ℚ) : ℝ) ] :=
  (SetShaderMaterial_writes (new true).DefineObjectMaterials rfl "glass").2 blankMaterial
    { diffuseColor := ⟨0.2, 0.2, 0.3⟩, specularColor := ⟨1.0, 1.0, 1.0⟩, shininess := 128.0,
      tag := "glass" } rfl

/-- C17: in every state reached from a fresh `SceneManager` with a shader
manager, for every tag, `SetShaderTexture(tag)` writes 1 (`true`) to
"bUseTexture" and then the value of `FindTextureSlot(tag)` to "objectTexture",
and nothing else; for a tag that was never registered the value written is -1. -/
theorem SetShaderTexture_writes (cs : List Call) (s : SceneManager) (tag : String)
    (hrun : (new true).run cs = some s) :
    ∃ slot, s.FindTextureSlot tag = some slot ∧
      s.SetShaderTexture tag =
        some [ ShaderCall.setIntValue "bUseTexture" 1,
          ShaderCall.setSampler2DValue "objectTexture" slot ] ∧
      ((∀ c ∈ cs, c.registersTag tag = false) → slot = -1) := by
  have hwf := run_wellFormed cs (new true) s (new_wellFormed true) hrun
  have hle : s.m_loadedTextures ≤ s.m_textureIDs.length := by
    obtain ⟨h1, h2⟩ := hwf
    omega
  have hsh : s.m_pShaderManager = true := (run_frame cs (new true) s hrun).1
  obtain ⟨slot, hslot⟩ := FindTextureSlot_total s hle tag
  refine ⟨slot, hslot, ?_, ?_⟩
  · simp [SceneManager.SetShaderTexture, hsh, hslot]
  · intro hnever
    have := (lookups_unregistered true cs s tag hrun hnever).1
    rw [hslot] at this
    exact Option.some.inj this

/-- Witness for C17: the registry holding "table" and "teapot", asked for
"teapot". -/
theorem SetShaderTexture_writes_witness :
    ∃ slot, twoTextures.FindTextureSlot "teapot" = some slot ∧
      twoTextures.SetShaderTexture "teapot" =
        some [ ShaderCall.setIntValue "bUseTexture" 1,
          ShaderCall.setSampler2DValue "objectTexture" slot ] ∧
      ((∀ c ∈ [ Call.CreateGLTexture (some ⟨64, 64, 3⟩) 7 "table",
          Call.CreateGLTexture none 0 "missing",
          Call.CreateGLTexture (some ⟨32, 32, 4⟩) 9 "teapot" ],
        c.registersTag "teapot" = false) → slot = -1) :=
  SetShaderTexture_writes
    [ .CreateGLTexture (some ⟨64, 64, 3⟩) 7 "table", .CreateGLTexture none 0 "missing",
      .CreateGLTexture (some ⟨32, 32, 4⟩) 9 "teapot" ]
    twoTextures "teapot" rfl

end SceneManager

/-! ### Shader state setters: texture or solid colour -/

namespace SceneManager

theorem execSurfaceCall_eq (s : SceneManager) (hsh : s.m_pShaderManager = true)
    (hle : s.m_loadedTextures ≤ s.m_textureIDs.length) (c : SurfaceCall) :
    ∃ w, s.execSurfaceCall c =
        some [ShaderCall.setIntValue "bUseTexture" c.isTexture, w] ∧
      ∀ n v, w ≠ ShaderCall.setIntValue n v := by
  cases c with
  | SetShaderTexture tag =>
    obtain ⟨slot, hslot⟩ := FindTextureSlot_total s hle tag
    exact ⟨.setSampler2DValue "objectTexture" slot,
      by simp [execSurfaceCall, SceneManager.SetShaderTexture, hsh, hslot, SurfaceCall.isTexture],
      fun _ _ h => by cases h⟩
  | SetShaderColor r g b a =>
    exact ⟨.setVec4Value "objectColor" r g b a,
      by simp [execSurfaceCall, SceneManager.SetShaderColor, hsh, SurfaceCall.isTexture],
      fun _ _ h => by cases h⟩

theorem execSurfaceCalls_snoc (s : SceneManager) (hsh : s.m_pShaderManager = true)
    (hle : s.m_loadedTextures ≤ s.m_textureIDs.length) (last : SurfaceCall) :
    ∀ calls : List SurfaceCall, ∃ trace w,
      s.execSurfaceCalls (calls ++ [last]) =
          some (trace ++ [ShaderCall.setIntValue "bUseTexture" last.isTexture, w]) ∧
        ∀ n v, w ≠ ShaderCall.setIntValue n v := by
  intro calls
  induction calls with
  | nil =>
    obtain ⟨w, hw, hne⟩ := execSurfaceCall_eq s hsh hle last
    exact ⟨[], w, by simp [execSurfaceCalls, hw], hne⟩
  | cons c calls ih =>
    obtain ⟨trace, w, h, hne⟩ := ih
    obtain ⟨w1, hw1, -⟩ := execSurfaceCall_eq s hsh hle c
    exact ⟨ShaderCall.setIntValue "bUseTexture" c.isTexture :: w1 :: trace, w,
      by simp [execSurfaceCalls, hw1, h], hne⟩

theorem ShaderCall.uniformInt_snoc (name : String) (trace : List ShaderCall) (v : Int)
    (w : ShaderCall) (hw : ∀ n v1, w ≠ ShaderCall.setIntValue n v1) :
    ShaderCall.uniformInt name (trace ++ [ShaderCall.setIntValue name v, w]) = some v := by
  unfold ShaderCall.uniformInt
  rw [List.foldl_append]
  cases w with
  | setIntValue n v1 => exact absurd rfl (hw n v1)
  | _ => simp

/-- C18: with a shader manager present, `SetShaderColor(r, g, b, a)` writes 0
(`false`) to "bUseTexture" and then the vector (r, g, b, a) to "objectColor",
and nothing else; and after any sequence of `SetShaderTexture` and
`SetShaderColor` calls (in a state within its array bounds, so that every call
returns) the "bUseTexture" uniform holds 1 when the most recent call was
`SetShaderTexture` and 0 when it was `SetShaderColor`
(`SurfaceCall.isTexture`). -/
theorem SetShaderColor_writes (s : SceneManager) (hsh : s.m_pShaderManager = true)
    (hle : s.m_loadedTextures ≤ s.m_textureIDs.length) :
    (∀ r g b a : ℚ, s.SetShaderColor r g b a =
        [ShaderCall.setIntValue "bUseTexture" 0, ShaderCall.setVec4Value "objectColor" r g b a]) ∧
      ∀ (calls : List SurfaceCall) (last : SurfaceCall),
        ∃ trace, s.execSurfaceCalls (calls ++ [last]) = some trace ∧
          ShaderCall.uniformInt "bUseTexture" trace =
            some last.isTexture := by
  constructor
  · intro r g b a
    simp [SceneManager.SetShaderColor, hsh]
  · intro calls last
    obtain ⟨trace, w, h, hne⟩ := execSurfaceCalls_snoc s hsh hle last calls
    exact ⟨_, h, ShaderCall.uniformInt_snoc "bUseTexture" trace _ w hne⟩

/-- Witness for C18: on the registry holding "table" and "teapot", a texture
call for "teapot", a colour call, and a texture call for an unknown tag. -/
theorem SetShaderColor_writes_witness :
    ∃ trace, twoTextures.execSurfaceCalls
        ([.SetShaderTexture "teapot", .SetShaderColor 1 0 0 1] ++ [.SetShaderTexture "none"]) =
        some trace ∧
      ShaderCall.uniformInt "bUseTexture" trace = some 1 :=
  (SetShaderColor_writes twoTextures rfl (by decide)).2
    [.SetShaderTexture "teapot", .SetShaderColor 1 0 0 1] (.SetShaderTexture "none")

end SceneManager

/-! ### Helper lemmas: binding -/

namespace SceneManager

theorem BindGLTextures.loop_units (ids : List TEXTURE_INFO) :
    ∀ n, n ≤ ids.length →
      ∃ gl, (List.range n).foldlM (BindGLTextures.body ids) [] = some gl ∧
        gl.length = 2 * n ∧
        ∀ i, i < n → ∃ e, ids[i]? = some e ∧ gl[2 * i]? = some (GLCall.glActiveTexture i) ∧
          gl[2 * i + 1]? = some (GLCall.glBindTexture e.ID) := by
  intro n
  induction n with
  | zero =>
    intro _
    exact ⟨[], rfl, rfl, fun i hi => absurd hi (Nat.not_lt_zero i)⟩
  | succ n ih =>
    intro hn
    obtain ⟨gl0, hfold, hlen, hget⟩ := ih (by omega)
    have hn' : n < ids.length := by omega
    refine ⟨gl0 ++ [.glActiveTexture n, .glBindTexture ids[n].ID], ?_, ?_, ?_⟩
    · rw [List.range_succ, List.foldlM_append, hfold]
      simp [BindGLTextures.body, List.getElem?_eq_getElem hn']
    · simp only [List.length_append, hlen, List.length_cons, List.length_nil]
      omega
    · intro i hi
      by_cases hin : i = n
      · subst hin
        refine ⟨ids[i], List.getElem?_eq_getElem hn', ?_, ?_⟩
        · rw [List.getElem?_append_right (by omega), hlen]
          simp
        · rw [List.getElem?_append_right (by omega), hlen]
          have : 2 * i + 1 - 2 * i = 1 := by omega
          simp [this]
      · obtain ⟨e, he, h1, h2⟩ := hget i (by omega)
        refine ⟨e, he, ?_, ?_⟩
        · rw [List.getElem?_append_left (by omega)]
          exact h1
        · rw [List.getElem?_append_left (by omega)]
          exact h2

theorem step_lookupsTied (s s1 : SceneManager) (c : Call) (h : s.step c = some s1)
    (hT : s.LookupsTied) : s1.LookupsTied := by
  unfold LookupsTied at hT ⊢
  cases c with
  | CreateGLTexture image textureID t =>
    rcases step_CreateGLTexture s s1 image textureID t h with ⟨-, hr⟩ | ⟨-, rfl⟩
    · obtain ⟨hlt, rfl⟩ := CreateGLTexture.register_eq s s1 textureID t hr
      intro e he
      simp only [registered] at he
      rw [registered_register s textureID t hlt, List.mem_append] at he
      by_cases het : e.tag = t
      · refine ⟨s.m_loadedTextures, textureID, ?_, ?_, Nat.lt_succ_self _, ?_⟩
        · simp only [unordered_map.assign, if_pos het]
        · simp only [unordered_map.assign, if_pos het]
        · simp only [List.getElem?_set_self hlt, het]
      · rcases he with he | he
        · obtain ⟨k, v, h1, h2, h3, h4⟩ := hT e he
          refine ⟨k, v, ?_, ?_, Nat.lt_succ_of_lt h3, ?_⟩
          · simp only [unordered_map.assign, if_neg het, h1]
          · simp only [unordered_map.assign, if_neg het, h2]
          · simp only
            rw [List.getElem?_set_ne (by omega)]
            exact h4
        · simp only [List.mem_singleton] at he
          subst he
          exact absurd rfl het
    · exact hT
  | DestroyGLTextures =>
    obtain ⟨ids1, rfl⟩ := step_DestroyGLTextures s s1 h
    intro e he
    simp [registered] at he
  | DefineObjectMaterials =>
    simp only [step, Option.some.injEq] at h
    subst h
    exact hT

theorem run_lookupsTied (cs : List Call) :
    ∀ (s s1 : SceneManager), s.run cs = some s1 → s.LookupsTied → s1.LookupsTied := by
  induction cs with
  | nil =>
    intro s s1 h hT
    simp only [run, Option.some.injEq] at h
    subst h
    exact hT
  | cons c cs ih =>
    intro s s1 h hT
    simp only [run] at h
    cases hs : s.step c with
    | none => simp [hs] at h
    | some s2 =>
      rw [hs, Option.some_bind] at h
      exact ih s2 s1 h (step_lookupsTied s s2 c hs hT)

theorem new_lookupsTied (p : Bool) : (new p).LookupsTied := by
  unfold LookupsTied
  intro e he
  simp [registered, new] at he

/-! ### Texture registry: binding -/

/-- C15: in every state reached from a fresh `SceneManager`, `BindGLTextures`
returns and issues exactly `m_loadedTextures` pairs of calls, the pair number
`i` (from 0) being `glActiveTexture` on unit `i` followed by `glBindTexture` of
the handle stored at array position `i`; so for every registered tag the
handle bound on unit `FindTextureSlot(tag)` is the handle `FindTextureID(tag)`
returns (converted to `int`). -/
theorem BindGLTextures_units (p : Bool) (cs : List Call) (s : SceneManager)
    (hrun : (new p).run cs = some s) :
    ∃ gl, s.BindGLTextures = some gl ∧ gl.length = 2 * s.m_loadedTextures ∧
      (∀ i, i < s.m_loadedTextures →
        ∃ e, s.m_textureIDs[i]? = some e ∧ gl[2 * i]? = some (GLCall.glActiveTexture i) ∧
          gl[2 * i + 1]? = some (GLCall.glBindTexture e.ID)) ∧
      (∀ e ∈ s.registered, ∃ k handle : Nat, s.FindTextureSlot e.tag = some (k : Int) ∧
        gl[2 * k]? = some (GLCall.glActiveTexture k) ∧
        gl[2 * k + 1]? = some (GLCall.glBindTexture handle) ∧
        s.FindTextureID e.tag = some (static_cast_int handle)) := by
  obtain ⟨hlen16, hle16⟩ := run_wellFormed cs (new p) s (new_wellFormed p) hrun
  obtain ⟨gl, hfold, hlen, hget⟩ :=
    BindGLTextures.loop_units s.m_textureIDs s.m_loadedTextures (by omega)
  refine ⟨gl, hfold, hlen, hget, ?_⟩
  intro e he
  obtain ⟨k, v, h1, h2, h3, h4⟩ := run_lookupsTied cs (new p) s hrun (new_lookupsTied p) e he
  obtain ⟨e1, he1, hg1, hg2⟩ := hget k h3
  rw [h4] at he1
  have hv : e1.ID = v := by rw [← Option.some.inj he1]
  refine ⟨k, v, ?_, hg1, ?_, ?_⟩
  · simp only [SceneManager.FindTextureSlot, h1]
  · rw [hg2, hv]
  · simp only [SceneManager.FindTextureID, h2]

/-- Witness for C15: the registry holding "table" (handle 7) and "teapot"
(handle 9). -/
theorem BindGLTextures_units_witness :
    ∃ gl, twoTextures.BindGLTextures = some gl ∧ gl.length = 2 * twoTextures.m_loadedTextures ∧
      (∀ i, i < twoTextures.m_loadedTextures →
        ∃ e, twoTextures.m_textureIDs[i]? = some e ∧
          gl[2 * i]? = some (GLCall.glActiveTexture i) ∧
          gl[2 * i + 1]? = some (GLCall.glBindTexture e.ID)) ∧
      (∀ e ∈ twoTextures.registered, ∃ k handle : Nat,
        twoTextures.FindTextureSlot e.tag = some (k : Int) ∧
        gl[2 * k]? = some (GLCall.glActiveTexture k) ∧
        gl[2 * k + 1]? = some (GLCall.glBindTexture handle) ∧
        twoTextures.FindTextureID e.tag = some (static_cast_int handle)) :=
  BindGLTextures_units true
    [ .CreateGLTexture (some ⟨64, 64, 3⟩) 7 "table", .CreateGLTexture none 0 "missing",
      .CreateGLTexture (some ⟨32, 32, 4⟩) 9 "teapot" ]
    twoTextures rfl

end SceneManager

/-! ### Helper lemmas: runs that fit into the array -/

namespace SceneManager

theorem step_room (s : SceneManager) (c : Call) (hc : c ≠ .DestroyGLTextures)
    (hroom : s.m_loadedTextures < s.m_textureIDs.length) :
    ∃ s1, s.step c = some s1 ∧ s1.m_loadedTextures ≤ s.m_loadedTextures + 1 ∧
      s1.m_textureIDs.length = s.m_textureIDs.length := by
  cases c with
  | CreateGLTexture image textureID tag =>
    have hreg : ∃ s2, CreateGLTexture.register s textureID tag = some s2 ∧
        s2.m_loadedTextures = s.m_loadedTextures + 1 ∧
        s2.m_textureIDs.length = s.m_textureIDs.length := by
      refine ⟨{ s with
        m_textureIDs := s.m_textureIDs.set s.m_loadedTextures { tag := tag, ID := textureID }
        m_textureIdLookup := s.m_textureIdLookup.assign tag textureID
        m_textureSlotLookup := s.m_textureSlotLookup.assign tag (s.m_loadedTextures : Int)
        m_loadedTextures := s.m_loadedTextures + 1 },
        by simp only [CreateGLTexture.register, if_pos hroom], rfl, ?_⟩
      simp only [List.length_set]
    obtain ⟨s2, hs2, hc2, hl2⟩ := hreg
    cases image with
    | none => exact ⟨s, rfl, Nat.le_succ _, rfl⟩
    | some img =>
      by_cases h3 : img.colorChannels = 3
      · exact ⟨s2, by simp [step, SceneManager.CreateGLTexture, h3, hs2], by omega, hl2⟩
      · by_cases h4 : img.colorChannels = 4
        · exact ⟨s2, by simp [step, SceneManager.CreateGLTexture, h3, h4, hs2], by omega, hl2⟩
        · exact ⟨s, by simp [step, SceneManager.CreateGLTexture, h3, h4], Nat.le_succ _, rfl⟩
  | DestroyGLTextures => exact absurd rfl hc
  | DefineObjectMaterials => exact ⟨_, rfl, Nat.le_succ _, rfl⟩

theorem run_room (cs : List Call) :
    ∀ s : SceneManager, (∀ c ∈ cs, c ≠ .DestroyGLTextures) →
      s.m_loadedTextures + cs.length ≤ s.m_textureIDs.length → ∃ s1, s.run cs = some s1 := by
  induction cs with
  | nil => intro s _ _; exact ⟨s, rfl⟩
  | cons c cs ih =>
    intro s hcs hroom
    simp only [List.length_cons] at hroom
    obtain ⟨s2, hs2, hc2, hl2⟩ :=
      step_room s c (hcs c (List.mem_cons_self _ _)) (by omega)
    obtain ⟨s1, hs1⟩ := ih s2 (fun c' hc' => hcs c' (List.mem_cons_of_mem _ hc')) (by omega)
    exact ⟨s1, by simp only [run, hs2, Option.some_bind, hs1]⟩

theorem run_append (cs1 cs2 : List Call) :
    ∀ s : SceneManager, s.run (cs1 ++ cs2) = (s.run cs1).bind fun s1 => s1.run cs2 := by
  induction cs1 with
  | nil => intro s; rfl
  | cons c cs1 ih =>
    intro s
    rw [List.cons_append, run, run]
    cases s.step c with
    | none => rfl
    | some s2 => rw [Option.some_bind, Option.some_bind, ih]

theorem stepGL_fst (s : SceneManager) (c : Call) :
    (s.stepGL c).map (fun r => r.1) = s.step c := by
  cases c with
  | CreateGLTexture image textureID tag =>
    simp only [stepGL, step, Option.map_map]
    rfl
  | DestroyGLTextures => rfl
  | DefineObjectMaterials => rfl

theorem runGL_fst (cs : List Call) :
    ∀ s : SceneManager, (s.runGL cs).map (fun r => r.1) = s.run cs := by
  induction cs with
  | nil => intro s; rfl
  | cons c cs ih =>
    intro s
    simp only [runGL, run, ← stepGL_fst]
    cases s.stepGL c with
    | none => rfl
    | some r1 =>
      simp only [Option.some_bind, Option.map_some', Option.map_map, ← ih]
      rfl

theorem registers_of_load (stbi_load : String → Option stbi_image) (file : String)
    (textureID : Nat) (tag : String)
    (h : ∃ img, stbi_load file = some img ∧ (img.colorChannels = 3 ∨ img.colorChannels = 4)) :
    (Call.CreateGLTexture (stbi_load file) textureID tag).registers = true := by
  obtain ⟨img, himg, hch⟩ := h
  rw [himg]
  simpa [Call.registers] using hch

theorem LoadSceneTextures.calls_register (stbi_load : String → Option stbi_image)
    (glGenTextures : Nat → Nat)
    (h : ∀ file ∈ LoadSceneTextures.files, ∃ img, stbi_load file = some img ∧
      (img.colorChannels = 3 ∨ img.colorChannels = 4)) :
    ∀ c ∈ LoadSceneTextures.calls stbi_load glGenTextures, c.registers = true := by
  intro c hc
  simp only [LoadSceneTextures.calls, List.mem_cons, List.mem_singleton, List.not_mem_nil,
    or_false] at hc
  rcases hc with rfl | rfl | rfl | rfl | rfl | rfl | rfl | rfl | rfl | rfl | rfl | rfl | rfl
  all_goals
    exact registers_of_load stbi_load _ _ _ (h _ (by simp [LoadSceneTextures.files]))

theorem FindTextureSlot_of_register (s s1 : SceneManager) (textureID : Nat) (tag : String)
    (h : CreateGLTexture.register s textureID tag = some s1) :
    s1.m_textureSlotLookup tag = some (s.m_loadedTextures : Int) := by
  obtain ⟨-, rfl⟩ := CreateGLTexture.register_eq s s1 textureID tag h
  simp only [unordered_map.assign, if_pos]

end SceneManager

/-! ### Scene preparation -/

namespace SceneManager

/-- C12: on a freshly constructed `SceneManager`, when each of the thirteen
image files is loaded with 3 or 4 channels, `PrepareScene` returns, thirteen
textures are registered, `FindTextureSlot("teapot")` is 0 and
`FindTextureSlot("leaftexture")` is 12. -/
theorem PrepareScene_slots (p : Bool) (stbi_load : String → Option stbi_image)
    (glGenTextures : Nat → Nat)
    (h : ∀ file ∈ LoadSceneTextures.files, ∃ img, stbi_load file = some img ∧
      (img.colorChannels = 3 ∨ img.colorChannels = 4)) :
    ∃ s effects, (new p).PrepareScene stbi_load glGenTextures = some (s, effects) ∧
      s.m_loadedTextures = 13 ∧ s.FindTextureSlot "teapot" = some 0 ∧
      s.FindTextureSlot "leaftexture" = some 12 := by
  have hreg := LoadSceneTextures.calls_register stbi_load glGenTextures h
  have hnd : ∀ c ∈ LoadSceneTextures.calls stbi_load glGenTextures,
      c ≠ Call.DestroyGLTextures := by
    intro c hc hd
    have := hreg c hc
    rw [hd] at this
    simp [Call.registers] at this
  obtain ⟨s1, hs1⟩ := run_room _ (new p) hnd (by simp [new, LoadSceneTextures.calls])
  -- the run with its OpenGL calls, and the binding
  have hgl := runGL_fst (LoadSceneTextures.calls stbi_load glGenTextures) (new p)
  rw [hs1, Option.map_eq_some'] at hgl
  obtain ⟨r, hr, hr1⟩ := hgl
  obtain ⟨hlen16, hle16⟩ := run_wellFormed _ (new p) s1 (new_wellFormed p) hs1
  obtain ⟨gl2, hbind, -, -⟩ :=
    BindGLTextures.loop_units s1.m_textureIDs s1.m_loadedTextures (by omega)
  have hprep : ∃ effects, (new p).PrepareScene stbi_load glGenTextures =
      some (s1.DefineObjectMaterials, effects) := by
    refine ⟨(r.2 ++ gl2).map Effect.gl ++
      (s1.DefineObjectMaterials.SetupSceneLights).map Effect.shader ++
        (if s1.DefineObjectMaterials.m_basicMeshes = false then []
        else PrepareScene.meshLoads.map Effect.mesh), ?_⟩
    simp only [PrepareScene, LoadSceneTextures, hr, Option.some_bind, hr1,
      SceneManager.BindGLTextures, hbind, Option.map_some']
  obtain ⟨effects, hprep⟩ := hprep
  -- the count
  have hcount := run_count _ (new p) s1 hnd hs1
  rw [List.filter_eq_self.mpr hreg] at hcount
  -- "teapot" is registered first and kept by the twelve other registrations
  have hteapot : s1.m_textureSlotLookup "teapot" = some 0 := by
    have hsplit : LoadSceneTextures.calls stbi_load glGenTextures =
        Call.CreateGLTexture (stbi_load "textures/ceramic.png") (glGenTextures 0) "teapot" ::
          (LoadSceneTextures.calls stbi_load glGenTextures).tail := rfl
    have hs1' := hs1
    rw [hsplit, run] at hs1'
    cases hs0 : (new p).step (Call.CreateGLTexture (stbi_load "textures/ceramic.png")
        (glGenTextures 0) "teapot") with
    | none => simp [hs0] at hs1'
    | some s0 =>
      rw [hs0, Option.some_bind] at hs1'
      have hkeep : ∀ c ∈ (LoadSceneTextures.calls stbi_load glGenTextures).tail,
          c.keeps "teapot" = true := by
        intro c hc
        simp only [LoadSceneTextures.calls, List.tail, List.mem_cons, List.mem_singleton,
          List.not_mem_nil, or_false] at hc
        rcases hc with rfl | rfl | rfl | rfl | rfl | rfl | rfl | rfl | rfl | rfl | rfl | rfl
        all_goals rfl
      rw [run_keeps_slot _ "teapot" s0 s1 hkeep hs1']
      rcases step_CreateGLTexture _ s0 _ _ _ hs0 with ⟨-, hr0⟩ | ⟨hno, -⟩
      · exact FindTextureSlot_of_register _ _ _ _ hr0
      · rw [hreg _ (by rw [hsplit]; exact List.mem_cons_self _ _)] at hno
        cases hno
  -- "leaftexture" is registered last, when twelve textures are registered
  have hleaf : s1.m_textureSlotLookup "leaftexture" = some 12 := by
    have hsplit : LoadSceneTextures.calls stbi_load glGenTextures =
        (LoadSceneTextures.calls stbi_load glGenTextures).dropLast ++
          [Call.CreateGLTexture (stbi_load "textures/leaftexture.JPG") (glGenTextures 12)
            "leaftexture"] := rfl
    have hsub : ∀ c ∈ (LoadSceneTextures.calls stbi_load glGenTextures).dropLast,
        c ∈ LoadSceneTextures.calls stbi_load glGenTextures :=
      fun c hc => List.mem_of_mem_dropLast hc
    have hs1' := hs1
    rw [hsplit, run_append] at hs1'
    cases hs12 : (new p).run (LoadSceneTextures.calls stbi_load glGenTextures).dropLast with
    | none => simp [hs12] at hs1'
    | some s12 =>
      rw [hs12, Option.some_bind, run] at hs1'
      have hc12 := run_count _ (new p) s12 (fun c hc => hnd c (hsub c hc)) hs12
      rw [List.filter_eq_self.mpr (fun c hc => hreg c (hsub c hc))] at hc12
      have hc12' : s12.m_loadedTextures = 12 := by
        rw [hc12]
        rfl
      cases hlast : s12.step (Call.CreateGLTexture (stbi_load "textures/leaftexture.JPG")
          (glGenTextures 12) "leaftexture") with
      | none => simp [hlast] at hs1'
      | some s13 =>
        rw [hlast, Option.some_bind, run] at hs1'
        cases hs1'
        rcases step_CreateGLTexture _ _ _ _ _ hlast with ⟨-, hr0⟩ | ⟨hno, -⟩
        · rw [FindTextureSlot_of_register _ _ _ _ hr0, hc12']
          rfl
        · rw [hreg _ (by rw [hsplit]; simp)] at hno
          cases hno
  refine ⟨_, effects, hprep, ?_, ?_, ?_⟩
  · rw [show s1.DefineObjectMaterials.m_loadedTextures = s1.m_loadedTextures from rfl, hcount]
    rfl
  · simp only [SceneManager.FindTextureSlot, DefineObjectMaterials, hteapot]
  · simp only [SceneManager.FindTextureSlot, DefineObjectMaterials, hleaf]

/-- Witness for C12: every file is read as a 64x64 image with 4 channels, and
the generated names are 1, 2, 3 and so on. -/
theorem PrepareScene_slots_witness :
    ∃ s effects,
      (new true).PrepareScene (fun _ => some ⟨64, 64, 4⟩) (fun i => i + 1) = some (s, effects) ∧
      s.m_loadedTextures = 13 ∧ s.FindTextureSlot "teapot" = some 0 ∧
      s.FindTextureSlot "leaftexture" = some 12 :=
  PrepareScene_slots true (fun _ => some ⟨64, 64, 4⟩) (fun i => i + 1)
    (fun _ _ => ⟨⟨64, 64, 4⟩, rfl, Or.inr rfl⟩)

end SceneManager

/-! ### Helper lemmas: the reading methods return -/

namespace SceneManager

theorem FindTextureID_total (s : SceneManager)
    (hle : s.m_loadedTextures ≤ s.m_textureIDs.length) (tag : String) :
    ∃ textureID, s.FindTextureID tag = some textureID := by
  unfold SceneManager.FindTextureID
  cases s.m_textureIdLookup tag with
  | some v => exact ⟨_, rfl⟩
  | none => exact ⟨_, Original.FindTextureID_eq s hle tag⟩

theorem execSceneCall_total (s : SceneManager)
    (hle : s.m_loadedTextures ≤ s.m_textureIDs.length) (hm : s.m_basicMeshes = true)
    (c : SceneCall) : ∃ es, s.execSceneCall c = some es := by
  cases c with
  | SetTransformations sc rx ry rz pos => exact ⟨_, rfl⟩
  | SetShaderMaterial tag => exact ⟨_, rfl⟩
  | SetShaderTexture tag =>
    obtain ⟨slot, hslot⟩ := FindTextureSlot_total s hle tag
    simp only [execSceneCall, SetShaderTexture, hslot]
    cases s.m_pShaderManager <;> simp
  | SetTextureUVScale u v => exact ⟨_, rfl⟩
  | draw mesh => exact ⟨[Effect.mesh mesh], by simp [execSceneCall, hm]⟩

theorem execSceneCalls_total (s : SceneManager)
    (hle : s.m_loadedTextures ≤ s.m_textureIDs.length) (hm : s.m_basicMeshes = true) :
    ∀ calls : List SceneCall, ∃ es, s.execSceneCalls calls = some es := by
  intro calls
  induction calls with
  | nil => exact ⟨[], rfl⟩
  | cons c calls ih =>
    obtain ⟨e, he⟩ := execSceneCall_total s hle hm c
    obtain ⟨es, hes⟩ := ih
    exact ⟨e ++ es, by simp [execSceneCalls, he, hes]⟩

theorem RenderScene_effects_total (s : SceneManager)
    (hle : s.m_loadedTextures ≤ s.m_textureIDs.length) :
    ∃ es, RenderScene.effects s = some es := by
  cases hm : s.m_basicMeshes with
  | false => exact ⟨[], by simp [RenderScene.effects, RenderScene, hm, execSceneCalls]⟩
  | true =>
    obtain ⟨es, hes⟩ := execSceneCalls_total s hle hm
      (RenderTable.calls ++ RenderBackdrop.calls ++ RenderPercolator.calls ++
        RenderCoffeeCup.calls ++ RenderBook.calls ++ RenderTray.calls ++ RenderFlowerPot.calls)
    exact ⟨es, by rw [RenderScene.effects, RenderScene_eq s hm, Option.some_bind, hes]⟩

end SceneManager

/-! ### Helper lemmas: the state transformers and the values they return -/

namespace SceneManager

theorem FindTextureID_scan_withState (tag : String) (s : SceneManager) :
    ∀ remaining index : Nat, FindTextureID.scan.withState tag remaining index s =
      (FindTextureID.scan s.m_textureIDs tag remaining index).map fun v => (v, s) := by
  intro remaining
  induction remaining with
  | zero => intro index; rfl
  | succ n ih =>
    intro index
    rw [FindTextureID.scan.withState, FindTextureID.scan]
    cases s.m_textureIDs[index]? with
    | none => rfl
    | some e =>
      by_cases he : e.tag = tag
      · simp [he]
      · simp [he, ih]

theorem FindTextureSlot_scan_withState (tag : String) (s : SceneManager) :
    ∀ remaining index : Nat, FindTextureSlot.scan.withState tag remaining index s =
      (FindTextureSlot.scan s.m_textureIDs tag remaining index).map fun v => (v, s) := by
  intro remaining
  induction remaining with
  | zero => intro index; rfl
  | succ n ih =>
    intro index
    rw [FindTextureSlot.scan.withState, FindTextureSlot.scan]
    cases s.m_textureIDs[index]? with
    | none => rfl
    | some e =>
      by_cases he : e.tag = tag
      · simp [he]
      · simp [he, ih]

theorem FindMaterial_scan_withState (tag : String) (material : OBJECT_MATERIAL)
    (s : SceneManager) :
    ∀ remaining index : Nat, remaining + index = s.m_objectMaterials.length →
      FindMaterial.scan.withState tag material remaining index s =
        (FindMaterial.scan tag material (s.m_objectMaterials.drop index), s) := by
  intro remaining
  induction remaining with
  | zero =>
    intro index h
    rw [List.drop_of_length_le (by omega)]
    rfl
  | succ n ih =>
    intro index h
    have hlt : index < s.m_objectMaterials.length := by omega
    rw [FindMaterial.scan.withState, List.getElem?_eq_getElem hlt, List.drop_eq_getElem_cons hlt,
      FindMaterial.scan]
    by_cases he : (s.m_objectMaterials[index]).tag = tag
    · simp [he]
    · simp only [he, if_false]
      exact ih (index + 1) (by omega)

theorem FindTextureID_withState (s : SceneManager) (tag : String) :
    FindTextureID.withState s tag = (s.FindTextureID tag).map fun v => (v, s) := by
  unfold FindTextureID.withState SceneManager.FindTextureID
  cases s.m_textureIdLookup tag with
  | some v => rfl
  | none => exact FindTextureID_scan_withState tag s _ _

theorem FindTextureSlot_withState (s : SceneManager) (tag : String) :
    FindTextureSlot.withState s tag = (s.FindTextureSlot tag).map fun v => (v, s) := by
  unfold FindTextureSlot.withState SceneManager.FindTextureSlot
  cases s.m_textureSlotLookup tag with
  | some v => rfl
  | none => exact FindTextureSlot_scan_withState tag s _ _

theorem FindMaterial_withState (s : SceneManager) (tag : String) (material : OBJECT_MATERIAL) :
    FindMaterial.withState s tag material = (s.FindMaterial tag material, s) := by
  unfold FindMaterial.withState SceneManager.FindMaterial
  cases s.m_materialLookup tag with
  | some m => rfl
  | none =>
    simp only
    split
    · rfl
    · rw [FindMaterial_scan_withState tag material s _ 0 (by omega)]
      rfl

theorem execSceneCall_withState (s : SceneManager) (c : SceneCall) :
    execSceneCall.withState s c = (s.execSceneCall c).map fun es => (es, s) := by
  cases c with
  | SetTransformations sc rx ry rz pos => rfl
  | SetShaderMaterial materialTag =>
    simp only [execSceneCall.withState, execSceneCall, SetShaderMaterial.withState,
      SceneManager.SetShaderMaterial, FindMaterial_withState, Option.map_some']
    split
    · rfl
    · cases hf : s.FindMaterial materialTag SetShaderMaterial.material with
      | mk found m => cases found <;> rfl
  | SetShaderTexture textureTag =>
    simp only [execSceneCall.withState, execSceneCall, SetShaderTexture.withState,
      SceneManager.SetShaderTexture, FindTextureSlot_withState]
    cases s.m_pShaderManager with
    | false => rfl
    | true => cases s.FindTextureSlot textureTag <;> rfl
  | SetTextureUVScale u v => rfl
  | draw mesh =>
    simp only [execSceneCall.withState, execSceneCall]
    cases s.m_basicMeshes <;> rfl

theorem execSceneCalls_withState (s : SceneManager) (calls : List SceneCall) :
    execSceneCalls.withState s calls = (s.execSceneCalls calls).map fun es => (es, s) := by
  induction calls with
  | nil => rfl
  | cons c calls ih =>
    rw [execSceneCalls.withState, execSceneCalls, execSceneCall_withState]
    cases s.execSceneCall c with
    | none => rfl
    | some e =>
      simp only [Option.map_some', Option.some_bind, ih]
      cases s.execSceneCalls calls <;> rfl

theorem RenderScene_withState (s : SceneManager) :
    RenderScene.withState s = (RenderScene.effects s).map fun es => (es, s) := by
  unfold RenderScene.withState RenderScene.effects
  cases s.RenderScene with
  | none => rfl
  | some calls => exact execSceneCalls_withState s calls

end SceneManager

/-! ### Scene renderer: absent mesh collaborator, and what reading leaves alone -/

namespace SceneManager

/-- C21: when the mesh collaborator is absent (`m_basicMeshes` is NULL),
`RenderScene` returns having called no object routine: its call trace is empty,
so it issues no uniform write and no draw call, and the state of the
`SceneManager` afterwards is the state before. -/
theorem RenderScene_without_meshes (s : SceneManager) (h : s.m_basicMeshes = false) :
    s.RenderScene = some [] ∧ RenderScene.effects s = some [] ∧
      ReadCall.stateAfter s .RenderScene = some s := by
  have h1 : s.RenderScene = some [] := by simp [RenderScene, h]
  have h2 : RenderScene.effects s = some [] := by
    rw [RenderScene.effects, h1, Option.some_bind]
    rfl
  exact ⟨h1, h2, by rw [ReadCall.stateAfter, RenderScene_withState, h2]; rfl⟩

/-- Witness for C21: the registry holding "table" and "teapot", without a mesh
collaborator. -/
theorem RenderScene_without_meshes_witness :
    withoutMeshes.m_basicMeshes = false ∧ withoutMeshes.m_loadedTextures = 2 ∧
      withoutMeshes.RenderScene = some [] ∧ RenderScene.effects withoutMeshes = some [] ∧
      ReadCall.stateAfter withoutMeshes .RenderScene = some withoutMeshes :=
  ⟨rfl, rfl, RenderScene_without_meshes withoutMeshes rfl⟩

/-- C22: in every state reached from a fresh `SceneManager` by calls of
`CreateGLTexture`, `DestroyGLTextures` and `DefineObjectMaterials`, each of
`FindTextureID`, `FindTextureSlot`, `FindMaterial` and `RenderScene`, run as a
state transformer, returns, returns the value of the method, and returns the
state it was entered with: the count, the array, both texture lookup maps, the
material list and the material map on return are those on entry. -/
theorem reads_keep_registry (p : Bool) (cs : List Call) (s : SceneManager)
    (hrun : (new p).run cs = some s) :
    (∀ tag : String, ∃ textureID : Int, s.FindTextureID tag = some textureID ∧
        FindTextureID.withState s tag = some (textureID, s)) ∧
      (∀ tag : String, ∃ slot : Int, s.FindTextureSlot tag = some slot ∧
        FindTextureSlot.withState s tag = some (slot, s)) ∧
      (∀ (tag : String) (material : OBJECT_MATERIAL),
        FindMaterial.withState s tag material = (s.FindMaterial tag material, s)) ∧
      (∃ effects : List Effect, RenderScene.effects s = some effects ∧
        RenderScene.withState s = some (effects, s)) ∧
      ∀ c : ReadCall, ReadCall.stateAfter s c = some s := by
  have hwf := run_wellFormed cs _ _ (new_wellFormed p) hrun
  have hle : s.m_loadedTextures ≤ s.m_textureIDs.length := by
    rw [hwf.1]
    exact hwf.2
  have hID : ∀ tag : String, ∃ textureID : Int, s.FindTextureID tag = some textureID ∧
      FindTextureID.withState s tag = some (textureID, s) := by
    intro tag
    obtain ⟨v, hv⟩ := FindTextureID_total s hle tag
    exact ⟨v, hv, by rw [FindTextureID_withState, hv]; rfl⟩
  have hSlot : ∀ tag : String, ∃ slot : Int, s.FindTextureSlot tag = some slot ∧
      FindTextureSlot.withState s tag = some (slot, s) := by
    intro tag
    obtain ⟨v, hv⟩ := FindTextureSlot_total s hle tag
    exact ⟨v, hv, by rw [FindTextureSlot_withState, hv]; rfl⟩
  have hScene : ∃ effects : List Effect, RenderScene.effects s = some effects ∧
      RenderScene.withState s = some (effects, s) := by
    obtain ⟨es, hes⟩ := RenderScene_effects_total s hle
    exact ⟨es, hes, by rw [RenderScene_withState, hes]; rfl⟩
  refine ⟨hID, hSlot, FindMaterial_withState s, hScene, ?_⟩
  intro c
  cases c with
  | FindTextureID tag =>
    obtain ⟨v, -, hv⟩ := hID tag
    rw [ReadCall.stateAfter, hv]
    rfl
  | FindTextureSlot tag =>
    obtain ⟨v, -, hv⟩ := hSlot tag
    rw [ReadCall.stateAfter, hv]
    rfl
  | FindMaterial tag material => rw [ReadCall.stateAfter, FindMaterial_withState]
  | RenderScene =>
    obtain ⟨es, -, hes⟩ := hScene
    rw [ReadCall.stateAfter, hes]
    rfl

/-- Witness for C22: the registry holding "table" and "teapot"; the lookup of
"teapot" and `RenderScene`. -/
theorem reads_keep_registry_witness :
    (∃ slot : Int, twoTextures.FindTextureSlot "teapot" = some slot ∧
        FindTextureSlot.withState twoTextures "teapot" = some (slot, twoTextures)) ∧
      (∃ effects : List Effect, RenderScene.effects twoTextures = some effects ∧
        RenderScene.withState twoTextures = some (effects, twoTextures)) ∧
      ∀ c : ReadCall, ReadCall.stateAfter twoTextures c = some twoTextures :=
  have h := reads_keep_registry true
    [ .CreateGLTexture (some ⟨64, 64, 3⟩) 7 "table", .CreateGLTexture none 0 "missing",
      .CreateGLTexture (some ⟨32, 32, 4⟩) 9 "teapot" ]
    twoTextures rfl
  ⟨h.2.1 "teapot", h.2.2.2.1, h.2.2.2.2⟩

end SceneManager

/-! ### Material registry: the defined tags -/

namespace SceneManager

/-- C23: after one `DefineObjectMaterials` call on a fresh `SceneManager` the
material list holds exactly 12 records, their tags are, in order, metal, wood,
glass, plate, backdrop, liquid, cover, spine, pages, leaf, soil and clay, these
are pairwise distinct, and the material lookup map has an entry for a tag
exactly when the tag is one of these twelve. -/
theorem DefineObjectMaterials_tags (p : Bool) :
    (new p).DefineObjectMaterials.m_objectMaterials.length = 12 ∧
      ((new p).DefineObjectMaterials.m_objectMaterials.map fun m => m.tag) =
        [ "metal", "wood", "glass", "plate", "backdrop", "liquid", "cover", "spine", "pages",
          "leaf", "soil", "clay" ] ∧
      ((new p).DefineObjectMaterials.m_objectMaterials.map fun m => m.tag).Nodup ∧
      ∀ tag : String, ((new p).DefineObjectMaterials.m_materialLookup tag).isSome = true ↔
        tag ∈ [ "metal", "wood", "glass", "plate", "backdrop", "liquid", "cover", "spine",
          "pages", "leaf", "soil", "clay" ] := by
  have hl : (new p).DefineObjectMaterials.m_objectMaterials = DefineObjectMaterials.materials :=
    rfl
  have htags : (DefineObjectMaterials.materials.map fun m => m.tag) =
      [ "metal", "wood", "glass", "plate", "backdrop", "liquid", "cover", "spine", "pages",
        "leaf", "soil", "clay" ] := rfl
  refine ⟨by rw [hl]; rfl, by rw [hl, htags], by rw [hl]; decide, ?_⟩
  intro tag
  have hm : (new p).DefineObjectMaterials.m_materialLookup =
      DefineObjectMaterials.buildLookup DefineObjectMaterials.materials := rfl
  rw [hm, DefineObjectMaterials.buildLookup_eq _
    (tagDeterminesRecord_of_subset _ fun m h => h) tag, ← htags]
  simp only [List.find?_isSome, List.mem_map, decide_eq_true_eq]

/-- C25: with a shader manager present `SetupSceneLights` issues the fixed
sequence of uniform writes `SetupSceneLights.writes`, whatever the state of the
scene; its Boolean writes are `true` to "bUseLighting" and to the `bActive`
flag of the four lights directionalLight, pointLights[0], pointLights[1] and
spotLight, and no other; so any two calls with a shader manager present, in the
same or in different states, issue the same sequence of writes. -/
theorem SetupSceneLights_fixed (s : SceneManager) (h : s.m_pShaderManager = true) :
    s.SetupSceneLights = SetupSceneLights.writes ∧
      ShaderCall.boolWrites s.SetupSceneLights =
        [ ("bUseLighting", true), ("directionalLight.bActive", true),
          ("pointLights[0].bActive", true), ("pointLights[1].bActive", true),
          ("spotLight.bActive", true) ] ∧
      ∀ s2 : SceneManager, s2.m_pShaderManager = true →
        s2.SetupSceneLights = s.SetupSceneLights := by
  have h1 : s.SetupSceneLights = SetupSceneLights.writes := by
    simp [SetupSceneLights, h]
  refine ⟨h1, ?_, ?_⟩
  · rw [h1]
    rfl
  · intro s2 h2
    rw [h1]
    simp [SetupSceneLights, h2]

/-- Witness for C25: the registry holding "table" and "teapot", compared with a
fresh `SceneManager`. -/
theorem SetupSceneLights_fixed_witness :
    twoTextures.SetupSceneLights = SetupSceneLights.writes ∧
      (new true).SetupSceneLights = twoTextures.SetupSceneLights :=
  have h := SetupSceneLights_fixed twoTextures rfl
  ⟨h.1, h.2.2 (new true) rfl⟩

end SceneManager

/-! ### Transform builder: the matrix is affine -/

theorem Spec.lastRow_Translation (t : vec3 ℝ) :
    Matrix.vecMul ![(0 : ℝ), 0, 0, 1] (Spec.Translation t) = ![0, 0, 0, 1] := by
  funext j
  fin_cases j <;>
    simp [Spec.Translation, Matrix.vecMul, Matrix.dotProduct, Fin.sum_univ_four]

theorem Spec.lastRow_RotationX (θ : ℝ) :
    Matrix.vecMul ![(0 : ℝ), 0, 0, 1] (Spec.RotationX θ) = ![0, 0, 0, 1] := by
  funext j
  fin_cases j <;>
    first
      | (simp [Spec.RotationX, Matrix.vecMul, Matrix.dotProduct, Fin.sum_univ_four]; done)
      | (simp [Spec.RotationX, Matrix.vecMul, Matrix.dotProduct, Fin.sum_univ_four]; rfl)

theorem Spec.lastRow_RotationY (θ : ℝ) :
    Matrix.vecMul ![(0 : ℝ), 0, 0, 1] (Spec.RotationY θ) = ![0, 0, 0, 1] := by
  funext j
  fin_cases j <;>
    first
      | (simp [Spec.RotationY, Matrix.vecMul, Matrix.dotProduct, Fin.sum_univ_four]; done)
      | (simp [Spec.RotationY, Matrix.vecMul, Matrix.dotProduct, Fin.sum_univ_four]; rfl)

theorem Spec.lastRow_RotationZ (θ : ℝ) :
    Matrix.vecMul ![(0 : ℝ), 0, 0, 1] (Spec.RotationZ θ) = ![0, 0, 0, 1] := by
  funext j
  fin_cases j <;>
    first
      | (simp [Spec.RotationZ, Matrix.vecMul, Matrix.dotProduct, Fin.sum_univ_four]; done)
      | (simp [Spec.RotationZ, Matrix.vecMul, Matrix.dotProduct, Fin.sum_univ_four]; rfl)

theorem Spec.lastRow_Scale (s : vec3 ℝ) :
    Matrix.vecMul ![(0 : ℝ), 0, 0, 1] (Spec.Scale s) = ![0, 0, 0, 1] := by
  funext j
  fin_cases j <;>
    simp [Spec.Scale, Matrix.vecMul, Matrix.dotProduct, Fin.sum_univ_four, Matrix.diagonal]

theorem SceneManager.SetTransformations.modelView_lastRow (s : vec3 ℝ) (rx ry rz : ℝ)
    (t : vec3 ℝ) :
    Matrix.vecMul ![(0 : ℝ), 0, 0, 1] (SceneManager.SetTransformations.modelView s rx ry rz t) =
      ![0, 0, 0, 1] := by
  rw [SceneManager.SetTransformations.modelView_eq, ← Matrix.vecMul_vecMul,
    ← Matrix.vecMul_vecMul, ← Matrix.vecMul_vecMul, ← Matrix.vecMul_vecMul,
    Spec.lastRow_Translation, Spec.lastRow_RotationZ, Spec.lastRow_RotationY,
    Spec.lastRow_RotationX, Spec.lastRow_Scale]

/-- C29: for every scale vector, rotation triple and translation, the matrix
`SetTransformations` builds for the "model" uniform (over the reals) has last
row (0,0,0,1) and last column (tx,ty,tz,1), and it maps the local origin
(0,0,0,1) to (tx,ty,tz,1). -/
theorem SceneManager.SetTransformations_affine (s : vec3 ℝ) (rx ry rz : ℝ) (t : vec3 ℝ) :
    (∀ j : Fin 4, SceneManager.SetTransformations.modelView s rx ry rz t 3 j =
        ![0, 0, 0, 1] j) ∧
      (∀ i : Fin 4, SceneManager.SetTransformations.modelView s rx ry rz t i 3 =
        ![t.x, t.y, t.z, 1] i) ∧
      (SceneManager.SetTransformations.modelView s rx ry rz t).mulVec
          (vec3.homogeneous ⟨0, 0, 0⟩) = vec3.homogeneous t := by
  have hcol : (SceneManager.SetTransformations.modelView s rx ry rz t).mulVec
      (vec3.homogeneous ⟨0, 0, 0⟩) = vec3.homogeneous t := by
    rw [SceneManager.SetTransformations.modelView_mulVec]
    simp [Spec.translatePoint, Spec.rotatePointZ, Spec.rotatePointY, Spec.rotatePointX,
      Spec.scalePoint]
  refine ⟨?_, ?_, hcol⟩
  · intro j
    have h := congrFun (SceneManager.SetTransformations.modelView_lastRow s rx ry rz t) j
    simpa [Matrix.vecMul, Matrix.dotProduct, Fin.sum_univ_four] using h
  · intro i
    have h := congrFun hcol i
    simpa [Matrix.mulVec, Matrix.dotProduct, Fin.sum_univ_four, vec3.homogeneous] using h

/-! ### Helper lemmas: the registered tags of a run without release -/

namespace SceneManager

theorem step_registered_tags (s s1 : SceneManager) (c : Call) (hc : c ≠ .DestroyGLTextures)
    (h : s.step c = some s1) :
    (s1.registered.map fun e => e.tag) =
      (s.registered.map fun e => e.tag) ++ if c.registers then [c.tag] else [] := by
  cases c with
  | CreateGLTexture image textureID t =>
    rcases step_CreateGLTexture s s1 image textureID t h with ⟨hreg, hr⟩ | ⟨hreg, rfl⟩
    · obtain ⟨hlt, rfl⟩ := CreateGLTexture.register_eq s s1 textureID t hr
      simp only [registered]
      rw [registered_register s textureID t hlt, hreg]
      simp [registered, Call.tag]
    · simp [hreg]
  | DestroyGLTextures => exact absurd rfl hc
  | DefineObjectMaterials =>
    simp only [step, Option.some.injEq] at h
    subst h
    simp [Call.registers, registered, DefineObjectMaterials]

theorem run_registered_tags (cs : List Call) :
    ∀ (s s1 : SceneManager), (∀ c ∈ cs, c ≠ .DestroyGLTextures) → s.run cs = some s1 →
      (s1.registered.map fun e => e.tag) =
        (s.registered.map fun e => e.tag) ++ (cs.filter Call.registers).map Call.tag := by
  induction cs with
  | nil =>
    intro s s1 _ h
    simp only [run, Option.some.injEq] at h
    subst h
    simp
  | cons c cs ih =>
    intro s s1 hcs h
    simp only [run] at h
    cases hs : s.step c with
    | none => simp [hs] at h
    | some s2 =>
      rw [hs, Option.some_bind] at h
      rw [ih s2 s1 (fun c' hc' => hcs c' (List.mem_cons_of_mem _ hc')) h,
        step_registered_tags s s2 c (hcs c (List.mem_cons_self _ _)) hs]
      cases hreg : c.registers <;> simp [List.filter, hreg]

theorem new_registered (p : Bool) : (new p).registered = [] := by
  simp [registered, new]

end SceneManager

/-! ### Texture registry: repeated tags -/

namespace SceneManager

/-- C24 (counterexample): registering the tag "a" twice on a fresh
`SceneManager` (handles 7 and 8) leaves two live entries, at positions 0 and 1,
that both carry the tag "a". -/
theorem CreateGLTexture_repeated_tag :
    ((new true).run [ .CreateGLTexture (some ⟨4, 4, 3⟩) 7 "a",
        .CreateGLTexture (some ⟨4, 4, 3⟩) 8 "a" ]).map
      (fun s => (s.m_loadedTextures, s.m_textureIDs[0]?, s.m_textureIDs[1]?,
        s.registered.map fun e => e.tag)) =
      some (2, some { tag := "a", ID := 7 }, some { tag := "a", ID := 8 }, ["a", "a"]) := by
  decide

/-- C24 (amended): after any sequence of `CreateGLTexture` calls on a fresh
`SceneManager` (with `DefineObjectMaterials` calls in between or not, and no
release), the tags of the live entries are the tags of the calls that reached
the registration block, in call order; so the live tags are pairwise distinct
exactly when no tag was registered twice. -/
theorem CreateGLTexture_live_tags (p : Bool) (cs : List Call) (s : SceneManager)
    (hcs : ∀ c ∈ cs, c ≠ .DestroyGLTextures) (hrun : (new p).run cs = some s) :
    (s.registered.map fun e => e.tag) = (cs.filter Call.registers).map Call.tag ∧
      (s.DistinctTags ↔ ((cs.filter Call.registers).map Call.tag).Nodup) := by
  have h := run_registered_tags cs (new p) s hcs hrun
  rw [new_registered, List.map_nil, List.nil_append] at h
  exact ⟨h, by rw [DistinctTags, h]⟩

/-- Witness for C24 (amended): the registry holding "table" and "teapot". -/
theorem CreateGLTexture_live_tags_witness :
    (twoTextures.registered.map fun e => e.tag) = ["table", "teapot"] ∧
      twoTextures.DistinctTags :=
  have h := CreateGLTexture_live_tags true
    [ .CreateGLTexture (some ⟨64, 64, 3⟩) 7 "table", .CreateGLTexture none 0 "missing",
      .CreateGLTexture (some ⟨32, 32, 4⟩) 9 "teapot" ]
    twoTextures (by decide) rfl
  ⟨h.1, h.2.2 (by decide)⟩

end SceneManager

/-! ### Helper lemmas: the slot map points at the entry of its tag -/

namespace SceneManager

theorem step_mapsTied (s s1 : SceneManager) (c : Call) (hc : c ≠ .DestroyGLTextures)
    (h : s.step c = some s1) (hT : s.MapsTied) : s1.MapsTied := by
  unfold MapsTied at hT ⊢
  cases c with
  | CreateGLTexture image textureID t =>
    rcases step_CreateGLTexture s s1 image textureID t h with ⟨-, hr⟩ | ⟨-, rfl⟩
    · obtain ⟨hlt, rfl⟩ := CreateGLTexture.register_eq s s1 textureID t hr
      intro tag k hk
      by_cases het : tag = t
      · simp only [unordered_map.assign, if_pos het, Option.some.injEq] at hk
        refine ⟨s.m_loadedTextures, textureID, hk.symm, Nat.lt_succ_self _, ?_, ?_⟩
        · simp only [List.getElem?_set_self hlt, het]
        · simp only [unordered_map.assign, if_pos het]
      · simp only [unordered_map.assign, if_neg het] at hk
        obtain ⟨n, v, h1, h2, h3, h4⟩ := hT tag k hk
        refine ⟨n, v, h1, Nat.lt_succ_of_lt h2, ?_, ?_⟩
        · simp only
          rw [List.getElem?_set_ne (by omega)]
          exact h3
        · simp only [unordered_map.assign, if_neg het, h4]
    · exact hT
  | DestroyGLTextures => exact absurd rfl hc
  | DefineObjectMaterials =>
    simp only [step, Option.some.injEq] at h
    subst h
    exact hT

theorem run_mapsTied (cs : List Call) :
    ∀ (s s1 : SceneManager), (∀ c ∈ cs, c ≠ .DestroyGLTextures) → s.run cs = some s1 →
      s.MapsTied → s1.MapsTied := by
  induction cs with
  | nil =>
    intro s s1 _ h hT
    simp only [run, Option.some.injEq] at h
    subst h
    exact hT
  | cons c cs ih =>
    intro s s1 hcs h hT
    simp only [run] at h
    cases hs : s.step c with
    | none => simp [hs] at h
    | some s2 =>
      rw [hs, Option.some_bind] at h
      exact ih s2 s1 (fun c' hc' => hcs c' (List.mem_cons_of_mem _ hc')) h
        (step_mapsTied s s2 c (hcs c (List.mem_cons_self _ _)) hs hT)

theorem new_mapsTied (p : Bool) : (new p).MapsTied := by
  intro tag k hk
  simp [new, unordered_map.empty] at hk

/-- In a state where every registered tag has an entry in the slot map, a tag
without an entry is found by no scan. -/
theorem FindTextureSlot_of_map_miss (s : SceneManager)
    (hle : s.m_loadedTextures ≤ s.m_textureIDs.length) (hT : s.LookupsTied) (tag : String)
    (hmiss : s.m_textureSlotLookup tag = none) : s.FindTextureSlot tag = some (-1) := by
  have hscan := Original.FindTextureSlot_eq s hle tag
  unfold Original.FindTextureSlot at hscan
  unfold SceneManager.FindTextureSlot
  rw [hmiss]
  simp only
  rw [hscan, firstSlot_of_not_mem]
  intro e he hte
  obtain ⟨k, v, h1, -⟩ := hT e he
  rw [hte, hmiss] at h1
  cases h1

end SceneManager

/-! ### Texture registry: the two lookups agree on the entry -/

namespace SceneManager

/-- C27: in every state reached from a fresh `SceneManager` by `CreateGLTexture`
calls, successful or failed (and `DefineObjectMaterials` calls), without a
release, if `FindTextureSlot(tag)` returns `k >= 0` then `k` is below
`m_loadedTextures`, the array entry at `k` carries `tag`, and
`FindTextureID(tag)` returns the handle of that entry as an `int`. -/
theorem lookups_same_entry (p : Bool) (cs : List Call) (s : SceneManager) (tag : String)
    (k : Int) (hcs : ∀ c ∈ cs, c ≠ .DestroyGLTextures) (hrun : (new p).run cs = some s)
    (hslot : s.FindTextureSlot tag = some k) (hk : 0 ≤ k) :
    ∃ n : Nat, k = (n : Int) ∧ n < s.m_loadedTextures ∧
      ∃ e : TEXTURE_INFO, s.m_textureIDs[n]? = some e ∧ e.tag = tag ∧
        s.FindTextureID tag = some (static_cast_int e.ID) := by
  have hwf := run_wellFormed cs _ _ (new_wellFormed p) hrun
  have hle : s.m_loadedTextures ≤ s.m_textureIDs.length := by
    rw [hwf.1]
    exact hwf.2
  have hL := run_lookupsTied cs _ _ hrun (new_lookupsTied p)
  have hM := run_mapsTied cs _ _ hcs hrun (new_mapsTied p)
  cases hm : s.m_textureSlotLookup tag with
  | none =>
    rw [FindTextureSlot_of_map_miss s hle hL tag hm] at hslot
    have : k = -1 := (Option.some.inj hslot).symm
    omega
  | some k1 =>
    have hk1 : k1 = k := by
      unfold SceneManager.FindTextureSlot at hslot
      rw [hm] at hslot
      exact Option.some.inj hslot
    subst hk1
    obtain ⟨n, v, h1, h2, h3, h4⟩ := hM tag k1 hm
    refine ⟨n, h1, h2, { tag := tag, ID := v }, h3, rfl, ?_⟩
    unfold SceneManager.FindTextureID
    rw [h4]

/-- Witness for C27: the registry holding "table" and "teapot", asked for
"teapot", which is found in slot 1. -/
theorem lookups_same_entry_witness :
    twoTextures.FindTextureSlot "teapot" = some 1 ∧
      ∃ n : Nat, (1 : Int) = (n : Int) ∧ n < twoTextures.m_loadedTextures ∧
        ∃ e : TEXTURE_INFO, twoTextures.m_textureIDs[n]? = some e ∧ e.tag = "teapot" ∧
          twoTextures.FindTextureID "teapot" = some (static_cast_int e.ID) :=
  ⟨rfl, lookups_same_entry true
    [ .CreateGLTexture (some ⟨64, 64, 3⟩) 7 "table", .CreateGLTexture none 0 "missing",
      .CreateGLTexture (some ⟨32, 32, 4⟩) 9 "teapot" ]
    twoTextures "teapot" 1 (by decide) rfl rfl (by decide)⟩

end SceneManager

/-! ### Helper lemmas: the state after scene preparation -/

namespace SceneManager

theorem step_registration_materials (s s1 : SceneManager) (c : Call)
    (hc : c.registers = true) (h : s.step c = some s1) :
    s1.m_objectMaterials = s.m_objectMaterials ∧ s1.m_materialLookup = s.m_materialLookup := by
  cases c with
  | CreateGLTexture image textureID t =>
    rcases step_CreateGLTexture s s1 image textureID t h with ⟨-, hr⟩ | ⟨-, rfl⟩
    · obtain ⟨-, rfl⟩ := CreateGLTexture.register_eq s s1 textureID t hr
      exact ⟨rfl, rfl⟩
    · exact ⟨rfl, rfl⟩
  | DestroyGLTextures => simp [Call.registers] at hc
  | DefineObjectMaterials => simp [Call.registers] at hc

theorem run_registration_materials (cs : List Call) :
    ∀ (s s1 : SceneManager), (∀ c ∈ cs, c.registers = true) → s.run cs = some s1 →
      s1.m_objectMaterials = s.m_objectMaterials ∧
        s1.m_materialLookup = s.m_materialLookup := by
  induction cs with
  | nil =>
    intro s s1 _ h
    simp only [run, Option.some.injEq] at h
    subst h
    exact ⟨rfl, rfl⟩
  | cons c cs ih =>
    intro s s1 hcs h
    simp only [run] at h
    cases hs : s.step c with
    | none => simp [hs] at h
    | some s2 =>
      rw [hs, Option.some_bind] at h
      obtain ⟨h1, h2⟩ := ih s2 s1 (fun c' hc' => hcs c' (List.mem_cons_of_mem _ hc')) h
      obtain ⟨h3, h4⟩ := step_registration_materials s s2 c (hcs c (List.mem_cons_self _ _)) hs
      exact ⟨h1.trans h3, h2.trans h4⟩

/-- When the thirteen loads succeed, `PrepareScene` on a fresh `SceneManager`
returns, and its state is `DefineObjectMaterials` applied to the state after
the thirteen registrations. -/
theorem PrepareScene_run (p : Bool) (stbi_load : String → Option stbi_image)
    (glGenTextures : Nat → Nat)
    (h : ∀ file ∈ LoadSceneTextures.files, ∃ img, stbi_load file = some img ∧
      (img.colorChannels = 3 ∨ img.colorChannels = 4)) :
    ∃ s1 effects, (new p).run (LoadSceneTextures.calls stbi_load glGenTextures) = some s1 ∧
      (new p).PrepareScene stbi_load glGenTextures = some (s1.DefineObjectMaterials, effects) := by
  have hreg := LoadSceneTextures.calls_register stbi_load glGenTextures h
  have hnd : ∀ c ∈ LoadSceneTextures.calls stbi_load glGenTextures,
      c ≠ Call.DestroyGLTextures := by
    intro c hc hd
    have := hreg c hc
    rw [hd] at this
    simp [Call.registers] at this
  obtain ⟨s1, hs1⟩ := run_room _ (new p) hnd (by simp [new, LoadSceneTextures.calls])
  have hgl := runGL_fst (LoadSceneTextures.calls stbi_load glGenTextures) (new p)
  rw [hs1, Option.map_eq_some'] at hgl
  obtain ⟨r, hr, hr1⟩ := hgl
  obtain ⟨hlen16, hle16⟩ := run_wellFormed _ (new p) s1 (new_wellFormed p) hs1
  obtain ⟨gl2, hbind, -, -⟩ :=
    BindGLTextures.loop_units s1.m_textureIDs s1.m_loadedTextures (by omega)
  refine ⟨s1, (r.2 ++ gl2).map Effect.gl ++
      (s1.DefineObjectMaterials.SetupSceneLights).map Effect.shader ++
        (if s1.DefineObjectMaterials.m_basicMeshes = false then []
        else PrepareScene.meshLoads.map Effect.mesh), hs1, ?_⟩
  simp only [PrepareScene, LoadSceneTextures, hr, Option.some_bind, hr1,
    SceneManager.BindGLTextures, hbind, Option.map_some']

end SceneManager

/-! ### Scene renderer: no lookup misses after scene preparation -/

namespace SceneManager

/-- C28: after `PrepareScene` on a fresh `SceneManager` in which each of the
thirteen image files is loaded with 3 or 4 channels, `RenderScene` returns its
call trace, and no lookup of the trace misses: every tag passed to
`SetShaderTexture` is resolved by `FindTextureSlot` to a slot `k` with
`0 <= k <= 12`, which is what is written to "objectTexture" when a shader
manager is present (never -1); and every tag passed to `SetShaderMaterial` is
resolved by `FindMaterial` to one of the twelve defined materials, the one
carrying the tag. -/
theorem RenderScene_no_miss (p : Bool) (stbi_load : String → Option stbi_image)
    (glGenTextures : Nat → Nat)
    (h : ∀ file ∈ LoadSceneTextures.files, ∃ img, stbi_load file = some img ∧
      (img.colorChannels = 3 ∨ img.colorChannels = 4)) :
    ∃ s effects calls, (new p).PrepareScene stbi_load glGenTextures = some (s, effects) ∧
      s.RenderScene = some calls ∧
      (∀ tag ∈ SceneCall.textureTags calls, ∃ k : Nat, k ≤ 12 ∧
        s.FindTextureSlot tag = some (k : Int) ∧
        (s.m_pShaderManager = true → s.SetShaderTexture tag =
          some [ ShaderCall.setIntValue "bUseTexture" 1,
            ShaderCall.setSampler2DValue "objectTexture" (k : Int) ])) ∧
      (∀ tag ∈ SceneCall.materialTags calls, ∃ m ∈ DefineObjectMaterials.materials,
        m.tag = tag ∧ ∀ material : OBJECT_MATERIAL, s.FindMaterial tag material = (true, m)) := by
  obtain ⟨s1, effects, hs1, hprep⟩ := PrepareScene_run p stbi_load glGenTextures h
  have hreg := LoadSceneTextures.calls_register stbi_load glGenTextures h
  have hnd : ∀ c ∈ LoadSceneTextures.calls stbi_load glGenTextures,
      c ≠ Call.DestroyGLTextures := by
    intro c hc hd
    have := hreg c hc
    rw [hd] at this
    simp [Call.registers] at this
  have hmesh : s1.DefineObjectMaterials.m_basicMeshes = true := (run_frame _ _ _ hs1).2
  have hcount := run_count _ (new p) s1 hnd hs1
  rw [List.filter_eq_self.mpr hreg] at hcount
  have hcount13 : s1.m_loadedTextures = 13 := by
    rw [hcount]
    rfl
  have htags := run_registered_tags _ (new p) s1 hnd hs1
  rw [new_registered, List.map_nil, List.nil_append, List.filter_eq_self.mpr hreg] at htags
  have hL := run_lookupsTied _ _ _ hs1 (new_lookupsTied p)
  obtain ⟨hmat, hmap⟩ := run_registration_materials _ (new p) s1 hreg hs1
  refine ⟨s1.DefineObjectMaterials, effects, _, hprep, RenderScene_eq _ hmesh, ?_, ?_⟩
  · intro tag htag
    have hin : tag ∈ (LoadSceneTextures.calls stbi_load glGenTextures).map Call.tag := by
      have hall : ∀ t ∈ SceneCall.textureTags (RenderTable.calls ++ RenderBackdrop.calls ++
          RenderPercolator.calls ++ RenderCoffeeCup.calls ++ RenderBook.calls ++
          RenderTray.calls ++ RenderFlowerPot.calls),
          t ∈ [ "teapot", "table", "background", "roundtable", "cup", "book", "coffee",
            "handle", "pages", "spine", "glasshandle", "soiltexture", "leaftexture" ] := by
        decide
      exact hall tag htag
    rw [← htags, List.mem_map] at hin
    obtain ⟨e, he, het⟩ := hin
    obtain ⟨k, v, h1, -, h3, -⟩ := hL e he
    rw [het] at h1
    have hslot : s1.DefineObjectMaterials.FindTextureSlot tag = some (k : Int) := by
      simp only [SceneManager.FindTextureSlot, DefineObjectMaterials, h1]
    refine ⟨k, by omega, hslot, ?_⟩
    intro hsh
    simp only [SceneManager.SetShaderTexture, hsh, hslot, if_true, Option.map_some']
  · intro tag htag
    have hin : tag ∈ DefineObjectMaterials.materials.map fun m => m.tag := by
      have hall : ∀ t ∈ SceneCall.materialTags (RenderTable.calls ++ RenderBackdrop.calls ++
          RenderPercolator.calls ++ RenderCoffeeCup.calls ++ RenderBook.calls ++
          RenderTray.calls ++ RenderFlowerPot.calls),
          t ∈ [ "metal", "wood", "glass", "plate", "backdrop", "liquid", "cover", "spine",
            "pages", "leaf", "soil", "clay" ] := by
        decide
      exact hall tag htag
    have hlist : s1.DefineObjectMaterials.m_objectMaterials = DefineObjectMaterials.materials := by
      simp only [DefineObjectMaterials, hmat]
      rfl
    have hlookup : s1.DefineObjectMaterials.m_materialLookup tag =
        DefineObjectMaterials.materials.find? (fun m => m.tag = tag) := by
      rw [← DefineObjectMaterials.buildLookup_eq _ (tagDeterminesRecord_of_subset _ fun m h => h)]
      simp only [DefineObjectMaterials, hmat]
      rfl
    cases hf : DefineObjectMaterials.materials.find? (fun m => m.tag = tag) with
    | none =>
      rw [List.find?_eq_none] at hf
      obtain ⟨m, hm, hmt⟩ := List.mem_map.mp hin
      exact absurd (by simpa using hmt) (hf m hm)
    | some m =>
      refine ⟨m, List.mem_of_find?_eq_some hf, by simpa using List.find?_some hf, ?_⟩
      intro material
      unfold SceneManager.FindMaterial
      rw [hlookup, hf]

/-- Witness for C28: every file is read as a 64x64 image with 4 channels, and
the generated names are 1, 2, 3 and so on. -/
theorem RenderScene_no_miss_witness :
    ∃ s effects calls,
      (new true).PrepareScene (fun _ => some ⟨64, 64, 4⟩) (fun i => i + 1) = some (s, effects) ∧
      s.RenderScene = some calls ∧
      (∀ tag ∈ SceneCall.textureTags calls, ∃ k : Nat, k ≤ 12 ∧
        s.FindTextureSlot tag = some (k : Int) ∧
        (s.m_pShaderManager = true → s.SetShaderTexture tag =
          some [ ShaderCall.setIntValue "bUseTexture" 1,
            ShaderCall.setSampler2DValue "objectTexture" (k : Int) ])) ∧
      (∀ tag ∈ SceneCall.materialTags calls, ∃ m ∈ DefineObjectMaterials.materials,
        m.tag = tag ∧ ∀ material : OBJECT_MATERIAL, s.FindMaterial tag material = (true, m)) :=
  RenderScene_no_miss true (fun _ => some ⟨64, 64, 4⟩) (fun i => i + 1)
    (fun _ _ => ⟨⟨64, 64, 4⟩, rfl, Or.inr rfl⟩)

end SceneManager

/-! ### View manager: the projection keys -/

namespace ViewManager

/-- The four projection tests as one choice: the last of the keys 1, 2, 3, 4
that is held down decides. -/
theorem ProcessKeyboardEvents.projection_eq {R : Type} (glfwGetKey : Key → Bool)
    (ortho : Bool) (camera : Camera R) :
    ProcessKeyboardEvents.projection glfwGetKey (ortho, camera) =
      if glfwGetKey .GLFW_KEY_4 then
        (false, { camera with
          Position := ⟨0.0, 5.5, 8.0⟩, Front := ⟨0.0, -0.5, -2.0⟩, Up := ⟨0.0, 1.0, 0.0⟩ })
      else if glfwGetKey .GLFW_KEY_3 then
        (true, { camera with
          Position := ⟨0.0, 7.0, 0.0⟩, Up := ⟨-1.0, 0.0, 0.0⟩, Front := ⟨0.0, -1.0, 0.0⟩ })
      else if glfwGetKey .GLFW_KEY_2 then
        (true, { camera with
          Position := ⟨10.0, 4.0, 0.0⟩, Up := ⟨0.0, 1.0, 0.0⟩, Front := ⟨-1.0, 0.0, 0.0⟩ })
      else if glfwGetKey .GLFW_KEY_1 then
        (true, { camera with
          Position := ⟨0.0, 4.0, 10.0⟩, Up := ⟨0.0, 1.0, 0.0⟩, Front := ⟨0.0, 0.0, -1.0⟩ })
      else (ortho, camera) := by
  unfold ProcessKeyboardEvents.projection
  cases glfwGetKey .GLFW_KEY_1 <;> cases glfwGetKey .GLFW_KEY_2 <;>
    cases glfwGetKey .GLFW_KEY_3 <;> cases glfwGetKey .GLFW_KEY_4 <;> rfl

/-- With a window and a camera, `ProcessKeyboardEvents` passes its two guards:
the state on return in terms of the movement and projection tests. -/
theorem ProcessKeyboardEvents_eq {R : Type} (v : ViewManager R) (camera : Camera R)
    (glfwGetKey : Key → Bool) (ProcessKeyboard : Camera R → Camera_Movement → ℚ → Camera R)
    (hw : v.m_pWindow = true) (hc : v.g_pCamera = some camera) :
    v.ProcessKeyboardEvents glfwGetKey ProcessKeyboard =
      { v with
        windowShouldClose := if glfwGetKey .GLFW_KEY_ESCAPE then true else v.windowShouldClose
        g_pCamera := some (ProcessKeyboardEvents.projection glfwGetKey
          (v.bOrthographicProjection,
            ProcessKeyboardEvents.movement glfwGetKey ProcessKeyboard v.gDeltaTime camera)).2
        bOrthographicProjection := (ProcessKeyboardEvents.projection glfwGetKey
          (v.bOrthographicProjection,
            ProcessKeyboardEvents.movement glfwGetKey ProcessKeyboard v.gDeltaTime camera)).1 } := by
  simp [ProcessKeyboardEvents, hw, hc]

/-- With a shader manager, a window and a camera, `PrepareSceneView` makes the
projection call chosen by the flag `ProcessKeyboardEvents` leaves. -/
theorem PrepareSceneView_eq {R : Type} (v : ViewManager R) (camera : Camera R)
    (glfwGetTime : ℚ) (glfwGetKey : Key → Bool)
    (ProcessKeyboard : Camera R → Camera_Movement → ℚ → Camera R)
    (hs : v.m_pShaderManager = true) (hw : v.m_pWindow = true)
    (hc : v.g_pCamera = some camera) :
    (v.PrepareSceneView glfwGetTime glfwGetKey ProcessKeyboard).2 =
      some (PrepareSceneView.projection
        (ProcessKeyboardEvents.projection glfwGetKey
          (v.bOrthographicProjection,
            ProcessKeyboardEvents.movement glfwGetKey ProcessKeyboard
              (glfwGetTime - v.gLastFrame) camera)).1
        (ProcessKeyboardEvents.projection glfwGetKey
          (v.bOrthographicProjection,
            ProcessKeyboardEvents.movement glfwGetKey ProcessKeyboard
              (glfwGetTime - v.gLastFrame) camera)).2.Zoom) := by
  simp [PrepareSceneView, ProcessKeyboardEvents, hs, hw, hc]

theorem PrepareSceneView.projection_ortho (Zoom : ℚ) :
    PrepareSceneView.projection true Zoom = .ortho (-5) 5 (-4) 4 (1 / 10) 100 := by
  simp only [PrepareSceneView.projection, WINDOW_WIDTH, WINDOW_HEIGHT]
  norm_num

theorem PrepareSceneView.projection_perspective (Zoom : ℚ) :
    PrepareSceneView.projection false Zoom = .perspective Zoom (5 / 4) (1 / 10) 100 := by
  simp only [PrepareSceneView.projection, WINDOW_WIDTH, WINDOW_HEIGHT]
  norm_num

/-- C26: in a state with a window and a camera, `ProcessKeyboardEvents` follows
the key map. With key 1 alone among the keys 1 to 4 it sets the orthographic
flag and the front pose (position (0,4,10), front (0,0,-1), up (0,1,0)), with
key 2 alone the flag and the side pose (position (10,4,0), front (-1,0,0), up
(0,1,0)), with key 3 alone the flag and the top pose (position (0,7,0), front
(0,-1,0), up (-1,0,0)), and `PrepareSceneView` (with a shader manager) then
calls `glm::ortho(-5, 5, -4, 4, 0.1, 100)`. With key 4 it clears the flag and
`PrepareSceneView` calls `glm::perspective` with aspect 1.25. With none of the
four keys the flag is left as it was and the camera is the one the movement
tests leave; with no key at all the whole state is left as it was. Without a
window or without a camera the method changes nothing. -/
theorem ProcessKeyboardEvents_key_map {R : Type} (v : ViewManager R) (camera : Camera R)
    (glfwGetKey : Key → Bool) (ProcessKeyboard : Camera R → Camera_Movement → ℚ → Camera R)
    (hw : v.m_pWindow = true) (hc : v.g_pCamera = some camera) :
    (glfwGetKey .GLFW_KEY_1 = true → glfwGetKey .GLFW_KEY_2 = false →
      glfwGetKey .GLFW_KEY_3 = false → glfwGetKey .GLFW_KEY_4 = false →
      (v.ProcessKeyboardEvents glfwGetKey ProcessKeyboard).bOrthographicProjection = true ∧
      (∃ camera1, (v.ProcessKeyboardEvents glfwGetKey ProcessKeyboard).g_pCamera =
          some camera1 ∧
        camera1.Position = ⟨0, 4, 10⟩ ∧ camera1.Front = ⟨0, 0, -1⟩ ∧ camera1.Up = ⟨0, 1, 0⟩) ∧
      (v.m_pShaderManager = true → ∀ glfwGetTime : ℚ,
        (v.PrepareSceneView glfwGetTime glfwGetKey ProcessKeyboard).2 =
          some (.ortho (-5) 5 (-4) 4 (1 / 10) 100))) ∧
    (glfwGetKey .GLFW_KEY_1 = false → glfwGetKey .GLFW_KEY_2 = true →
      glfwGetKey .GLFW_KEY_3 = false → glfwGetKey .GLFW_KEY_4 = false →
      (v.ProcessKeyboardEvents glfwGetKey ProcessKeyboard).bOrthographicProjection = true ∧
      (∃ camera1, (v.ProcessKeyboardEvents glfwGetKey ProcessKeyboard).g_pCamera =
          some camera1 ∧
        camera1.Position = ⟨10, 4, 0⟩ ∧ camera1.Front = ⟨-1, 0, 0⟩ ∧ camera1.Up = ⟨0, 1, 0⟩) ∧
      (v.m_pShaderManager = true → ∀ glfwGetTime : ℚ,
        (v.PrepareSceneView glfwGetTime glfwGetKey ProcessKeyboard).2 =
          some (.ortho (-5) 5 (-4) 4 (1 / 10) 100))) ∧
    (glfwGetKey .GLFW_KEY_1 = false → glfwGetKey .GLFW_KEY_2 = false →
      glfwGetKey .GLFW_KEY_3 = true → glfwGetKey .GLFW_KEY_4 = false →
      (v.ProcessKeyboardEvents glfwGetKey ProcessKeyboard).bOrthographicProjection = true ∧
      (∃ camera1, (v.ProcessKeyboardEvents glfwGetKey ProcessKeyboard).g_pCamera =
          some camera1 ∧
        camera1.Position = ⟨0, 7, 0⟩ ∧ camera1.Front = ⟨0, -1, 0⟩ ∧ camera1.Up = ⟨-1, 0, 0⟩) ∧
      (v.m_pShaderManager = true → ∀ glfwGetTime : ℚ,
        (v.PrepareSceneView glfwGetTime glfwGetKey ProcessKeyboard).2 =
          some (.ortho (-5) 5 (-4) 4 (1 / 10) 100))) ∧
    (glfwGetKey .GLFW_KEY_4 = true →
      (v.ProcessKeyboardEvents glfwGetKey ProcessKeyboard).bOrthographicProjection = false ∧
      (v.m_pShaderManager = true → ∀ glfwGetTime : ℚ, ∃ Zoom : ℚ,
        (v.PrepareSceneView glfwGetTime glfwGetKey ProcessKeyboard).2 =
          some (.perspective Zoom (5 / 4) (1 / 10) 100))) ∧
    (glfwGetKey .GLFW_KEY_1 = false → glfwGetKey .GLFW_KEY_2 = false →
      glfwGetKey .GLFW_KEY_3 = false → glfwGetKey .GLFW_KEY_4 = false →
      (v.ProcessKeyboardEvents glfwGetKey ProcessKeyboard).bOrthographicProjection =
        v.bOrthographicProjection ∧
      (v.ProcessKeyboardEvents glfwGetKey ProcessKeyboard).g_pCamera =
        some (ProcessKeyboardEvents.movement glfwGetKey ProcessKeyboard v.gDeltaTime camera)) ∧
    ((∀ key : Key, glfwGetKey key = false) →
      v.ProcessKeyboardEvents glfwGetKey ProcessKeyboard = v) ∧
    ∀ v0 : ViewManager R, v0.m_pWindow = false ∨ v0.g_pCamera = none →
      v0.ProcessKeyboardEvents glfwGetKey ProcessKeyboard = v0 := by
  have hv := ProcessKeyboardEvents_eq v camera glfwGetKey ProcessKeyboard hw hc
  have hp := fun (hs : v.m_pShaderManager = true) (t : ℚ) =>
    PrepareSceneView_eq v camera t glfwGetKey ProcessKeyboard hs hw hc
  refine ⟨?_, ?_, ?_, ?_, ?_, ?_, ?_⟩
  · intro h1 h2 h3 h4
    refine ⟨?_, ⟨_, by rw [hv], ?_, ?_, ?_⟩, ?_⟩
    · rw [hv, ProcessKeyboardEvents.projection_eq]
      simp [h1, h2, h3, h4]
    · rw [ProcessKeyboardEvents.projection_eq]
      simp [h1, h2, h3, h4]
      norm_num
    · rw [ProcessKeyboardEvents.projection_eq]
      simp [h1, h2, h3, h4]
      norm_num
    · rw [ProcessKeyboardEvents.projection_eq]
      simp [h1, h2, h3, h4]
      norm_num
    · intro hs t
      rw [hp hs t, ProcessKeyboardEvents.projection_eq]
      simp only [h1, h2, h3, h4]
      exact congrArg some (PrepareSceneView.projection_ortho _)
  · intro h1 h2 h3 h4
    refine ⟨?_, ⟨_, by rw [hv], ?_, ?_, ?_⟩, ?_⟩
    · rw [hv, ProcessKeyboardEvents.projection_eq]
      simp [h1, h2, h3, h4]
    · rw [ProcessKeyboardEvents.projection_eq]
      simp [h1, h2, h3, h4]
      norm_num
    · rw [ProcessKeyboardEvents.projection_eq]
      simp [h1, h2, h3, h4]
      norm_num
    · rw [ProcessKeyboardEvents.projection_eq]
      simp [h1, h2, h3, h4]
      norm_num
    · intro hs t
      rw [hp hs t, ProcessKeyboardEvents.projection_eq]
      simp only [h1, h2, h3, h4]
      exact congrArg some (PrepareSceneView.projection_ortho _)
  · intro h1 h2 h3 h4
    refine ⟨?_, ⟨_, by rw [hv], ?_, ?_, ?_⟩, ?_⟩
    · rw [hv, ProcessKeyboardEvents.projection_eq]
      simp [h1, h2, h3, h4]
    · rw [ProcessKeyboardEvents.projection_eq]
      simp [h1, h2, h3, h4]
      norm_num
    · rw [ProcessKeyboardEvents.projection_eq]
      simp [h1, h2, h3, h4]
      norm_num
    · rw [ProcessKeyboardEvents.projection_eq]
      simp [h1, h2, h3, h4]
      norm_num
    · intro hs t
      rw [hp hs t, ProcessKeyboardEvents.projection_eq]
      simp only [h1, h2, h3, h4]
      exact congrArg some (PrepareSceneView.projection_ortho _)
  · intro h4
    refine ⟨?_, ?_⟩
    · rw [hv, ProcessKeyboardEvents.projection_eq]
      simp [h4]
    · intro hs t
      refine ⟨(ProcessKeyboardEvents.movement glfwGetKey ProcessKeyboard
        (t - v.gLastFrame) camera).Zoom, ?_⟩
      rw [hp hs t, ProcessKeyboardEvents.projection_eq]
      simp only [h4, if_true]
      exact congrArg some (PrepareSceneView.projection_perspective _)
  · intro h1 h2 h3 h4
    rw [hv, ProcessKeyboardEvents.projection_eq]
    simp [h1, h2, h3, h4]
  · intro hnone
    rw [hv, ProcessKeyboardEvents.projection_eq]
    cases v with
    | mk f1 f2 f3 f4 f5 f6 f7 =>
      simp only at hc
      subst hc
      simp [hnone, ProcessKeyboardEvents.movement]
  · intro v0 h0
    rcases h0 with h0 | h0
    · simp [ProcessKeyboardEvents, h0]
    · unfold ProcessKeyboardEvents
      rw [h0]
      simp

/-- Witness for C26: key 2 alone, on a view manager with a window, a shader
manager and the constructor's camera. -/
theorem ProcessKeyboardEvents_key_map_witness :
    (((new true plainCamera).CreateDisplayWindow true).ProcessKeyboardEvents
        (pressed [.GLFW_KEY_2]) plainProcessKeyboard).bOrthographicProjection = true ∧
      (∃ camera1, (((new true plainCamera).CreateDisplayWindow true).ProcessKeyboardEvents
          (pressed [.GLFW_KEY_2]) plainProcessKeyboard).g_pCamera = some camera1 ∧
        camera1.Position = ⟨10, 4, 0⟩ ∧ camera1.Front = ⟨-1, 0, 0⟩ ∧ camera1.Up = ⟨0, 1, 0⟩) ∧
      (((new true plainCamera).CreateDisplayWindow true).PrepareSceneView 1
        (pressed [.GLFW_KEY_2]) plainProcessKeyboard).2 =
          some (.ortho (-5) 5 (-4) 4 (1 / 10) 100) :=
  have h := (ProcessKeyboardEvents_key_map ((new true plainCamera).CreateDisplayWindow true) _
    (pressed [.GLFW_KEY_2]) plainProcessKeyboard rfl rfl).2.1
    (by decide) (by decide) (by decide) (by decide)
  ⟨h.1, h.2.1, h.2.2 rfl 1⟩

/-- C30: in a state with a window and a camera, whatever the projection flag
and the camera pose are (so after any of the views of keys 1, 2, 3), a call of
`ProcessKeyboardEvents` with key 4 held down, alone or together with any other
keys, ends with the perspective flag and with the camera `Position`, `Front`
and `Up` at (0,5.5,8), (0,-0.5,-2) and (0,1,0), which are the values the
constructor sets (with the flag clear). -/
theorem ProcessKeyboardEvents_key4 {R : Type} (v : ViewManager R) (camera : Camera R)
    (glfwGetKey : Key → Bool) (ProcessKeyboard : Camera R → Camera_Movement → ℚ → Camera R)
    (hw : v.m_pWindow = true) (hc : v.g_pCamera = some camera)
    (h4 : glfwGetKey .GLFW_KEY_4 = true) :
    (v.ProcessKeyboardEvents glfwGetKey ProcessKeyboard).bOrthographicProjection = false ∧
      (∃ camera1, (v.ProcessKeyboardEvents glfwGetKey ProcessKeyboard).g_pCamera =
          some camera1 ∧
        camera1.Position = ⟨0, 11 / 2, 8⟩ ∧ camera1.Front = ⟨0, -1 / 2, -2⟩ ∧
        camera1.Up = ⟨0, 1, 0⟩) ∧
      ∀ (p : Bool) (camera0 : Camera R), (new p camera0).bOrthographicProjection = false ∧
        ∃ c0, (new p camera0).g_pCamera = some c0 ∧ c0.Position = ⟨0, 11 / 2, 8⟩ ∧
          c0.Front = ⟨0, -1 / 2, -2⟩ ∧ c0.Up = ⟨0, 1, 0⟩ := by
  have hv : v.ProcessKeyboardEvents glfwGetKey ProcessKeyboard =
      { v with
        windowShouldClose := if glfwGetKey .GLFW_KEY_ESCAPE then true else v.windowShouldClose
        g_pCamera := some (ProcessKeyboardEvents.projection glfwGetKey
          (v.bOrthographicProjection,
            ProcessKeyboardEvents.movement glfwGetKey ProcessKeyboard v.gDeltaTime camera)).2
        bOrthographicProjection := (ProcessKeyboardEvents.projection glfwGetKey
          (v.bOrthographicProjection,
            ProcessKeyboardEvents.movement glfwGetKey ProcessKeyboard v.gDeltaTime camera)).1 } := by
    simp [ProcessKeyboardEvents, hw, hc]
  rw [hv, ProcessKeyboardEvents.projection_eq, if_pos h4]
  refine ⟨rfl, ⟨_, rfl, ?_, ?_, ?_⟩, ?_⟩
  · norm_num
  · norm_num
  · norm_num
  · intro p camera0
    refine ⟨rfl, _, rfl, ?_, ?_, ?_⟩ <;> norm_num

/-- Witness for C30: from the side orthographic view, with the keys 1 and 4
held down together. -/
theorem ProcessKeyboardEvents_key4_witness :
    sideView.bOrthographicProjection = true ∧
      (sideView.ProcessKeyboardEvents (pressed [.GLFW_KEY_1, .GLFW_KEY_4])
        plainProcessKeyboard).bOrthographicProjection = false ∧
      ∃ camera1, (sideView.ProcessKeyboardEvents (pressed [.GLFW_KEY_1, .GLFW_KEY_4])
          plainProcessKeyboard).g_pCamera = some camera1 ∧
        camera1.Position = ⟨0, 11 / 2, 8⟩ ∧ camera1.Front = ⟨0, -1 / 2, -2⟩ ∧
        camera1.Up = ⟨0, 1, 0⟩ :=
  have h := ProcessKeyboardEvents_key4 sideView _
    (pressed [.GLFW_KEY_1, .GLFW_KEY_4]) plainProcessKeyboard rfl rfl (by decide)
  ⟨rfl, h.1, h.2.1⟩

end ViewManager
